import Mathlib

/-!
# NanoPU reassembly buffer and Homa ingress and egress pipelines

A shallow embedding of `src/network/model/nanopu-archt.cc`
(`getFirstSetBitPos`, `NanoPuArchtReassemble`) and of
`src/internet/model/homa-nanopu-transport.cc`
(`HomaNanoPuArchtPktGen::CtrlPktEvent`, `HomaNanoPuArchtIngressPipe`,
`HomaNanoPuArchtEgressPipe`), followed by the properties proved about them.

Conventions of the embedding:

* machine integers are natural numbers, reduced modulo `2^w` wherever the
  C++ type truncates;
* a `std::unordered_map` whose `find`/`insert` are used is an association
  list (`insert` leaves an existing entry alone, as in C++);
* an object method takes the object state as its first argument and returns
  the new state next to its result;
* a local that C++ declares without initialising it is an argument of the
  embedded function (its content is indeterminate, so every statement is
  quantified over it).
-/

namespace ns3

/-! ## nanopu-archt: bitmaps -/

/-- Modelled from the spec: `nanopu-archt.h`, which declares `bitmap_t` and
`BITMAP_SIZE`, is not among the sources; the spec fixes the bitmap to 64 bits. -/
def BITMAP_SIZE : Nat := 64

/-- The type `bitmap_t`: an unsigned integer of `BITMAP_SIZE` bits. -/
abbrev bitmap_t := Nat

/-- Conversion of an integer to `bitmap_t` (reduction modulo `2^64`). -/
def toBitmap (i : Int) : bitmap_t := (i % (2 : Int) ^ BITMAP_SIZE).toNat

/-- The operator `~` on `bitmap_t`. -/
def bitmapNot (n : bitmap_t) : bitmap_t := 2 ^ BITMAP_SIZE - 1 - n % 2 ^ BITMAP_SIZE

/-- Unary minus on `bitmap_t` (two's complement). -/
def bitmapNeg (n : bitmap_t) : bitmap_t := (2 ^ BITMAP_SIZE - n % 2 ^ BITMAP_SIZE) % 2 ^ BITMAP_SIZE

/-- `getFirstSetBitPos`: `(n!=0) ? log2(n & -n) : BITMAP_SIZE`.  `n & -n` is a
power of two not above `2^63`, on which the conversion to `double` and `log2`
are exact, so the truncated result is the integer logarithm. -/
def getFirstSetBitPos (n : bitmap_t) : Nat :=
  if n ≠ 0 then Nat.log2 (n &&& bitmapNeg n) else BITMAP_SIZE

/-- The `int` expression `1<<k` for a `uint16_t` count `k`.  For `k < 31` it is
`2^k`; for `k = 31` the bit pattern `0x80000000` read as `int` is `-2^31`.
A count of 32 or more is undefined in C++; the embedding takes the x86 result,
where the count is reduced modulo 32. -/
def intShiftLeftOne (k : Nat) : Int :=
  let v : Int := 2 ^ (k % 32)
  if v < 2 ^ 31 then v else v - 2 ^ 32

/-- The expression `((bitmap_t)1)<<k`.  A count of 64 or more is undefined in
C++; the embedding takes the x86 result, where the count is reduced modulo 64. -/
def bitmapShiftLeftOne (k : Nat) : bitmap_t := 2 ^ (k % BITMAP_SIZE)

/-! ## nanopu-archt: the reassembly buffer -/

/-- The struct `rxMsgInfoMeta_t` (the fields `GetRxMsgInfo` and its callers use). -/
structure rxMsgInfoMeta_t where
  rxMsgId : Nat
  ackNo : Nat
  isNewMsg : Bool
  isNewPkt : Bool
  success : Bool
deriving DecidableEq

/-- The tuple `rxMsgIdTableKey_t (srcIp, srcPort, txMsgId)`. -/
structure rxMsgIdTableKey_t where
  srcIp : Nat
  srcPort : Nat
  txMsgId : Nat
deriving DecidableEq

/-- The members of `NanoPuArchtReassemble` that `GetRxMsgInfo` reads and writes. -/
structure NanoPuArchtReassemble where
  m_rxMsgIdFreeList : List Nat
  m_rxMsgIdTable : List (rxMsgIdTableKey_t × Nat)
  m_receivedBitmap : List (Nat × bitmap_t)
deriving DecidableEq

/-- The method `insert` of `std::unordered_map`: an existing entry is kept. -/
def unorderedMapInsert {κ ν : Type} [BEq κ] (m : List (κ × ν)) (k : κ) (v : ν) : List (κ × ν) :=
  match m.lookup k with
  | some _ => m
  | none => (k, v) :: m

/-- The constructor `NanoPuArchtReassemble::NanoPuArchtReassemble (maxMessages)`,
reached through `CreateObject<NanoPuArchtReassemble> (maxMessages)`: the free
list is resized to `maxMessages` and filled with `0, 1, ...` by `std::iota`. -/
def NanoPuArchtReassemble.CreateObject (maxMessages : Nat) : NanoPuArchtReassemble :=
  { m_rxMsgIdFreeList := List.range maxMessages
    m_rxMsgIdTable := []
    m_receivedBitmap := [] }

/-- The expression `m_receivedBitmap.find (id)->second`.  Dereferencing `end ()`
is undefined in C++; the embedding reads 0 there, and every statement about the
known-flow branch is made where the entry exists. -/
def NanoPuArchtReassemble.receivedBitmapAt (self : NanoPuArchtReassemble) (id : Nat) : bitmap_t :=
  (self.m_receivedBitmap.lookup id).getD 0

/-- The method `NanoPuArchtReassemble::GetRxMsgInfo`.  The argument `rxMsgInfo` is
the content of the uninitialised local of that name. -/
def NanoPuArchtReassemble.GetRxMsgInfo (self : NanoPuArchtReassemble)
    (rxMsgInfo : rxMsgInfoMeta_t) (srcIp srcPort txMsgId msgLen pktOffset : Nat) :
    rxMsgInfoMeta_t × NanoPuArchtReassemble :=
  let rxMsgInfo := { rxMsgInfo with isNewMsg := false, isNewPkt := false, success := false }
  let key : rxMsgIdTableKey_t := ⟨srcIp, srcPort, txMsgId⟩
  match self.m_rxMsgIdTable.lookup key with
  | some entry =>
    let rxMsgInfo := { rxMsgInfo with rxMsgId := entry }
    let rxMsgInfo :=
      { rxMsgInfo with ackNo := getFirstSetBitPos (bitmapNot (self.receivedBitmapAt rxMsgInfo.rxMsgId)) }
    let rxMsgInfo :=
      if rxMsgInfo.ackNo = BITMAP_SIZE then { rxMsgInfo with ackNo := msgLen } else rxMsgInfo
    let rxMsgInfo :=
      { rxMsgInfo with
        isNewPkt :=
          decide (self.receivedBitmapAt rxMsgInfo.rxMsgId &&& toBitmap (intShiftLeftOne pktOffset) = 0) }
    let rxMsgInfo := { rxMsgInfo with success := true }
    (rxMsgInfo, self)
  | none =>
    match self.m_rxMsgIdFreeList with
    | front :: rest =>
      let rxMsgInfo := { rxMsgInfo with rxMsgId := front }
      let self := { self with m_rxMsgIdFreeList := rest }
      let self := { self with m_rxMsgIdTable := unorderedMapInsert self.m_rxMsgIdTable key rxMsgInfo.rxMsgId }
      let self := { self with m_receivedBitmap := unorderedMapInsert self.m_receivedBitmap rxMsgInfo.rxMsgId 0 }
      let rxMsgInfo := { rxMsgInfo with ackNo := 0, isNewMsg := true, isNewPkt := true, success := true }
      (rxMsgInfo, self)
    | [] => (rxMsgInfo, self)

/-! ## homa-nanopu-transport: headers, packets and the packet generator -/

/-- The constants that `homa-header.h` and `homa-nanopu-transport.h` declare and
the sources under study use; neither header is among the sources, so they are
a parameter of the embedding: the protocol number, the values of
`HomaHeader::Flags_t`, the pipeline delays in nanoseconds, and the serialised
sizes of the two headers in bytes. -/
structure HomaConstants where
  PROT_NUMBER : Nat
  DATA : Nat
  GRANT : Nat
  BUSY : Nat
  RESEND : Nat
  RSNDRSPNS : Nat
  HOMA_INGRESS_PIPE_DELAY : Nat
  HOMA_EGRESS_PIPE_DELAY : Nat
  HomaHeader_GetSerializedSize : Nat
  Ipv4Header_GetSerializedSize : Nat
deriving DecidableEq

/-- A value of the 8-bit flags field with exactly one bit set. -/
def IsFlagBit (f : Nat) : Prop := f ∈ [1, 2, 4, 8, 16, 32, 64, 128]

instance (f : Nat) : Decidable (IsFlagBit f) := by
  unfold IsFlagBit; exact inferInstance

/-- The five flags of `HomaHeader::Flags_t` form a bitmask of the 8-bit flags
field: each is a single bit and no two coincide. -/
def HomaConstants.FlagsAreBitmask (H : HomaConstants) : Prop :=
  IsFlagBit H.DATA ∧ IsFlagBit H.GRANT ∧ IsFlagBit H.BUSY ∧ IsFlagBit H.RESEND ∧
    IsFlagBit H.RSNDRSPNS ∧ [H.DATA, H.GRANT, H.BUSY, H.RESEND, H.RSNDRSPNS].Nodup

instance (H : HomaConstants) : Decidable H.FlagsAreBitmask := by
  unfold HomaConstants.FlagsAreBitmask; exact inferInstance

/-- The fields of `HomaHeader` that the setters and getters used in the sources access. -/
structure HomaHeader where
  srcPort : Nat
  dstPort : Nat
  txMsgId : Nat
  flags : Nat
  msgLen : Nat
  pktOffset : Nat
  grantOffset : Nat
  prio : Nat
  payloadSize : Nat
deriving DecidableEq

/-- The fields of `Ipv4Header` that the sources access. -/
structure Ipv4Header where
  source : Nat
  destination : Nat
  payloadSize : Nat
  ttl : Nat
  protocol : Nat
  tos : Nat
deriving DecidableEq

/-- A protocol header carried by a packet. -/
inductive Header where
  | ipv4 (h : Ipv4Header)
  | homa (h : HomaHeader)
deriving DecidableEq

/-- A packet: its headers, outermost first, its payload bytes, and the values of
the `SocketIpTosTag` packet tags attached to it, latest first. -/
structure Packet where
  headers : List Header
  payload : List Nat
  tosTags : List Nat := []
deriving DecidableEq

/-- The call `Create<Packet> ()`. -/
def Packet.Create : Packet := { headers := [], payload := [] }

/-- The method `Packet::AddHeader`. -/
def Packet.AddHeader (p : Packet) (h : Header) : Packet := { p with headers := h :: p.headers }

/-- The struct `egressMeta_t` (the fields the Homa transport accesses). -/
structure egressMeta_t where
  isData : Bool
  isNewMsg : Bool
  isRtx : Bool
  dstIP : Nat
  srcPort : Nat
  dstPort : Nat
  txMsgId : Nat
  msgLen : Nat
  pktOffset : Nat
deriving DecidableEq

/-- The struct `reassembleMeta_t` (the fields `IngressPipe` fills in). -/
structure reassembleMeta_t where
  rxMsgId : Nat
  srcIp : Nat
  srcPort : Nat
  dstPort : Nat
  txMsgId : Nat
  msgLen : Nat
  pktOffset : Nat
deriving DecidableEq

/-- The enum `NanoPuArchtPacketize::CreditEventOpCode_t` (the value the sources use). -/
inductive CreditEventOpCode_t where
  | WRITE
deriving DecidableEq

/-- The comparison functor handed to `CreditToBtxEvent`. -/
inductive RelOp where
  | greater
deriving DecidableEq

/-- Evaluation of a comparison functor: `std::greater<int> ()` is `a > b`. -/
def RelOp.eval : RelOp → Int → Int → Bool
  | RelOp.greater, a, b => decide (a > b)

/-- A call that leaves the ingress pipeline towards a collaborator, in the order made. -/
inductive Effect where
  | ArbiterReceive (p : Packet) (egressMeta : egressMeta_t)
  | ScheduleProcessNewPacket (delay : Nat) (cp : Packet) (metaData : reassembleMeta_t)
  | CreditToBtxEvent (txMsgId : Nat) (rtxPkt : Int) (newAckNo : Int) (compVal : Int)
      (opCode : CreditEventOpCode_t) (relOp : RelOp)
  | DeliveredEvent (txMsgId : Nat) (msgLen : Nat) (ackPkts : bitmap_t)
deriving DecidableEq

/-- The method `HomaNanoPuArchtPktGen::CtrlPktEvent`: it builds the control header
and hands the packet to the arbiter.  The argument `egressMeta` is the content
of the uninitialised local `meta`. -/
def HomaNanoPuArchtPktGen.CtrlPktEvent (egressMeta : egressMeta_t)
    (flag dstIp dstPort srcPort txMsgId msgLen pktOffset grantOffset priority : Nat) : Effect :=
  let egressMeta := { egressMeta with isData := false, dstIP := dstIp, msgLen := msgLen }
  let homah : HomaHeader :=
    { srcPort := srcPort
      dstPort := dstPort
      txMsgId := txMsgId
      msgLen := msgLen
      pktOffset := pktOffset
      grantOffset := grantOffset
      prio := priority
      payloadSize := 0
      flags := flag }
  let p := Packet.Create.AddHeader (Header.homa homah)
  Effect.ArbiterReceive p egressMeta

/-! ## homa-nanopu-transport: the ingress pipeline -/

/-- The members of `HomaNanoPuArchtIngressPipe`.  `m_credits` and `m_scheduledMsgs`
are only ever accessed through `operator[]`, which yields a value-initialised
entry for a key not yet present, so they are total maps with default `0` and
the empty list. -/
structure HomaNanoPuArchtIngressPipe where
  m_reassemble : NanoPuArchtReassemble
  m_rttPkts : Nat
  m_priorities : List Nat
  m_credits : Nat → Nat
  m_scheduledMsgs : Nat → List Nat

/-- The loop of `GetPriority`: `prio` is a `uint8_t` incremented per threshold passed. -/
def GetPriorityLoop (msgLen : Nat) : List Nat → Nat → Nat
  | [], prio => prio
  | threshold :: rest, prio =>
    if msgLen ≤ threshold then prio else GetPriorityLoop msgLen rest ((prio + 1) % 256)

/-- The method `HomaNanoPuArchtIngressPipe::GetPriority`. -/
def HomaNanoPuArchtIngressPipe.GetPriority (self : HomaNanoPuArchtIngressPipe) (msgLen : Nat) : Nat :=
  GetPriorityLoop msgLen self.m_priorities 0

/-- The method `HomaNanoPuArchtIngressPipe::IngressPipe`.  `iph`, `homah` and `cp` are
the two headers that `RemoveHeader` takes off the copy of the packet and the
packet that remains; `rxMsgInfo0` and `egressMeta0` are the contents of the
uninitialised locals of `GetRxMsgInfo` and `CtrlPktEvent`.  The result is `none`
when an `NS_ASSERT_MSG` fails; otherwise the C++ function returns `true`, and the
result holds the new state and the calls made. -/
def HomaNanoPuArchtIngressPipe.IngressPipe (H : HomaConstants) (self : HomaNanoPuArchtIngressPipe)
    (rxMsgInfo0 : rxMsgInfoMeta_t) (egressMeta0 : egressMeta_t)
    (iph : Ipv4Header) (homah : HomaHeader) (cp : Packet) (protocol : Nat) :
    Option (HomaNanoPuArchtIngressPipe × List Effect) :=
  if protocol ≠ 0x0800 then none else
  if iph.protocol ≠ H.PROT_NUMBER then none else
  let txMsgId := homah.txMsgId
  let pktOffset := homah.pktOffset
  let msgLen := homah.msgLen
  let rxFlag := homah.flags
  if rxFlag &&& H.DATA ≠ 0 ∨ rxFlag &&& H.RESEND ≠ 0 then
    let srcIp := iph.source
    let srcPort := homah.srcPort
    let dstPort := homah.dstPort
    let resolved := self.m_reassemble.GetRxMsgInfo rxMsgInfo0 srcIp srcPort txMsgId msgLen pktOffset
    let rxMsgInfo := resolved.1
    let self := { self with m_reassemble := resolved.2 }
    let responseFlag := 0
    let grantOffsetDiff := if rxFlag &&& H.RESEND ≠ 0 then 0 else 1
    let responseFlag :=
      if rxFlag &&& H.RESEND ≠ 0 ∧ rxMsgInfo.isNewPkt = true then (responseFlag ||| H.RSNDRSPNS) % 256
      else responseFlag
    let self :=
      if rxMsgInfo.isNewMsg = true then
        { self with
          m_credits :=
            Function.update self.m_credits rxMsgInfo.rxMsgId ((self.m_rttPkts + grantOffsetDiff) % 65536) }
      else
        { self with
          m_credits :=
            Function.update self.m_credits rxMsgInfo.rxMsgId
              ((self.m_credits rxMsgInfo.rxMsgId + grantOffsetDiff) % 65536) }
    let grantOffset := self.m_credits rxMsgInfo.rxMsgId
    let priority := self.GetPriority msgLen
    let scheduledMsgsIsEmpty := (self.m_scheduledMsgs priority).isEmpty
    let activeRxMsgId := (self.m_scheduledMsgs priority).headD 0
    let step :=
      if scheduledMsgsIsEmpty = true ∨ activeRxMsgId = rxMsgInfo.rxMsgId then
        let responseFlag := (responseFlag ||| H.GRANT) % 256
        let reply := HomaNanoPuArchtPktGen.CtrlPktEvent egressMeta0 responseFlag srcIp srcPort dstPort
          txMsgId msgLen pktOffset grantOffset priority
        if scheduledMsgsIsEmpty = false ∧ grantOffset ≥ msgLen then
          ({ self with
              m_scheduledMsgs :=
                Function.update self.m_scheduledMsgs priority (self.m_scheduledMsgs priority).tail },
            [reply])
        else (self, [reply])
      else
        let responseFlag := (responseFlag ||| H.BUSY) % 256
        let reply := HomaNanoPuArchtPktGen.CtrlPktEvent egressMeta0 responseFlag srcIp srcPort dstPort
          txMsgId msgLen pktOffset grantOffset priority
        (self, [reply])
    let self := step.1
    let calls := step.2
    let self :=
      if (scheduledMsgsIsEmpty = true ∨ rxMsgInfo.isNewMsg = true) ∧ grantOffset < msgLen then
        { self with
          m_scheduledMsgs :=
            Function.update self.m_scheduledMsgs priority
              (self.m_scheduledMsgs priority ++ [rxMsgInfo.rxMsgId]) }
      else self
    let calls :=
      if rxFlag &&& H.DATA ≠ 0 then
        let metaData : reassembleMeta_t :=
          { rxMsgId := rxMsgInfo.rxMsgId
            srcIp := srcIp
            srcPort := srcPort
            dstPort := dstPort
            txMsgId := txMsgId
            msgLen := msgLen
            pktOffset := pktOffset }
        calls ++ [Effect.ScheduleProcessNewPacket H.HOMA_INGRESS_PIPE_DELAY cp metaData]
      else calls
    some (self, calls)
  else
    let credit : Int := (homah.grantOffset : Int)
    let branch : Int × List Effect :=
      if rxFlag &&& H.RSNDRSPNS ≠ 0 then
        let rtxPkt : Int := (pktOffset : Int)
        (rtxPkt,
          [Effect.CreditToBtxEvent txMsgId rtxPkt credit credit CreditEventOpCode_t.WRITE RelOp.greater])
      else
        (-1, [Effect.DeliveredEvent txMsgId msgLen (bitmapShiftLeftOne pktOffset)])
    let rtxPkt := branch.1
    let calls := branch.2
    let calls :=
      calls ++ [Effect.CreditToBtxEvent txMsgId rtxPkt credit credit CreditEventOpCode_t.WRITE RelOp.greater]
    some (self, calls)

/-- The control replies among the calls made: the Homa header on the packet
handed to the arbiter, with its egress metadata. -/
def controlReplies : List Effect → List (HomaHeader × egressMeta_t)
  | [] => []
  | Effect.ArbiterReceive p egressMeta :: rest =>
    match p.headers with
    | [Header.homa h] => (h, egressMeta) :: controlReplies rest
    | _ => controlReplies rest
  | _ :: rest => controlReplies rest

/-- The constructor `HomaNanoPuArchtIngressPipe (reassemble, packetize, pktgen, rttPkts)`:
it stores its arguments; the thresholds, the credit counters and the scheduled
queues start empty. -/
def HomaNanoPuArchtIngressPipe.CreateObject (reassemble : NanoPuArchtReassemble) (rttPkts : Nat) :
    HomaNanoPuArchtIngressPipe :=
  { m_reassemble := reassemble
    m_rttPkts := rttPkts
    m_priorities := []
    m_credits := fun _ => 0
    m_scheduledMsgs := fun _ => [] }

/-- Modelled from the spec: a sample assignment of the constants of the missing
headers, used to instantiate the statements below.  The flags are the bits
1, 2, 4, 8 and 16 in the order in which the spec lists them (DATA, GRANT, BUSY,
RESEND, RESEND-RESPONSE); the protocol number, the pipeline delays and the
header sizes are arbitrary. -/
def sampleHomaConstants : HomaConstants :=
  { PROT_NUMBER := 253
    DATA := 1
    GRANT := 2
    BUSY := 4
    RESEND := 8
    RSNDRSPNS := 16
    HOMA_INGRESS_PIPE_DELAY := 5
    HOMA_EGRESS_PIPE_DELAY := 1
    HomaHeader_GetSerializedSize := 17
    Ipv4Header_GetSerializedSize := 20 }

/-- The receiver of the test scenario: a buffer for 100 messages
(`MaxNMessages`) and an initial credit of 10 packets (`InitialCredit`). -/
def sampleReceiver : HomaNanoPuArchtIngressPipe :=
  HomaNanoPuArchtIngressPipe.CreateObject (NanoPuArchtReassemble.CreateObject 100) 10

/-- The IPv4 header of a Homa packet from the sender `10.0.1.1` of the test scenario. -/
def sampleIpv4Header : Ipv4Header :=
  { source := 167772417
    destination := 167772673
    payloadSize := 1420
    ttl := 64
    protocol := 253
    tos := 0 }

/-- The Homa header of packet `pktOffset` of the 6-packet message `txMsgId` of the test
scenario (ports 111 and 222), with the given flags. -/
def sampleHomaHeader (flags txMsgId pktOffset : Nat) : HomaHeader :=
  { srcPort := 111
    dstPort := 222
    txMsgId := txMsgId
    flags := flags
    msgLen := 6
    pktOffset := pktOffset
    grantOffset := 0
    prio := 0
    payloadSize := 1400 }

/-! ## Sequences of calls on the reassembly buffer -/

/-- The arguments of one call of `GetRxMsgInfo` (with the content of its
uninitialised local). -/
structure GetRxMsgInfoArgs where
  rxMsgInfo : rxMsgInfoMeta_t
  srcIp : Nat
  srcPort : Nat
  txMsgId : Nat
  msgLen : Nat
  pktOffset : Nat
deriving DecidableEq

/-- The flow key that a call of `GetRxMsgInfo` builds from its arguments. -/
def GetRxMsgInfoArgs.key (a : GetRxMsgInfoArgs) : rxMsgIdTableKey_t := ⟨a.srcIp, a.srcPort, a.txMsgId⟩

/-- One call of `GetRxMsgInfo` with bundled arguments. -/
def NanoPuArchtReassemble.call (self : NanoPuArchtReassemble) (a : GetRxMsgInfoArgs) :
    rxMsgInfoMeta_t × NanoPuArchtReassemble :=
  self.GetRxMsgInfo a.rxMsgInfo a.srcIp a.srcPort a.txMsgId a.msgLen a.pktOffset

/-- A sequence of calls of `GetRxMsgInfo` made in order on one buffer: the results,
in order, and the final state. -/
def NanoPuArchtReassemble.calls (self : NanoPuArchtReassemble) :
    List GetRxMsgInfoArgs → List rxMsgInfoMeta_t × NanoPuArchtReassemble
  | [] => ([], self)
  | a :: rest => ((self.call a).1 :: ((self.call a).2.calls rest).1, ((self.call a).2.calls rest).2)

/-- The invariant of a buffer constructed for `maxMessages` messages: the ids of the
table, oldest first, followed by the free list are `0, ..., maxMessages - 1`; the
keys of the table are pairwise distinct; a bitmap is stored for exactly the ids
of the table. -/
structure NanoPuArchtReassemble.Invariant (maxMessages : Nat) (self : NanoPuArchtReassemble) : Prop where
  ids : (self.m_rxMsgIdTable.map Prod.snd).reverse ++ self.m_rxMsgIdFreeList = List.range maxMessages
  keys : (self.m_rxMsgIdTable.map Prod.fst).Nodup
  bitmaps : self.m_receivedBitmap.map Prod.fst = self.m_rxMsgIdTable.map Prod.snd

/-- The calls of the resource-exhaustion scenario: `n` flows from one sender
address and port with the transmit message ids `0, ..., n - 1`, each the first
packet of a 6-packet message. -/
def distinctFlows (n : Nat) : List GetRxMsgInfoArgs :=
  (List.range n).map (fun i => ⟨⟨0, 0, false, false, false⟩, 10, 111, i, 6, 0⟩)

/-! ## Sequences of packets through the ingress pipeline -/

/-- One packet as `IngressPipe` receives it, with the contents of the uninitialised
locals met while it is processed. -/
structure IngressPipeArgs where
  rxMsgInfo0 : rxMsgInfoMeta_t
  egressMeta0 : egressMeta_t
  iph : Ipv4Header
  homah : HomaHeader
  cp : Packet
  protocol : Nat
deriving DecidableEq

/-- One call of `IngressPipe` with bundled arguments. -/
def HomaNanoPuArchtIngressPipe.receive (H : HomaConstants) (self : HomaNanoPuArchtIngressPipe)
    (a : IngressPipeArgs) : Option (HomaNanoPuArchtIngressPipe × List Effect) :=
  self.IngressPipe H a.rxMsgInfo0 a.egressMeta0 a.iph a.homah a.cp a.protocol

/-- A sequence of packets processed in order by one ingress pipeline: the final
state and, per packet, the calls made; `none` when an assertion fails on the way. -/
def HomaNanoPuArchtIngressPipe.receiveAll (H : HomaConstants) (self : HomaNanoPuArchtIngressPipe) :
    List IngressPipeArgs → Option (HomaNanoPuArchtIngressPipe × List (List Effect))
  | [] => some (self, [])
  | a :: rest =>
    match self.receive H a with
    | none => none
    | some r =>
      match r.1.receiveAll H rest with
      | none => none
      | some rs => some (rs.1, r.2 :: rs.2)

/-- The control replies among the calls made, each reduced to whether it carries
GRANT, whether it carries BUSY, and its `grantOffset`. -/
def replySummary (H : HomaConstants) (calls : List Effect) : List (Bool × Bool × Nat) :=
  (controlReplies calls).map
    (fun c => (decide (c.1.flags &&& H.GRANT ≠ 0), decide (c.1.flags &&& H.BUSY ≠ 0), c.1.grantOffset))

/-- The hand-offs to the reassembly buffer among the calls made: the scheduled calls
of `ProcessNewPacket`, with their delay, packet and metadata. -/
def processNewPacketCalls : List Effect → List (Nat × Packet × reassembleMeta_t)
  | [] => []
  | Effect.ScheduleProcessNewPacket delay cp metaData :: rest =>
    (delay, cp, metaData) :: processNewPacketCalls rest
  | _ :: rest => processNewPacketCalls rest

/-- The credited offsets handed to the packetization buffer among the calls made:
the argument `newAckNo` of every `CreditToBtxEvent` call. -/
def creditedOffsets : List Effect → List Int
  | [] => []
  | Effect.CreditToBtxEvent _ _ newAckNo _ _ _ :: rest => newAckNo :: creditedOffsets rest
  | _ :: rest => creditedOffsets rest

/-- The DATA packet number `pktOffset` of the message `txMsgId` of `msgLen` packets from the
sender of the test scenario, as the receiver sees it. -/
def sampleDataPacket (txMsgId msgLen pktOffset : Nat) : IngressPipeArgs :=
  { rxMsgInfo0 := ⟨0, 0, false, false, false⟩
    egressMeta0 := ⟨false, false, false, 0, 0, 0, 0, 0, 0⟩
    iph := sampleIpv4Header
    homah := { sampleHomaHeader 1 txMsgId pktOffset with msgLen := msgLen }
    cp := Packet.Create
    protocol := 0x0800 }

/-- The receiver of the test scenario as the first DATA packet of the 12-packet message 0
leaves it: the message is registered under `rxMsgId` 0, its credit counter is 11, and
it is the one entry of the scheduled queue of priority 0. -/
def sampleReceiverScheduled : HomaNanoPuArchtIngressPipe :=
  { m_reassemble :=
      { m_rxMsgIdFreeList := (List.range 99).map (fun i => i + 1)
        m_rxMsgIdTable := [(⟨167772417, 111, 0⟩, 0)]
        m_receivedBitmap := [(0, 0)] }
    m_rttPkts := 10
    m_priorities := []
    m_credits := Function.update (fun _ => 0) 0 11
    m_scheduledMsgs := Function.update (fun _ => []) 0 [0] }

/-! ## homa-nanopu-transport: the egress pipeline -/

/-- The method `Packet::GetSize`: the serialised headers and the payload. -/
def Packet.GetSize (H : HomaConstants) (p : Packet) : Nat :=
  (p.headers.map (fun h =>
      match h with
      | Header.ipv4 _ => H.Ipv4Header_GetSerializedSize
      | Header.homa _ => H.HomaHeader_GetSerializedSize)).sum + p.payload.length

/-- The method `Packet::RemoveAtEnd (size)`: `size` bytes come off the end of the payload.
Removing more than the payload holds would cut into a serialised header, which
the typed headers of the embedding cannot express; there the embedding removes
the whole payload and keeps the headers. -/
def Packet.RemoveAtEnd (p : Packet) (size : Nat) : Packet :=
  { p with payload := p.payload.take (p.payload.length - size) }

/-- The method `Packet::AddPacketTag` for a `SocketIpTosTag` of the given value. -/
def Packet.AddPacketTag (p : Packet) (tos : Nat) : Packet := { p with tosTags := tos :: p.tosTags }

/-- The members of `HomaNanoPuArchtEgressPipe`.  `m_priorities` is only ever accessed
through `operator[]`, so it is a total map with default `0`. -/
structure HomaNanoPuArchtEgressPipe where
  m_priorityCutoffs : List Nat
  m_priorities : Nat → Nat

/-- The method `HomaNanoPuArchtEgressPipe::GetPriority`. -/
def HomaNanoPuArchtEgressPipe.GetPriority (self : HomaNanoPuArchtEgressPipe) (msgLen : Nat) : Nat :=
  GetPriorityLoop msgLen self.m_priorityCutoffs 0

/-- The method `HomaNanoPuArchtEgressPipe::EgressPipe`.  `homah0` is the Homa header as its
default constructor leaves it, and `SourceAddressSelection` is the address the
node's IPv4 stack selects for a destination.  The result is the new state and
the call `Simulator::Schedule (NanoSeconds (delay), SendToNetwork, cp)` as the pair
of `delay` and `cp`. -/
def HomaNanoPuArchtEgressPipe.EgressPipe (H : HomaConstants) (self : HomaNanoPuArchtEgressPipe)
    (homah0 : HomaHeader) (SourceAddressSelection : Nat → Nat)
    (p : Packet) (egressMeta : egressMeta_t) : HomaNanoPuArchtEgressPipe × (Nat × Packet) :=
  let cp := p
  let step : HomaNanoPuArchtEgressPipe × Packet × Nat :=
    if egressMeta.isData = true then
      let self :=
        if egressMeta.isNewMsg = true then
          { self with
            m_priorities :=
              Function.update self.m_priorities egressMeta.txMsgId (self.GetPriority egressMeta.msgLen) }
        else self
      let homah : HomaHeader :=
        { homah0 with
          srcPort := egressMeta.srcPort
          dstPort := egressMeta.dstPort
          txMsgId := egressMeta.txMsgId
          msgLen := egressMeta.msgLen
          pktOffset := egressMeta.pktOffset }
      let payloadSize := cp.GetSize H % 65536
      if egressMeta.isRtx = true then
        let cp := cp.RemoveAtEnd payloadSize
        let homah := { homah with flags := H.RESEND, payloadSize := 0 }
        (self, cp.AddHeader (Header.homa homah), 0)
      else
        let homah := { homah with flags := H.DATA, payloadSize := payloadSize }
        (self, cp.AddHeader (Header.homa homah), self.m_priorities egressMeta.txMsgId)
    else (self, cp, 0)
  let self := step.1
  let cp := step.2.1
  let priority := step.2.2
  let srcIP := SourceAddressSelection egressMeta.dstIP
  let iph : Ipv4Header :=
    { source := srcIP
      destination := egressMeta.dstIP
      payloadSize := cp.GetSize H % 65536
      ttl := 64
      protocol := H.PROT_NUMBER
      tos := priority }
  let cp := cp.AddHeader (Header.ipv4 iph)
  let cp := cp.AddPacketTag priority
  (self, (H.HOMA_EGRESS_PIPE_DELAY, cp))

/-- The type-of-service field of the IPv4 header a packet carries outermost. -/
def Packet.ipTos (p : Packet) : Option Nat :=
  match p.headers with
  | Header.ipv4 iph :: _ => some iph.tos
  | _ => none

/-- One packet as `EgressPipe` receives it, with the default-constructed Homa header. -/
structure EgressPipeArgs where
  homah0 : HomaHeader
  p : Packet
  egressMeta : egressMeta_t
deriving DecidableEq

/-- One call of `EgressPipe` with bundled arguments. -/
def HomaNanoPuArchtEgressPipe.send (H : HomaConstants) (SourceAddressSelection : Nat → Nat)
    (self : HomaNanoPuArchtEgressPipe) (a : EgressPipeArgs) :
    HomaNanoPuArchtEgressPipe × (Nat × Packet) :=
  self.EgressPipe H a.homah0 SourceAddressSelection a.p a.egressMeta

/-- A sequence of packets sent in order through one egress pipeline: the final
state and the scheduled transmissions. -/
def HomaNanoPuArchtEgressPipe.sendAll (H : HomaConstants) (SourceAddressSelection : Nat → Nat)
    (self : HomaNanoPuArchtEgressPipe) :
    List EgressPipeArgs → HomaNanoPuArchtEgressPipe × List (Nat × Packet)
  | [] => (self, [])
  | a :: rest =>
    (((self.send H SourceAddressSelection a).1.sendAll H SourceAddressSelection rest).1,
      (self.send H SourceAddressSelection a).2 ::
        ((self.send H SourceAddressSelection a).1.sendAll H SourceAddressSelection rest).2)

/-- A data packet of `size` payload bytes of the message `txMsgId` of `msgLen` packets, as the
packetization buffer hands it to the egress pipeline of the sender of the test
scenario. -/
def sampleEgressData (txMsgId msgLen pktOffset size : Nat) (isNewMsg isRtx : Bool) : EgressPipeArgs :=
  { homah0 := ⟨0, 0, 0, 0, 0, 0, 0, 0, 0⟩
    p := { headers := [], payload := List.replicate size 0 }
    egressMeta :=
      { isData := true
        isNewMsg := isNewMsg
        isRtx := isRtx
        dstIP := 167772673
        srcPort := 111
        dstPort := 222
        txMsgId := txMsgId
        msgLen := msgLen
        pktOffset := pktOffset } }

/-- A sender-side egress pipeline with three priority cutoffs (5, 25 and 100 packets) and
nothing cached. -/
def sampleSender : HomaNanoPuArchtEgressPipe :=
  { m_priorityCutoffs := [5, 25, 100], m_priorities := fun _ => 0 }

/-- The Homa header directly under the outermost IPv4 header of a packet. -/
def Packet.homaHeader (p : Packet) : Option HomaHeader :=
  match p.headers with
  | Header.ipv4 _ :: Header.homa h :: _ => some h
  | _ => none

/-- The priority of a message as the spec words it: the index of the first
threshold `t` of the list with `msgLen ≤ t`, or the number of thresholds when
there is no such threshold. -/
def firstThresholdIndex (thresholds : List Nat) (msgLen : Nat) : Nat :=
  thresholds.findIdx (fun t => decide (msgLen ≤ t))

/-- The receiver state `self` with `receivedBitmap` as the receive bitmaps of its reassembly
buffer and everything else as it is. -/
def HomaNanoPuArchtIngressPipe.withReceivedBitmap (self : HomaNanoPuArchtIngressPipe)
    (receivedBitmap : List (Nat × bitmap_t)) : HomaNanoPuArchtIngressPipe :=
  { self with m_reassemble := { self.m_reassemble with m_receivedBitmap := receivedBitmap } }

/-! ## Properties of the reassembly buffer -/

/-- Adding one to `m` flips exactly the bits up to its lowest unset bit `k`: the only
bit set in `m + 1` and unset in `m` is bit `k`. -/
theorem testBit_succ_and_not (k : Nat) : ∀ m : Nat, m.testBit k = false →
    (∀ j < k, m.testBit j = true) →
    ∀ i, ((m + 1).testBit i && !m.testBit i) = decide (k = i) := by
  induction k with
  | zero =>
    intro m h0 _ i
    have hm : m % 2 = 0 := by
      rw [Nat.testBit_zero] at h0
      have := of_decide_eq_false h0
      omega
    cases i with
    | zero =>
      have h1 : (m + 1).testBit 0 = true := by
        rw [Nat.testBit_zero]; exact decide_eq_true (by omega)
      simp [h1, h0]
    | succ i =>
      have h2 : (m + 1) / 2 = m / 2 := by omega
      rw [Nat.testBit_succ, Nat.testBit_succ, h2]
      simp
  | succ k ih =>
    intro m hk hlow i
    have h0 : m.testBit 0 = true := hlow 0 (Nat.succ_pos k)
    have hm : m % 2 = 1 := by
      rw [Nat.testBit_zero] at h0
      exact of_decide_eq_true h0
    cases i with
    | zero =>
      have h1 : (m + 1).testBit 0 = false := by
        rw [Nat.testBit_zero]; exact decide_eq_false (by omega)
      simp [h1]
    | succ i =>
      have h2 : (m + 1) / 2 = m / 2 + 1 := by omega
      rw [Nat.testBit_succ, Nat.testBit_succ, h2]
      have hk2 : (m / 2).testBit k = false := by rw [← Nat.testBit_succ]; exact hk
      have hlow2 : ∀ j < k, (m / 2).testBit j = true := by
        intro j hj
        rw [← Nat.testBit_succ]; exact hlow (j + 1) (Nat.succ_lt_succ hj)
      rw [ih (m / 2) hk2 hlow2 i]
      simp

/-- On the complement of a 64-bit bitmap, `getFirstSetBitPos` yields the lowest
unset bit of the bitmap (64 when all 64 bits are set). -/
theorem getFirstSetBitPos_bitmapNot (bm k : Nat) (hbm : bm < 2 ^ BITMAP_SIZE)
    (hk : bm.testBit k = false) (hlow : ∀ j < k, bm.testBit j = true) :
    getFirstSetBitPos (bitmapNot bm) = k := by
  unfold getFirstSetBitPos bitmapNeg bitmapNot
  simp only [BITMAP_SIZE] at hbm ⊢
  have hk64 : k ≤ 64 := by
    by_contra hgt
    have h1 := hlow 64 (by omega)
    rw [Nat.testBit_lt_two_pow hbm] at h1
    exact Bool.noConfusion h1
  have hnot : 2 ^ 64 - 1 - bm % 2 ^ 64 = 2 ^ 64 - (bm + 1) := by
    rw [Nat.mod_eq_of_lt hbm]; omega
  rw [hnot]
  rcases Nat.lt_or_ge k 64 with hlt | hge
  · -- some bit below 64 is unset
    have hne : bm ≠ 2 ^ 64 - 1 := by
      intro h
      rw [h, Nat.testBit_two_pow_sub_one] at hk
      exact absurd hlt (of_decide_eq_false hk)
    have hpos : 2 ^ 64 - (bm + 1) ≠ 0 := by omega
    have hneg : (2 ^ 64 - (2 ^ 64 - (bm + 1)) % 2 ^ 64) % 2 ^ 64 = bm + 1 := by omega
    have hand : (2 ^ 64 - (bm + 1)) &&& (bm + 1) = 2 ^ k := by
      apply Nat.eq_of_testBit_eq
      intro i
      rw [Nat.testBit_and, Nat.testBit_two_pow_sub_succ hbm, Nat.testBit_two_pow]
      have h3 := testBit_succ_and_not k bm hk hlow i
      by_cases hik : k = i
      · subst hik
        simp at h3
        simp [h3, hlt]
      · simp only [hik, decide_False] at h3 ⊢
        cases hb : bm.testBit i
        · rw [hb] at h3; simp at h3; simp [h3]
        · simp
    rw [if_pos hpos, hneg, hand, Nat.log2_two_pow]
  · -- all 64 bits are set
    have hk' : k = 64 := Nat.le_antisymm hk64 hge
    have hfull : bm = 2 ^ 64 - 1 := by
      apply Nat.eq_of_testBit_eq
      intro i
      rw [Nat.testBit_two_pow_sub_one]
      by_cases hi : i < 64
      · rw [hlow i (by omega)]; simp [hi]
      · have : bm < 2 ^ i := Nat.lt_of_lt_of_le hbm (Nat.pow_le_pow_right (by decide) (by omega))
        rw [Nat.testBit_lt_two_pow this]; simp [hi]
    have hz : 2 ^ 64 - (bm + 1) = 0 := by omega
    rw [hz]; simp [hk']

/-- Known flow: the result of `GetRxMsgInfo` when the key is registered. -/
theorem GetRxMsgInfo_of_known (self : NanoPuArchtReassemble) (rxMsgInfo : rxMsgInfoMeta_t)
    (srcIp srcPort txMsgId msgLen pktOffset id : Nat)
    (hreg : self.m_rxMsgIdTable.lookup ⟨srcIp, srcPort, txMsgId⟩ = some id) :
    self.GetRxMsgInfo rxMsgInfo srcIp srcPort txMsgId msgLen pktOffset =
      ({ rxMsgId := id
         ackNo :=
          if getFirstSetBitPos (bitmapNot (self.receivedBitmapAt id)) = BITMAP_SIZE then msgLen
          else getFirstSetBitPos (bitmapNot (self.receivedBitmapAt id))
         isNewMsg := false
         isNewPkt := decide (self.receivedBitmapAt id &&& toBitmap (intShiftLeftOne pktOffset) = 0)
         success := true }, self) := by
  unfold NanoPuArchtReassemble.GetRxMsgInfo
  simp only [hreg]
  split <;> simp_all

/-- New flow: the result of `GetRxMsgInfo` when the key is not registered and a
free id exists. -/
theorem GetRxMsgInfo_of_new (self : NanoPuArchtReassemble) (rxMsgInfo : rxMsgInfoMeta_t)
    (srcIp srcPort txMsgId msgLen pktOffset front : Nat) (rest : List Nat)
    (hreg : self.m_rxMsgIdTable.lookup ⟨srcIp, srcPort, txMsgId⟩ = none)
    (hfree : self.m_rxMsgIdFreeList = front :: rest) :
    self.GetRxMsgInfo rxMsgInfo srcIp srcPort txMsgId msgLen pktOffset =
      ({ rxMsgId := front, ackNo := 0, isNewMsg := true, isNewPkt := true, success := true },
       { m_rxMsgIdFreeList := rest
         m_rxMsgIdTable := (⟨srcIp, srcPort, txMsgId⟩, front) :: self.m_rxMsgIdTable
         m_receivedBitmap := unorderedMapInsert self.m_receivedBitmap front 0 }) := by
  unfold NanoPuArchtReassemble.GetRxMsgInfo
  simp only [hreg, hfree, unorderedMapInsert]

/-- Exhausted pool: the result of `GetRxMsgInfo` when the key is not registered
and no free id exists. -/
theorem GetRxMsgInfo_of_exhausted (self : NanoPuArchtReassemble) (rxMsgInfo : rxMsgInfoMeta_t)
    (srcIp srcPort txMsgId msgLen pktOffset : Nat)
    (hreg : self.m_rxMsgIdTable.lookup ⟨srcIp, srcPort, txMsgId⟩ = none)
    (hfree : self.m_rxMsgIdFreeList = []) :
    self.GetRxMsgInfo rxMsgInfo srcIp srcPort txMsgId msgLen pktOffset =
      ({ rxMsgInfo with isNewMsg := false, isNewPkt := false, success := false }, self) := by
  unfold NanoPuArchtReassemble.GetRxMsgInfo
  simp only [hreg, hfree]

/-- A bitmap whose set bits all lie below `msgLen ≤ 64` fits in 64 bits. -/
theorem bitmap_lt_of_bits_below (bm msgLen : Nat) (hlen : msgLen ≤ BITMAP_SIZE)
    (hbits : ∀ i, bm.testBit i = true → i < msgLen) : bm < 2 ^ BITMAP_SIZE := by
  apply Nat.lt_pow_two_of_testBit
  intro i hi
  cases hb : bm.testBit i
  · rfl
  · exact absurd (hbits i hb) (by omega)

/-- C1: on a registered flow key whose stored receive bitmap has all its set bits
below `msgLen ≤ 64`, `GetRxMsgInfo` returns the registered id with `success = true`
and `isNewMsg = false`, and `ackNo` is the lowest packet offset whose bit is unset
(its bit is unset and every lower bit is set); it is `msgLen` when all `msgLen`
bits are set. -/
theorem GetRxMsgInfo_known_ackNo (self : NanoPuArchtReassemble) (rxMsgInfo : rxMsgInfoMeta_t)
    (srcIp srcPort txMsgId msgLen pktOffset id : Nat) (bm : bitmap_t)
    (hreg : self.m_rxMsgIdTable.lookup ⟨srcIp, srcPort, txMsgId⟩ = some id)
    (hbm : self.m_receivedBitmap.lookup id = some bm)
    (hlen : msgLen ≤ BITMAP_SIZE)
    (hbits : ∀ i, bm.testBit i = true → i < msgLen) :
    (self.GetRxMsgInfo rxMsgInfo srcIp srcPort txMsgId msgLen pktOffset).1.success = true ∧
    (self.GetRxMsgInfo rxMsgInfo srcIp srcPort txMsgId msgLen pktOffset).1.isNewMsg = false ∧
    (self.GetRxMsgInfo rxMsgInfo srcIp srcPort txMsgId msgLen pktOffset).1.rxMsgId = id ∧
    bm.testBit (self.GetRxMsgInfo rxMsgInfo srcIp srcPort txMsgId msgLen pktOffset).1.ackNo = false ∧
    (∀ j < (self.GetRxMsgInfo rxMsgInfo srcIp srcPort txMsgId msgLen pktOffset).1.ackNo,
      bm.testBit j = true) ∧
    ((∀ j < msgLen, bm.testBit j = true) →
      (self.GetRxMsgInfo rxMsgInfo srcIp srcPort txMsgId msgLen pktOffset).1.ackNo = msgLen) := by
  have hlt : bm < 2 ^ BITMAP_SIZE := bitmap_lt_of_bits_below bm msgLen hlen hbits
  have hat : self.receivedBitmapAt id = bm := by
    unfold NanoPuArchtReassemble.receivedBitmapAt; rw [hbm]; rfl
  have hex : ∃ k, bm.testBit k = false := ⟨BITMAP_SIZE, Nat.testBit_lt_two_pow hlt⟩
  have hk : bm.testBit (Nat.find hex) = false := Nat.find_spec hex
  have hlow : ∀ j < Nat.find hex, bm.testBit j = true := by
    intro j hj
    have := Nat.find_min hex hj
    simpa using this
  have hpos := getFirstSetBitPos_bitmapNot bm (Nat.find hex) hlt hk hlow
  have hunset : bm.testBit msgLen = false := by
    cases hb : bm.testBit msgLen
    · rfl
    · exact absurd (hbits msgLen hb) (Nat.lt_irrefl _)
  have hle : Nat.find hex ≤ msgLen := Nat.find_min' hex hunset
  -- the value of `ackNo` is the lowest unset bit in either case of the test against 64
  have hack : (self.GetRxMsgInfo rxMsgInfo srcIp srcPort txMsgId msgLen pktOffset).1.ackNo =
      Nat.find hex := by
    rw [GetRxMsgInfo_of_known self rxMsgInfo srcIp srcPort txMsgId msgLen pktOffset id hreg]
    simp only [hat, hpos]
    split
    · omega
    · rfl
  rw [hack]
  rw [GetRxMsgInfo_of_known self rxMsgInfo srcIp srcPort txMsgId msgLen pktOffset id hreg]
  refine ⟨rfl, rfl, rfl, hk, hlow, ?_⟩
  intro hall
  apply Nat.le_antisymm hle
  by_contra hgt
  have h1 := hall (Nat.find hex) (by omega)
  rw [hk] at h1
  exact Bool.noConfusion h1

/-- Witness for C1: flow `(1, 2, 3)` is registered under id 0 with the bitmap `0b1011` of a
6-packet message. -/
theorem GetRxMsgInfo_known_ackNo_witness :
    ((⟨[], [(⟨1, 2, 3⟩, 0)], [(0, 11)]⟩ : NanoPuArchtReassemble).GetRxMsgInfo
        ⟨9, 9, true, true, false⟩ 1 2 3 6 0).1.success = true ∧
    ((⟨[], [(⟨1, 2, 3⟩, 0)], [(0, 11)]⟩ : NanoPuArchtReassemble).GetRxMsgInfo
        ⟨9, 9, true, true, false⟩ 1 2 3 6 0).1.isNewMsg = false ∧
    ((⟨[], [(⟨1, 2, 3⟩, 0)], [(0, 11)]⟩ : NanoPuArchtReassemble).GetRxMsgInfo
        ⟨9, 9, true, true, false⟩ 1 2 3 6 0).1.rxMsgId = 0 ∧
    Nat.testBit 11 ((⟨[], [(⟨1, 2, 3⟩, 0)], [(0, 11)]⟩ : NanoPuArchtReassemble).GetRxMsgInfo
        ⟨9, 9, true, true, false⟩ 1 2 3 6 0).1.ackNo = false := by
  have h := GetRxMsgInfo_known_ackNo ⟨[], [(⟨1, 2, 3⟩, 0)], [(0, 11)]⟩ ⟨9, 9, true, true, false⟩
    1 2 3 6 0 0 11 (by decide) (by decide) (by decide)
    (by
      intro i hi
      by_contra hge
      have h11 : 11 < 2 ^ i :=
        Nat.lt_of_lt_of_le (by decide : 11 < 2 ^ 6) (Nat.pow_le_pow_right (by decide) (by omega))
      rw [Nat.testBit_lt_two_pow h11] at hi
      exact Bool.noConfusion hi)
  exact ⟨h.1, h.2.1, h.2.2.1, h.2.2.2.1⟩

/-- For a count below 31 the `int` mask `1<<k`, converted to `bitmap_t`, is the
single bit `k`. -/
theorem toBitmap_intShiftLeftOne_of_lt (k : Nat) (hk : k < 31) :
    toBitmap (intShiftLeftOne k) = 2 ^ k := by
  revert k
  decide

/-- For the count 31 the `int` mask `1<<31` is negative, and its conversion to
`bitmap_t` sets every bit from 31 to 63. -/
theorem toBitmap_intShiftLeftOne_31 : toBitmap (intShiftLeftOne 31) = 2 ^ 64 - 2 ^ 31 := by
  decide

/-- On a registered flow and for `pktOffset < 31`, `isNewPkt` is true exactly when bit
`pktOffset` of the stored bitmap is unset. -/
theorem GetRxMsgInfo_isNewPkt_of_lt_31 (self : NanoPuArchtReassemble) (rxMsgInfo : rxMsgInfoMeta_t)
    (srcIp srcPort txMsgId msgLen pktOffset id : Nat) (bm : bitmap_t)
    (hreg : self.m_rxMsgIdTable.lookup ⟨srcIp, srcPort, txMsgId⟩ = some id)
    (hbm : self.m_receivedBitmap.lookup id = some bm)
    (hoff : pktOffset < 31) :
    ((self.GetRxMsgInfo rxMsgInfo srcIp srcPort txMsgId msgLen pktOffset).1.isNewPkt = true ↔
      bm.testBit pktOffset = false) := by
  have hat : self.receivedBitmapAt id = bm := by
    unfold NanoPuArchtReassemble.receivedBitmapAt; rw [hbm]; rfl
  rw [GetRxMsgInfo_of_known self rxMsgInfo srcIp srcPort txMsgId msgLen pktOffset id hreg]
  simp only [hat, toBitmap_intShiftLeftOne_of_lt pktOffset hoff, Nat.and_two_pow, decide_eq_true_eq]
  cases bm.testBit pktOffset <;> simp

/-- C2: evaluation of `GetRxMsgInfo` where the claim fails.  Flow `(1, 2, 3)` is
registered under id 0, of its 64 packets only packet 32 has been received (bitmap
`2^32`), and packet 31 arrives: bit 31 of the bitmap is unset, yet `isNewPkt` is
false, because the `int` mask `1<<31` covers bits 31 to 63. -/
theorem GetRxMsgInfo_isNewPkt_at_offset_31 :
    Nat.testBit (2 ^ 32) 31 = false ∧
    ((⟨[], [(⟨1, 2, 3⟩, 0)], [(0, 2 ^ 32)]⟩ : NanoPuArchtReassemble).GetRxMsgInfo
        ⟨0, 0, false, false, false⟩ 1 2 3 64 31).1.isNewPkt = false := by
  refine ⟨by decide, ?_⟩
  rw [GetRxMsgInfo_of_known _ _ 1 2 3 64 31 0 (by decide)]
  decide

/-- C5: when the flow key is not registered and the free list is empty,
`GetRxMsgInfo` returns `success = false`, `isNewMsg = false` and `isNewPkt = false`,
and the buffer (flow-key table, free list and every receive bitmap) is unchanged. -/
theorem GetRxMsgInfo_exhausted (self : NanoPuArchtReassemble) (rxMsgInfo : rxMsgInfoMeta_t)
    (srcIp srcPort txMsgId msgLen pktOffset : Nat)
    (hreg : self.m_rxMsgIdTable.lookup ⟨srcIp, srcPort, txMsgId⟩ = none)
    (hfree : self.m_rxMsgIdFreeList = []) :
    (self.GetRxMsgInfo rxMsgInfo srcIp srcPort txMsgId msgLen pktOffset).1.success = false ∧
    (self.GetRxMsgInfo rxMsgInfo srcIp srcPort txMsgId msgLen pktOffset).1.isNewMsg = false ∧
    (self.GetRxMsgInfo rxMsgInfo srcIp srcPort txMsgId msgLen pktOffset).1.isNewPkt = false ∧
    (self.GetRxMsgInfo rxMsgInfo srcIp srcPort txMsgId msgLen pktOffset).2 = self := by
  rw [GetRxMsgInfo_of_exhausted self rxMsgInfo srcIp srcPort txMsgId msgLen pktOffset hreg hfree]
  exact ⟨rfl, rfl, rfl, rfl⟩

/-- Witness for C5: the only id is taken by flow `(1, 2, 3)` and flow `(1, 2, 4)` arrives. -/
theorem GetRxMsgInfo_exhausted_witness :
    ((⟨[], [(⟨1, 2, 3⟩, 0)], [(0, 1)]⟩ : NanoPuArchtReassemble).GetRxMsgInfo
        ⟨5, 5, true, true, true⟩ 1 2 4 6 0).1.success = false ∧
    ((⟨[], [(⟨1, 2, 3⟩, 0)], [(0, 1)]⟩ : NanoPuArchtReassemble).GetRxMsgInfo
        ⟨5, 5, true, true, true⟩ 1 2 4 6 0).1.isNewMsg = false ∧
    ((⟨[], [(⟨1, 2, 3⟩, 0)], [(0, 1)]⟩ : NanoPuArchtReassemble).GetRxMsgInfo
        ⟨5, 5, true, true, true⟩ 1 2 4 6 0).1.isNewPkt = false ∧
    ((⟨[], [(⟨1, 2, 3⟩, 0)], [(0, 1)]⟩ : NanoPuArchtReassemble).GetRxMsgInfo
        ⟨5, 5, true, true, true⟩ 1 2 4 6 0).2 = ⟨[], [(⟨1, 2, 3⟩, 0)], [(0, 1)]⟩ :=
  GetRxMsgInfo_exhausted ⟨[], [(⟨1, 2, 3⟩, 0)], [(0, 1)]⟩ ⟨5, 5, true, true, true⟩ 1 2 4 6 0
    (by decide) (by decide)

/-! ### Sequences of calls and the invariant -/

/-- A key found by `lookup` is the key of an entry of the list. -/
theorem mem_of_lookup_eq_some {κ ν : Type} [DecidableEq κ] (l : List (κ × ν)) (k : κ) (v : ν)
    (h : l.lookup k = some v) : (k, v) ∈ l := by
  induction l with
  | nil => simp at h
  | cons p l ih =>
    obtain ⟨k0, v0⟩ := p
    rw [List.lookup_cons] at h
    by_cases hk : k = k0
    · subst hk
      simp at h
      subst h
      exact List.mem_cons_self _ _
    · have hb : (k == k0) = false := by simpa using hk
      rw [hb] at h
      exact List.mem_cons_of_mem _ (ih h)

/-- A key is not found by `lookup` exactly when it is the key of no entry. -/
theorem lookup_eq_none_iff_not_mem {κ ν : Type} [DecidableEq κ] (l : List (κ × ν)) (k : κ) :
    l.lookup k = none ↔ k ∉ l.map Prod.fst := by
  induction l with
  | nil => simp
  | cons p l ih =>
    obtain ⟨k0, v0⟩ := p
    rw [List.lookup_cons]
    by_cases hk : k = k0
    · subst hk
      simp
    · have hb : (k == k0) = false := by simpa using hk
      rw [hb]
      simp [ih, hk]

/-- One call keeps every registered key registered to the same id. -/
theorem call_lookup_of_some (self : NanoPuArchtReassemble) (a : GetRxMsgInfoArgs)
    (k : rxMsgIdTableKey_t) (id : Nat) (h : self.m_rxMsgIdTable.lookup k = some id) :
    (self.call a).2.m_rxMsgIdTable.lookup k = some id := by
  unfold NanoPuArchtReassemble.call
  cases hreg : self.m_rxMsgIdTable.lookup ⟨a.srcIp, a.srcPort, a.txMsgId⟩ with
  | some entry =>
    rw [GetRxMsgInfo_of_known self _ _ _ _ _ _ entry hreg]
    exact h
  | none =>
    cases hfree : self.m_rxMsgIdFreeList with
    | nil =>
      rw [GetRxMsgInfo_of_exhausted self _ _ _ _ _ _ hreg hfree]
      exact h
    | cons front rest =>
      rw [GetRxMsgInfo_of_new self _ _ _ _ _ _ front rest hreg hfree]
      have hne : k ≠ ⟨a.srcIp, a.srcPort, a.txMsgId⟩ := by
        intro hk
        rw [hk, hreg] at h
        exact Option.noConfusion h
      have hb : (k == (⟨a.srcIp, a.srcPort, a.txMsgId⟩ : rxMsgIdTableKey_t)) = false := by
        simpa using hne
      simp only [List.lookup_cons, hb]
      exact h

/-- One call for another key leaves an unregistered key unregistered. -/
theorem call_lookup_of_none (self : NanoPuArchtReassemble) (a : GetRxMsgInfoArgs)
    (k : rxMsgIdTableKey_t) (h : self.m_rxMsgIdTable.lookup k = none) (hne : a.key ≠ k) :
    (self.call a).2.m_rxMsgIdTable.lookup k = none := by
  unfold NanoPuArchtReassemble.call
  cases hreg : self.m_rxMsgIdTable.lookup ⟨a.srcIp, a.srcPort, a.txMsgId⟩ with
  | some entry =>
    rw [GetRxMsgInfo_of_known self _ _ _ _ _ _ entry hreg]
    exact h
  | none =>
    cases hfree : self.m_rxMsgIdFreeList with
    | nil =>
      rw [GetRxMsgInfo_of_exhausted self _ _ _ _ _ _ hreg hfree]
      exact h
    | cons front rest =>
      rw [GetRxMsgInfo_of_new self _ _ _ _ _ _ front rest hreg hfree]
      have hb : (k == (⟨a.srcIp, a.srcPort, a.txMsgId⟩ : rxMsgIdTableKey_t)) = false := by
        have : k ≠ a.key := fun hk => hne hk.symm
        simpa [GetRxMsgInfoArgs.key] using this
      simp only [List.lookup_cons, hb]
      exact h

/-- A sequence of calls keeps every registered key registered to the same id. -/
theorem calls_lookup_of_some (cs : List GetRxMsgInfoArgs) :
    ∀ (self : NanoPuArchtReassemble) (k : rxMsgIdTableKey_t) (id : Nat),
      self.m_rxMsgIdTable.lookup k = some id → (self.calls cs).2.m_rxMsgIdTable.lookup k = some id := by
  induction cs with
  | nil => intro self k id h; exact h
  | cons a rest ih =>
    intro self k id h
    exact ih (self.call a).2 k id (call_lookup_of_some self a k id h)

/-- A sequence of calls for other keys leaves an unregistered key unregistered. -/
theorem calls_lookup_of_none (cs : List GetRxMsgInfoArgs) :
    ∀ (self : NanoPuArchtReassemble) (k : rxMsgIdTableKey_t),
      self.m_rxMsgIdTable.lookup k = none → (∀ a ∈ cs, a.key ≠ k) →
      (self.calls cs).2.m_rxMsgIdTable.lookup k = none := by
  induction cs with
  | nil => intro self k h _; exact h
  | cons a rest ih =>
    intro self k h hne
    exact ih (self.call a).2 k
      (call_lookup_of_none self a k h (hne a (List.mem_cons_self _ _)))
      (fun b hb => hne b (List.mem_cons_of_mem _ hb))

/-- Calls made one sequence after another. -/
theorem calls_append (xs ys : List GetRxMsgInfoArgs) :
    ∀ self : NanoPuArchtReassemble,
      self.calls (xs ++ ys) =
        ((self.calls xs).1 ++ ((self.calls xs).2.calls ys).1, ((self.calls xs).2.calls ys).2) := by
  induction xs with
  | nil => intro self; rfl
  | cons a rest ih =>
    intro self
    have h := ih (self.call a).2
    show ((self.call a).1 :: ((self.call a).2.calls (rest ++ ys)).1,
      ((self.call a).2.calls (rest ++ ys)).2) = _
    rw [h]
    rfl

/-- A run of calls for pairwise distinct unregistered keys, no longer than the
free list: every call succeeds, the ids handed out are the front of the free
list in order, the free list loses them, and each key is registered to its id. -/
theorem calls_allocate (cs : List GetRxMsgInfoArgs) :
    ∀ self : NanoPuArchtReassemble,
      (cs.map GetRxMsgInfoArgs.key).Nodup →
      (∀ a ∈ cs, self.m_rxMsgIdTable.lookup a.key = none) →
      cs.length ≤ self.m_rxMsgIdFreeList.length →
      (self.calls cs).1.map (fun r => r.success) = List.replicate cs.length true ∧
      (self.calls cs).1.map (fun r => r.rxMsgId) = self.m_rxMsgIdFreeList.take cs.length ∧
      (self.calls cs).2.m_rxMsgIdFreeList = self.m_rxMsgIdFreeList.drop cs.length ∧
      (∀ (i : Nat) (a : GetRxMsgInfoArgs), cs[i]? = some a →
        (self.calls cs).2.m_rxMsgIdTable.lookup a.key = self.m_rxMsgIdFreeList[i]?) := by
  induction cs with
  | nil =>
    intro self _ _ _
    refine ⟨rfl, rfl, rfl, ?_⟩
    intro i a h
    simp at h
  | cons c rest ih =>
    intro self hnodup hnone hlen
    rw [List.map_cons, List.nodup_cons] at hnodup
    have hreg : self.m_rxMsgIdTable.lookup ⟨c.srcIp, c.srcPort, c.txMsgId⟩ = none :=
      hnone c (List.mem_cons_self _ _)
    cases hfree : self.m_rxMsgIdFreeList with
    | nil => rw [hfree] at hlen; simp at hlen
    | cons front free =>
      have hcall : self.call c =
          ({ rxMsgId := front, ackNo := 0, isNewMsg := true, isNewPkt := true, success := true },
           { m_rxMsgIdFreeList := free
             m_rxMsgIdTable := (⟨c.srcIp, c.srcPort, c.txMsgId⟩, front) :: self.m_rxMsgIdTable
             m_receivedBitmap := unorderedMapInsert self.m_receivedBitmap front 0 }) :=
        GetRxMsgInfo_of_new self _ _ _ _ _ _ front free hreg hfree
      have hfree1 : (self.call c).2.m_rxMsgIdFreeList = free := by rw [hcall]
      have hnone1 : ∀ a ∈ rest, (self.call c).2.m_rxMsgIdTable.lookup a.key = none := by
        intro a ha
        apply call_lookup_of_none self c a.key (hnone a (List.mem_cons_of_mem _ ha))
        intro heq
        exact hnodup.1 (heq ▸ List.mem_map_of_mem GetRxMsgInfoArgs.key ha)
      have hlen1 : rest.length ≤ (self.call c).2.m_rxMsgIdFreeList.length := by
        rw [hfree1]; rw [hfree] at hlen; simpa using hlen
      obtain ⟨h1, h2, h3, h4⟩ := ih (self.call c).2 hnodup.2 hnone1 hlen1
      rw [hfree1] at h2 h3 h4
      have hfront : (self.call c).1.rxMsgId = front := by rw [hcall]
      have hsucc : (self.call c).1.success = true := by rw [hcall]
      refine ⟨?_, ?_, ?_, ?_⟩
      · simp only [NanoPuArchtReassemble.calls, List.map_cons, List.length_cons,
          List.replicate_succ, h1, hsucc]
      · simp only [NanoPuArchtReassemble.calls, List.map_cons, List.length_cons,
          List.take_succ_cons, h2, hfront]
      · simp only [NanoPuArchtReassemble.calls, List.length_cons, List.drop_succ_cons, h3]
      · intro i a hia
        cases i with
        | zero =>
          simp only [List.getElem?_cons_zero, Option.some.injEq] at hia
          subst hia
          simp only [NanoPuArchtReassemble.calls, List.getElem?_cons_zero]
          apply calls_lookup_of_some rest (self.call c).2 c.key front
          rw [hcall]
          simp [GetRxMsgInfoArgs.key, List.lookup_cons]
        | succ i =>
          simp only [List.getElem?_cons_succ] at hia ⊢
          exact h4 i a hia

/-- C6: on a buffer freshly constructed for `maxMessages` messages and for
`maxMessages + 1` calls with pairwise distinct flow keys, the first `maxMessages`
calls succeed and the last one fails, the ids handed out are
`0, 1, ..., maxMessages - 1` in that order, and afterwards each of the first
`maxMessages` keys resolves to the id it was given, with `success = true` and
`isNewMsg = false`. -/
theorem calls_exhaust_pool (maxMessages : Nat) (cs : List GetRxMsgInfoArgs)
    (hlen : cs.length = maxMessages + 1)
    (hdistinct : (cs.map GetRxMsgInfoArgs.key).Nodup) :
    ((NanoPuArchtReassemble.CreateObject maxMessages).calls cs).1.map (fun r => r.success) =
      List.replicate maxMessages true ++ [false] ∧
    (((NanoPuArchtReassemble.CreateObject maxMessages).calls cs).1.take maxMessages).map
      (fun r => r.rxMsgId) = List.range maxMessages ∧
    (∀ (i : Nat) (a : GetRxMsgInfoArgs), i < maxMessages → cs[i]? = some a →
      ∀ (rxMsgInfo : rxMsgInfoMeta_t) (msgLen pktOffset : Nat),
        (((NanoPuArchtReassemble.CreateObject maxMessages).calls cs).2.GetRxMsgInfo rxMsgInfo
          a.srcIp a.srcPort a.txMsgId msgLen pktOffset).1.success = true ∧
        (((NanoPuArchtReassemble.CreateObject maxMessages).calls cs).2.GetRxMsgInfo rxMsgInfo
          a.srcIp a.srcPort a.txMsgId msgLen pktOffset).1.rxMsgId = i ∧
        (((NanoPuArchtReassemble.CreateObject maxMessages).calls cs).2.GetRxMsgInfo rxMsgInfo
          a.srcIp a.srcPort a.txMsgId msgLen pktOffset).1.isNewMsg = false) := by
  -- split the calls into the first `maxMessages` and the last one
  have hsplit : cs = cs.take maxMessages ++ cs.drop maxMessages := (List.take_append_drop _ _).symm
  have hdroplen : (cs.drop maxMessages).length = 1 := by rw [List.length_drop, hlen]; omega
  obtain ⟨last, hlast⟩ : ∃ last, cs.drop maxMessages = [last] := by
    cases hd : cs.drop maxMessages with
    | nil => rw [hd] at hdroplen; simp at hdroplen
    | cons x xs =>
      cases xs with
      | nil => exact ⟨x, rfl⟩
      | cons y ys => rw [hd] at hdroplen; simp at hdroplen
  have htakelen : (cs.take maxMessages).length = maxMessages := by
    rw [List.length_take, hlen]; omega
  rw [hlast] at hsplit
  have hkeys : (cs.take maxMessages ++ [last]).map GetRxMsgInfoArgs.key =
      (cs.take maxMessages).map GetRxMsgInfoArgs.key ++ [last.key] := by simp
  have hnd := hdistinct
  rw [hsplit, hkeys, List.nodup_append] at hnd
  obtain ⟨hnd1, -, hdisj⟩ := hnd
  -- the first `maxMessages` calls allocate
  have hfresh : ∀ a ∈ cs.take maxMessages,
      (NanoPuArchtReassemble.CreateObject maxMessages).m_rxMsgIdTable.lookup a.key = none := by
    intro a _; rfl
  have hfreelen : (cs.take maxMessages).length ≤
      (NanoPuArchtReassemble.CreateObject maxMessages).m_rxMsgIdFreeList.length := by
    rw [htakelen]; simp [NanoPuArchtReassemble.CreateObject]
  obtain ⟨h1, h2, h3, h4⟩ := calls_allocate (cs.take maxMessages)
    (NanoPuArchtReassemble.CreateObject maxMessages) hnd1 hfresh hfreelen
  rw [htakelen] at h1 h2 h3
  have hfl : (NanoPuArchtReassemble.CreateObject maxMessages).m_rxMsgIdFreeList =
      List.range maxMessages := rfl
  rw [hfl] at h2 h3 h4
  rw [List.take_range, Nat.min_self] at h2
  have h3n : ((NanoPuArchtReassemble.CreateObject maxMessages).calls
      (cs.take maxMessages)).2.m_rxMsgIdFreeList = [] := by
    rw [h3]; apply List.drop_of_length_le; simp
  -- the last call finds the pool exhausted
  have hlastnone : ((NanoPuArchtReassemble.CreateObject maxMessages).calls
      (cs.take maxMessages)).2.m_rxMsgIdTable.lookup ⟨last.srcIp, last.srcPort, last.txMsgId⟩ = none := by
    apply calls_lookup_of_none (cs.take maxMessages)
      (NanoPuArchtReassemble.CreateObject maxMessages) last.key rfl
    intro a ha heq
    exact hdisj (List.mem_map_of_mem GetRxMsgInfoArgs.key ha) (heq ▸ List.mem_singleton_self _)
  have hex := GetRxMsgInfo_of_exhausted _ last.rxMsgInfo last.srcIp last.srcPort last.txMsgId
    last.msgLen last.pktOffset hlastnone h3n
  have hrun : (NanoPuArchtReassemble.CreateObject maxMessages).calls cs =
      (((NanoPuArchtReassemble.CreateObject maxMessages).calls (cs.take maxMessages)).1 ++
        [{ last.rxMsgInfo with isNewMsg := false, isNewPkt := false, success := false }],
       ((NanoPuArchtReassemble.CreateObject maxMessages).calls (cs.take maxMessages)).2) := by
    conv => lhs; rw [hsplit]
    rw [calls_append]
    simp only [NanoPuArchtReassemble.calls, NanoPuArchtReassemble.call, hex]
  have hreslen : ((NanoPuArchtReassemble.CreateObject maxMessages).calls
      (cs.take maxMessages)).1.length = maxMessages := by
    have := congrArg List.length h1
    simpa using this
  rw [hrun]
  refine ⟨?_, ?_, ?_⟩
  · simp only [List.map_append, List.map_cons, List.map_nil, h1]
  · rw [List.take_left' hreslen, h2]
  · intro i a hi hia rxMsgInfo msgLen pktOffset
    have hia1 : (cs.take maxMessages)[i]? = some a := by
      rw [List.getElem?_take_of_lt hi]; exact hia
    have hlook := h4 i a hia1
    rw [List.getElem?_range hi] at hlook
    rw [GetRxMsgInfo_of_known _ rxMsgInfo a.srcIp a.srcPort a.txMsgId msgLen pktOffset i hlook]
    exact ⟨rfl, rfl, rfl⟩

/-- The flows of `distinctFlows` have pairwise distinct keys. -/
theorem distinctFlows_keys_nodup (n : Nat) :
    ((distinctFlows n).map GetRxMsgInfoArgs.key).Nodup := by
  unfold distinctFlows
  rw [List.map_map]
  apply List.Nodup.map _ (List.nodup_range n)
  intro a b h
  simp only [Function.comp, GetRxMsgInfoArgs.key, rxMsgIdTableKey_t.mk.injEq] at h
  exact h.2.2

/-- The `i`-th flow of `distinctFlows` has transmit message id `i`. -/
theorem distinctFlows_getElem (n i : Nat) (h : i < n) :
    (distinctFlows n)[i]? = some ⟨⟨0, 0, false, false, false⟩, 10, 111, i, 6, 0⟩ := by
  unfold distinctFlows
  rw [List.getElem?_map, List.getElem?_range h]
  rfl

/-- Witness for C6: `maxMessages = 100` as in the test, with 101 flows that differ in
their transmit message id; afterwards the flow with transmit message id 42 still
resolves to id 42. -/
theorem calls_exhaust_pool_witness :
    ((NanoPuArchtReassemble.CreateObject 100).calls (distinctFlows 101)).1.map (fun r => r.success) =
      List.replicate 100 true ++ [false] ∧
    (((NanoPuArchtReassemble.CreateObject 100).calls (distinctFlows 101)).1.take 100).map
      (fun r => r.rxMsgId) = List.range 100 ∧
    (((NanoPuArchtReassemble.CreateObject 100).calls (distinctFlows 101)).2.GetRxMsgInfo
      ⟨7, 7, true, true, false⟩ 10 111 42 6 3).1.success = true ∧
    (((NanoPuArchtReassemble.CreateObject 100).calls (distinctFlows 101)).2.GetRxMsgInfo
      ⟨7, 7, true, true, false⟩ 10 111 42 6 3).1.rxMsgId = 42 ∧
    (((NanoPuArchtReassemble.CreateObject 100).calls (distinctFlows 101)).2.GetRxMsgInfo
      ⟨7, 7, true, true, false⟩ 10 111 42 6 3).1.isNewMsg = false := by
  have h := calls_exhaust_pool 100 (distinctFlows 101)
    (by unfold distinctFlows; rw [List.length_map, List.length_range])
    (distinctFlows_keys_nodup 101)
  obtain ⟨hsucc, hids, hafter⟩ := h
  have h42 := hafter 42 _ (by omega) (distinctFlows_getElem 101 42 (by omega))
    ⟨7, 7, true, true, false⟩ 6 3
  dsimp only at h42
  exact ⟨hsucc, hids, h42.1, h42.2.1, h42.2.2⟩

/-- A freshly constructed buffer satisfies the invariant. -/
theorem Invariant_CreateObject (maxMessages : Nat) :
    (NanoPuArchtReassemble.CreateObject maxMessages).Invariant maxMessages :=
  ⟨rfl, List.nodup_nil, rfl⟩

/-- One call of `GetRxMsgInfo` preserves the invariant. -/
theorem Invariant_call (maxMessages : Nat) (self : NanoPuArchtReassemble) (a : GetRxMsgInfoArgs)
    (hinv : self.Invariant maxMessages) : (self.call a).2.Invariant maxMessages := by
  unfold NanoPuArchtReassemble.call
  cases hreg : self.m_rxMsgIdTable.lookup ⟨a.srcIp, a.srcPort, a.txMsgId⟩ with
  | some entry =>
    rw [GetRxMsgInfo_of_known self _ _ _ _ _ _ entry hreg]
    exact hinv
  | none =>
    cases hfree : self.m_rxMsgIdFreeList with
    | nil =>
      rw [GetRxMsgInfo_of_exhausted self _ _ _ _ _ _ hreg hfree]
      exact hinv
    | cons front rest =>
      rw [GetRxMsgInfo_of_new self _ _ _ _ _ _ front rest hreg hfree]
      obtain ⟨hids, hkeys, hbm⟩ := hinv
      rw [hfree] at hids
      have hnd : ((self.m_rxMsgIdTable.map Prod.snd).reverse ++ front :: rest).Nodup := by
        rw [hids]; exact List.nodup_range _
      have hfront : front ∉ self.m_rxMsgIdTable.map Prod.snd := by
        rw [List.nodup_middle, List.nodup_cons] at hnd
        intro hmem
        exact hnd.1 (List.mem_append_left _ (List.mem_reverse.mpr hmem))
      have hnobm : self.m_receivedBitmap.lookup front = none := by
        rw [lookup_eq_none_iff_not_mem, hbm]; exact hfront
      refine ⟨?_, ?_, ?_⟩
      · simp only [List.map_cons, List.reverse_cons, List.append_assoc, List.singleton_append]
        exact hids
      · simp only [List.map_cons, List.nodup_cons]
        exact ⟨(lookup_eq_none_iff_not_mem _ _).mp hreg, hkeys⟩
      · simp only [unorderedMapInsert, hnobm, List.map_cons, hbm]

/-- A sequence of calls of `GetRxMsgInfo` preserves the invariant. -/
theorem Invariant_calls (maxMessages : Nat) (cs : List GetRxMsgInfoArgs) :
    ∀ self : NanoPuArchtReassemble, self.Invariant maxMessages →
      (self.calls cs).2.Invariant maxMessages := by
  induction cs with
  | nil => intro self h; exact h
  | cons a rest ih =>
    intro self h
    exact ih (self.call a).2 (Invariant_call maxMessages self a h)

/-- Every state reached from a freshly constructed buffer satisfies the invariant. -/
theorem Invariant_reachable (maxMessages : Nat) (cs : List GetRxMsgInfoArgs) :
    ((NanoPuArchtReassemble.CreateObject maxMessages).calls cs).2.Invariant maxMessages :=
  Invariant_calls maxMessages cs _ (Invariant_CreateObject maxMessages)

/-- C7: in every state reached from a freshly constructed buffer by a sequence of
`GetRxMsgInfo` calls, two distinct registered flow keys map to different ids. -/
theorem reachable_table_ids_distinct (maxMessages : Nat) (cs : List GetRxMsgInfoArgs)
    (key1 key2 : rxMsgIdTableKey_t) (id1 id2 : Nat) (hne : key1 ≠ key2)
    (h1 : ((NanoPuArchtReassemble.CreateObject maxMessages).calls cs).2.m_rxMsgIdTable.lookup key1 =
      some id1)
    (h2 : ((NanoPuArchtReassemble.CreateObject maxMessages).calls cs).2.m_rxMsgIdTable.lookup key2 =
      some id2) :
    id1 ≠ id2 := by
  intro hid
  obtain ⟨hids, -, -⟩ := Invariant_reachable maxMessages cs
  have hnd : (((NanoPuArchtReassemble.CreateObject maxMessages).calls cs).2.m_rxMsgIdTable.map
      Prod.snd).Nodup := by
    have hall : (List.range maxMessages).Nodup := List.nodup_range _
    rw [← hids, List.nodup_append] at hall
    exact List.nodup_reverse.mp hall.1
  have hm1 := mem_of_lookup_eq_some _ key1 id1 h1
  have hm2 := mem_of_lookup_eq_some _ key2 id2 h2
  have heq := List.inj_on_of_nodup_map hnd hm1 hm2 hid
  exact hne (congrArg Prod.fst heq)

/-- Witness for C7: after the flows `(10, 111, 0)` and `(10, 111, 1)` have been resolved on a
buffer for two messages, they are registered under the ids 0 and 1. -/
theorem reachable_table_ids_distinct_witness :
    ((NanoPuArchtReassemble.CreateObject 2).calls (distinctFlows 2)).2.m_rxMsgIdTable.lookup
      ⟨10, 111, 0⟩ = some 0 ∧
    ((NanoPuArchtReassemble.CreateObject 2).calls (distinctFlows 2)).2.m_rxMsgIdTable.lookup
      ⟨10, 111, 1⟩ = some 1 ∧
    (0 : Nat) ≠ 1 :=
  ⟨by decide, by decide,
    reachable_table_ids_distinct 2 (distinctFlows 2) ⟨10, 111, 0⟩ ⟨10, 111, 1⟩ 0 1
      (by decide) (by decide) (by decide)⟩

/-- In a reachable state the free list has no duplicates. -/
theorem reachable_freeList_nodup (maxMessages : Nat) (cs : List GetRxMsgInfoArgs) :
    ((NanoPuArchtReassemble.CreateObject maxMessages).calls cs).2.m_rxMsgIdFreeList.Nodup := by
  obtain ⟨hids, -, -⟩ := Invariant_reachable maxMessages cs
  have hall : (List.range maxMessages).Nodup := List.nodup_range _
  rw [← hids, List.nodup_append] at hall
  exact hall.2.1

/-- In a reachable state no bitmap is stored for a free id. -/
theorem reachable_free_id_no_bitmap (maxMessages : Nat) (cs : List GetRxMsgInfoArgs) (id : Nat)
    (hfree : id ∈ ((NanoPuArchtReassemble.CreateObject maxMessages).calls cs).2.m_rxMsgIdFreeList) :
    ((NanoPuArchtReassemble.CreateObject maxMessages).calls cs).2.m_receivedBitmap.lookup id = none := by
  obtain ⟨hids, -, hbm⟩ := Invariant_reachable maxMessages cs
  have hall : (List.range maxMessages).Nodup := List.nodup_range _
  rw [← hids, List.nodup_append] at hall
  rw [lookup_eq_none_iff_not_mem, hbm]
  intro hmem
  exact hall.2.2 (List.mem_reverse.mpr hmem) hfree

/-- C3: in every state reached from a freshly constructed buffer by `GetRxMsgInfo` calls in which
the flow key is not registered and the free list is non-empty, `front :: rest`,
`GetRxMsgInfo` returns `success = true`, `isNewMsg = true`, `isNewPkt = true`, `ackNo = 0` and
`rxMsgId = front`, the front element of the free list; after the call that id is no
longer in the free list, which is `rest`, the flow key maps to it, and every other
key of the table maps to what it did before. -/
theorem reachable_GetRxMsgInfo_new_allocates (maxMessages : Nat) (cs : List GetRxMsgInfoArgs)
    (rxMsgInfo : rxMsgInfoMeta_t) (srcIp srcPort txMsgId msgLen pktOffset front : Nat)
    (rest : List Nat)
    (hreg : ((NanoPuArchtReassemble.CreateObject maxMessages).calls cs).2.m_rxMsgIdTable.lookup
      ⟨srcIp, srcPort, txMsgId⟩ = none)
    (hfree : ((NanoPuArchtReassemble.CreateObject maxMessages).calls cs).2.m_rxMsgIdFreeList =
      front :: rest) :
    (((NanoPuArchtReassemble.CreateObject maxMessages).calls cs).2.GetRxMsgInfo rxMsgInfo srcIp
        srcPort txMsgId msgLen pktOffset).1 =
      { rxMsgId := front, ackNo := 0, isNewMsg := true, isNewPkt := true, success := true } ∧
    (((NanoPuArchtReassemble.CreateObject maxMessages).calls cs).2.GetRxMsgInfo rxMsgInfo srcIp
        srcPort txMsgId msgLen pktOffset).1.rxMsgId ∉
      (((NanoPuArchtReassemble.CreateObject maxMessages).calls cs).2.GetRxMsgInfo rxMsgInfo srcIp
        srcPort txMsgId msgLen pktOffset).2.m_rxMsgIdFreeList ∧
    (((NanoPuArchtReassemble.CreateObject maxMessages).calls cs).2.GetRxMsgInfo rxMsgInfo srcIp
        srcPort txMsgId msgLen pktOffset).2.m_rxMsgIdFreeList = rest ∧
    (((NanoPuArchtReassemble.CreateObject maxMessages).calls cs).2.GetRxMsgInfo rxMsgInfo srcIp
        srcPort txMsgId msgLen pktOffset).2.m_rxMsgIdTable.lookup ⟨srcIp, srcPort, txMsgId⟩ =
      some front ∧
    (∀ key : rxMsgIdTableKey_t, key ≠ ⟨srcIp, srcPort, txMsgId⟩ →
      (((NanoPuArchtReassemble.CreateObject maxMessages).calls cs).2.GetRxMsgInfo rxMsgInfo srcIp
          srcPort txMsgId msgLen pktOffset).2.m_rxMsgIdTable.lookup key =
        ((NanoPuArchtReassemble.CreateObject maxMessages).calls cs).2.m_rxMsgIdTable.lookup key) := by
  have hnd := reachable_freeList_nodup maxMessages cs
  rw [hfree] at hnd
  have honce : front ∉ rest := (List.nodup_cons.mp hnd).1
  rw [GetRxMsgInfo_of_new _ rxMsgInfo srcIp srcPort txMsgId msgLen pktOffset front rest hreg hfree]
  refine ⟨rfl, honce, rfl, ?_, ?_⟩
  · simp [List.lookup_cons]
  · intro key hkey
    have hb : (key == (⟨srcIp, srcPort, txMsgId⟩ : rxMsgIdTableKey_t)) = false := by
      simpa using hkey
    simp only [List.lookup_cons, hb]

/-- Witness for C3: on a buffer for two messages on which the flow `(10, 111, 0)` has taken id 0, the
new flow `(1, 2, 3)` gets id 1, the front of the free list `[1]`, and the free list is
empty afterwards. -/
theorem reachable_GetRxMsgInfo_new_allocates_witness :
    (((NanoPuArchtReassemble.CreateObject 2).calls (distinctFlows 1)).2.GetRxMsgInfo
        ⟨5, 5, false, false, false⟩ 1 2 3 6 0).1 =
      { rxMsgId := 1, ackNo := 0, isNewMsg := true, isNewPkt := true, success := true } ∧
    (((NanoPuArchtReassemble.CreateObject 2).calls (distinctFlows 1)).2.GetRxMsgInfo
        ⟨5, 5, false, false, false⟩ 1 2 3 6 0).1.rxMsgId ∉
      (((NanoPuArchtReassemble.CreateObject 2).calls (distinctFlows 1)).2.GetRxMsgInfo
        ⟨5, 5, false, false, false⟩ 1 2 3 6 0).2.m_rxMsgIdFreeList ∧
    (((NanoPuArchtReassemble.CreateObject 2).calls (distinctFlows 1)).2.GetRxMsgInfo
        ⟨5, 5, false, false, false⟩ 1 2 3 6 0).2.m_rxMsgIdFreeList = [] ∧
    (((NanoPuArchtReassemble.CreateObject 2).calls (distinctFlows 1)).2.GetRxMsgInfo
        ⟨5, 5, false, false, false⟩ 1 2 3 6 0).2.m_rxMsgIdTable.lookup ⟨1, 2, 3⟩ = some 1 := by
  have h := reachable_GetRxMsgInfo_new_allocates 2 (distinctFlows 1) ⟨5, 5, false, false, false⟩
    1 2 3 6 0 1 [] (by decide) (by decide)
  exact ⟨h.1, h.2.1, h.2.2.1, h.2.2.2.1⟩

/-- C4: in every state reached from a freshly constructed buffer by `GetRxMsgInfo` calls in which
the flow key is not registered and a free id exists, after `GetRxMsgInfo` has
allocated an `rxMsgId` (the front of the free list) the receive bitmap stored for
that `rxMsgId` is empty: it is 0, so none of its bits is set. -/
theorem reachable_GetRxMsgInfo_new_bitmap_empty (maxMessages : Nat) (cs : List GetRxMsgInfoArgs)
    (rxMsgInfo : rxMsgInfoMeta_t) (srcIp srcPort txMsgId msgLen pktOffset front : Nat)
    (rest : List Nat)
    (hreg : ((NanoPuArchtReassemble.CreateObject maxMessages).calls cs).2.m_rxMsgIdTable.lookup
      ⟨srcIp, srcPort, txMsgId⟩ = none)
    (hfree : ((NanoPuArchtReassemble.CreateObject maxMessages).calls cs).2.m_rxMsgIdFreeList =
      front :: rest) :
    (((NanoPuArchtReassemble.CreateObject maxMessages).calls cs).2.GetRxMsgInfo rxMsgInfo srcIp
        srcPort txMsgId msgLen pktOffset).1.success = true ∧
    (((NanoPuArchtReassemble.CreateObject maxMessages).calls cs).2.GetRxMsgInfo rxMsgInfo srcIp
        srcPort txMsgId msgLen pktOffset).1.rxMsgId = front ∧
    (((NanoPuArchtReassemble.CreateObject maxMessages).calls cs).2.GetRxMsgInfo rxMsgInfo srcIp
        srcPort txMsgId msgLen pktOffset).2.m_receivedBitmap.lookup
      (((NanoPuArchtReassemble.CreateObject maxMessages).calls cs).2.GetRxMsgInfo rxMsgInfo srcIp
        srcPort txMsgId msgLen pktOffset).1.rxMsgId = some 0 ∧
    (∀ i : Nat,
      ((((NanoPuArchtReassemble.CreateObject maxMessages).calls cs).2.GetRxMsgInfo rxMsgInfo srcIp
          srcPort txMsgId msgLen pktOffset).2.receivedBitmapAt
        (((NanoPuArchtReassemble.CreateObject maxMessages).calls cs).2.GetRxMsgInfo rxMsgInfo srcIp
          srcPort txMsgId msgLen pktOffset).1.rxMsgId).testBit i = false) := by
  have hnone := reachable_free_id_no_bitmap maxMessages cs front
    (by rw [hfree]; exact List.mem_cons_self _ _)
  rw [GetRxMsgInfo_of_new _ rxMsgInfo srcIp srcPort txMsgId msgLen pktOffset front rest hreg hfree]
  have hlook : (unorderedMapInsert
      ((NanoPuArchtReassemble.CreateObject maxMessages).calls cs).2.m_receivedBitmap front 0).lookup
      front = some 0 := by
    simp [unorderedMapInsert, hnone, List.lookup_cons]
  refine ⟨rfl, rfl, hlook, ?_⟩
  intro i
  show ((List.lookup front (unorderedMapInsert
    ((NanoPuArchtReassemble.CreateObject maxMessages).calls cs).2.m_receivedBitmap front 0)).getD
      0).testBit i = false
  rw [hlook]
  exact Nat.zero_testBit i

/-- Witness for C4: on a buffer for two messages on which the flow `(10, 111, 0)` has taken id 0, the
new flow `(1, 2, 3)` gets id 1, and the bitmap stored for id 1 is 0. -/
theorem reachable_GetRxMsgInfo_new_bitmap_empty_witness :
    (((NanoPuArchtReassemble.CreateObject 2).calls (distinctFlows 1)).2.GetRxMsgInfo
        ⟨5, 5, false, false, false⟩ 1 2 3 6 0).1.rxMsgId = 1 ∧
    (((NanoPuArchtReassemble.CreateObject 2).calls (distinctFlows 1)).2.GetRxMsgInfo
        ⟨5, 5, false, false, false⟩ 1 2 3 6 0).2.m_receivedBitmap.lookup 1 = some 0 := by
  have h := reachable_GetRxMsgInfo_new_bitmap_empty 2 (distinctFlows 1)
    ⟨5, 5, false, false, false⟩ 1 2 3 6 0 1 [] (by decide) (by decide)
  exact ⟨h.2.1, h.2.2.1⟩

/-! ## Properties of the Homa ingress pipeline -/

/-- The eight values a flag bit can take. -/
theorem IsFlagBit_cases (f : Nat) (hf : IsFlagBit f) :
    f = 1 ∨ f = 2 ∨ f = 4 ∨ f = 8 ∨ f = 16 ∨ f = 32 ∨ f = 64 ∨ f = 128 := by
  simpa [IsFlagBit] using hf

/-- Setting a flag bit in an empty 8-bit flags field yields that bit. -/
theorem zero_or_flag (f : Nat) (hf : IsFlagBit f) : (0 ||| f) % 256 = f := by
  rcases IsFlagBit_cases f hf with rfl | rfl | rfl | rfl | rfl | rfl | rfl | rfl <;> rfl

/-- After `flags |= f` the 8-bit flags field carries `f`. -/
theorem or_flag_and_self (x f : Nat) (hx : x = 0 ∨ IsFlagBit x) (hf : IsFlagBit f) :
    ((x ||| f) % 256) &&& f ≠ 0 := by
  rcases hx with rfl | hx
  · rcases IsFlagBit_cases f hf with rfl | rfl | rfl | rfl | rfl | rfl | rfl | rfl <;> decide
  · rcases IsFlagBit_cases x hx with rfl | rfl | rfl | rfl | rfl | rfl | rfl | rfl <;>
    rcases IsFlagBit_cases f hf with rfl | rfl | rfl | rfl | rfl | rfl | rfl | rfl <;> decide

/-- After `flags |= f` on a field that did not carry the other flag `g`, the field
still does not carry `g`. -/
theorem or_flag_and_other (x f g : Nat) (hx : x = 0 ∨ (IsFlagBit x ∧ x ≠ g)) (hf : IsFlagBit f)
    (hg : IsFlagBit g) (hne : f ≠ g) : ((x ||| f) % 256) &&& g = 0 := by
  rcases hx with rfl | ⟨hx, hxg⟩
  · rcases IsFlagBit_cases f hf with rfl | rfl | rfl | rfl | rfl | rfl | rfl | rfl <;>
    rcases IsFlagBit_cases g hg with rfl | rfl | rfl | rfl | rfl | rfl | rfl | rfl <;>
    first | rfl | exact absurd rfl hne
  · rcases IsFlagBit_cases x hx with rfl | rfl | rfl | rfl | rfl | rfl | rfl | rfl <;>
    rcases IsFlagBit_cases f hf with rfl | rfl | rfl | rfl | rfl | rfl | rfl | rfl <;>
    rcases IsFlagBit_cases g hg with rfl | rfl | rfl | rfl | rfl | rfl | rfl | rfl <;>
    first | rfl | exact absurd rfl hne | exact absurd rfl hxg

/-- The DATA/RESEND branch of `IngressPipe` in closed form.  With `info` the result of
`GetRxMsgInfo`, `d` the grant offset increment, `g` the updated credit counter,
`p` the priority, `q` the scheduled queue of that priority before the packet and
`x` the response flags after the RESEND test: the credit counter of `info.rxMsgId`
becomes `g`, the queue of priority `p` loses its head and gains `info.rxMsgId` at its
tail under the conditions of the code, one control reply is generated, and a
DATA packet is handed to the reassembly buffer. -/
theorem IngressPipe_data_or_resend (H : HomaConstants) (self : HomaNanoPuArchtIngressPipe)
    (rxMsgInfo0 : rxMsgInfoMeta_t) (egressMeta0 : egressMeta_t)
    (iph : Ipv4Header) (homah : HomaHeader) (cp : Packet) (protocol : Nat)
    (info : rxMsgInfoMeta_t) (d g p x : Nat) (q : List Nat)
    (hproto : protocol = 0x0800) (hprot : iph.protocol = H.PROT_NUMBER)
    (hflag : homah.flags &&& H.DATA ≠ 0 ∨ homah.flags &&& H.RESEND ≠ 0)
    (hinfo : info = (self.m_reassemble.GetRxMsgInfo rxMsgInfo0 iph.source homah.srcPort
      homah.txMsgId homah.msgLen homah.pktOffset).1)
    (hd : d = if homah.flags &&& H.RESEND ≠ 0 then 0 else 1)
    (hg : g = if info.isNewMsg = true then (self.m_rttPkts + d) % 65536
      else (self.m_credits info.rxMsgId + d) % 65536)
    (hp : p = self.GetPriority homah.msgLen)
    (hq : q = self.m_scheduledMsgs p)
    (hx : x = if homah.flags &&& H.RESEND ≠ 0 ∧ info.isNewPkt = true then (0 ||| H.RSNDRSPNS) % 256
      else 0) :
    self.IngressPipe H rxMsgInfo0 egressMeta0 iph homah cp protocol =
      some
        ({ m_reassemble := (self.m_reassemble.GetRxMsgInfo rxMsgInfo0 iph.source homah.srcPort
              homah.txMsgId homah.msgLen homah.pktOffset).2
           m_rttPkts := self.m_rttPkts
           m_priorities := self.m_priorities
           m_credits := Function.update self.m_credits info.rxMsgId g
           m_scheduledMsgs :=
            Function.update self.m_scheduledMsgs p
              ((if (q = [] ∨ q.head? = some info.rxMsgId) ∧ q ≠ [] ∧ homah.msgLen ≤ g then q.tail else q) ++
                (if (q = [] ∨ info.isNewMsg = true) ∧ g < homah.msgLen then [info.rxMsgId] else [])) },
         HomaNanoPuArchtPktGen.CtrlPktEvent egressMeta0
            (if q = [] ∨ q.head? = some info.rxMsgId then (x ||| H.GRANT) % 256 else (x ||| H.BUSY) % 256)
            iph.source homah.srcPort homah.dstPort homah.txMsgId homah.msgLen homah.pktOffset g p ::
          (if homah.flags &&& H.DATA ≠ 0 then
            [Effect.ScheduleProcessNewPacket H.HOMA_INGRESS_PIPE_DELAY cp
              { rxMsgId := info.rxMsgId
                srcIp := iph.source
                srcPort := homah.srcPort
                dstPort := homah.dstPort
                txMsgId := homah.txMsgId
                msgLen := homah.msgLen
                pktOffset := homah.pktOffset }]
          else [])) := by
  subst hx hq hp hg hd hinfo
  unfold HomaNanoPuArchtIngressPipe.IngressPipe
  simp only [hproto, hprot, hflag, ne_eq, not_true_eq_false, if_false, if_true]
  generalize self.m_reassemble.GetRxMsgInfo rxMsgInfo0 iph.source homah.srcPort
      homah.txMsgId homah.msgLen homah.pktOffset = res
  obtain ⟨info, re⟩ := res
  generalize (if ¬homah.flags &&& H.RESEND = 0 then 0 else 1) = d
  generalize (if ¬homah.flags &&& H.RESEND = 0 ∧ info.isNewPkt = true then (0 ||| H.RSNDRSPNS) % 256
      else 0) = x
  have hcases : ∀ l : List Nat, l = [] ∨ ∃ head tail, l = head :: tail := by
    intro l; cases l with
    | nil => exact Or.inl rfl
    | cons a b => exact Or.inr ⟨a, b, rfl⟩
  have hself : ∀ (f : Nat → List Nat) (a : Nat) (b : List Nat), f a = b → f = Function.update f a b := by
    intro f a b h; rw [← h, Function.update_eq_self]
  cases hnew : info.isNewMsg
  · simp only [Bool.false_eq_true, if_false, Function.update_same, or_false, false_and, and_false,
      HomaNanoPuArchtIngressPipe.GetPriority]
    generalize (self.m_credits info.rxMsgId + d) % 65536 = g
    have hlt : g < homah.msgLen ↔ ¬homah.msgLen ≤ g := by omega
    obtain hq | ⟨head, tail, hq⟩ :=
      hcases (self.m_scheduledMsgs (GetPriorityLoop homah.msgLen self.m_priorities 0))
    · simp only [hq, List.isEmpty_nil, true_or, true_and, not_true_eq_false, false_and, and_false,
        if_true, if_false, List.nil_append, Bool.true_eq_false, ne_eq, List.head?_nil]
      by_cases hle : homah.msgLen ≤ g <;> by_cases hD : homah.flags &&& H.DATA = 0 <;>
        simp only [hlt, hle, hD, if_true, if_false, not_true_eq_false, not_false_eq_true,
          List.singleton_append, ← hself _ _ _ hq]
    · simp only [hq, List.isEmpty_cons, Bool.false_eq_true, false_or, true_and, List.headD_cons,
        List.head?_cons, Option.some.injEq, reduceCtorEq, ne_eq, not_false_eq_true, and_true,
        List.tail_cons, if_false, List.append_nil, ge_iff_le, false_and]
      by_cases hh : head = info.rxMsgId
      · subst hh
        by_cases hle : homah.msgLen ≤ g <;> by_cases hD : homah.flags &&& H.DATA = 0 <;>
          simp only [hle, hD, if_true, if_false, not_true_eq_false,
            not_false_eq_true, and_self, and_false, false_and, true_and, and_true,
            List.singleton_append, ← hself _ _ _ hq]
      · by_cases hle : homah.msgLen ≤ g <;> by_cases hD : homah.flags &&& H.DATA = 0 <;>
          simp only [hh, hle, hD, if_true, if_false, not_true_eq_false,
            not_false_eq_true, and_self, and_false, false_and, true_and, and_true,
            List.singleton_append, ← hself _ _ _ hq]
  · simp only [if_true, Function.update_same, or_true, true_and,
      HomaNanoPuArchtIngressPipe.GetPriority]
    generalize (self.m_rttPkts + d) % 65536 = g
    have hlt : g < homah.msgLen ↔ ¬homah.msgLen ≤ g := by omega
    obtain hq | ⟨head, tail, hq⟩ :=
      hcases (self.m_scheduledMsgs (GetPriorityLoop homah.msgLen self.m_priorities 0))
    · simp only [hq, List.isEmpty_nil, true_or, true_and, not_true_eq_false, false_and, and_false,
        if_true, if_false, List.nil_append, Bool.true_eq_false, ne_eq, List.head?_nil]
      by_cases hle : homah.msgLen ≤ g <;> by_cases hD : homah.flags &&& H.DATA = 0 <;>
        simp only [hlt, hle, hD, if_true, if_false, not_true_eq_false, not_false_eq_true,
          List.singleton_append, ← hself _ _ _ hq]
    · simp only [hq, List.isEmpty_cons, Bool.false_eq_true, false_or, true_and, List.headD_cons,
        List.head?_cons, Option.some.injEq, reduceCtorEq, ne_eq, not_false_eq_true, and_true,
        List.tail_cons, if_false, List.append_nil, ge_iff_le, false_and]
      by_cases hh : head = info.rxMsgId
      · subst hh
        by_cases hle : homah.msgLen ≤ g <;> by_cases hD : homah.flags &&& H.DATA = 0 <;>
          simp only [hlt, hle, hD, if_true, if_false, not_true_eq_false,
            not_false_eq_true, and_self, and_false, false_and, true_and, and_true, hq, List.append_nil,
            List.singleton_append, ← hself _ _ _ hq]
      · by_cases hle : homah.msgLen ≤ g <;> by_cases hD : homah.flags &&& H.DATA = 0 <;>
          simp only [hlt, hh, hle, hD, if_true, if_false, not_true_eq_false,
            not_false_eq_true, and_self, and_false, false_and, true_and, and_true, hq, List.append_nil,
            List.singleton_append, ← hself _ _ _ hq]


/-- The control replies among the calls of the DATA/RESEND branch: the one reply. -/
theorem controlReplies_reply_cons (egressMeta0 : egressMeta_t)
    (flag dstIp dstPort srcPort txMsgId msgLen pktOffset grantOffset priority : Nat)
    (c : Prop) [Decidable c] (delay : Nat) (cp : Packet) (metaData : reassembleMeta_t) :
    controlReplies
      (HomaNanoPuArchtPktGen.CtrlPktEvent egressMeta0 flag dstIp dstPort srcPort txMsgId msgLen
          pktOffset grantOffset priority ::
        (if c then [Effect.ScheduleProcessNewPacket delay cp metaData] else [])) =
      [({ srcPort := srcPort
          dstPort := dstPort
          txMsgId := txMsgId
          msgLen := msgLen
          pktOffset := pktOffset
          grantOffset := grantOffset
          prio := priority
          payloadSize := 0
          flags := flag },
        { egressMeta0 with isData := false, dstIP := dstIp, msgLen := msgLen })] := by
  by_cases hc : c <;>
    simp [hc, controlReplies, HomaNanoPuArchtPktGen.CtrlPktEvent, Packet.Create, Packet.AddHeader]

/-- C8: for a DATA or RESEND packet that `GetRxMsgInfo` resolves successfully, with
`d = 0` when the RESEND flag is set and `d = 1` otherwise, and with `base` the
initial credit for a new message and the previous credit counter of the
packet's `rxMsgId` otherwise: if `base + d` does not overflow 16 bits, then exactly one
control reply is generated, its `grantOffset` is `base + d`, and the credit counter
of the `rxMsgId` after the packet is `base + d`. -/
theorem IngressPipe_grantOffset (H : HomaConstants) (self : HomaNanoPuArchtIngressPipe)
    (rxMsgInfo0 : rxMsgInfoMeta_t) (egressMeta0 : egressMeta_t)
    (iph : Ipv4Header) (homah : HomaHeader) (cp : Packet) (protocol : Nat)
    (info : rxMsgInfoMeta_t) (d base : Nat)
    (hproto : protocol = 0x0800) (hprot : iph.protocol = H.PROT_NUMBER)
    (hflag : homah.flags &&& H.DATA ≠ 0 ∨ homah.flags &&& H.RESEND ≠ 0)
    (hinfo : info = (self.m_reassemble.GetRxMsgInfo rxMsgInfo0 iph.source homah.srcPort
      homah.txMsgId homah.msgLen homah.pktOffset).1)
    (_hsucc : info.success = true)
    (hd : d = if homah.flags &&& H.RESEND ≠ 0 then 0 else 1)
    (hbase : base = if info.isNewMsg = true then self.m_rttPkts else self.m_credits info.rxMsgId)
    (hno : base + d < 65536) :
    (self.IngressPipe H rxMsgInfo0 egressMeta0 iph homah cp protocol).map
        (fun r => (controlReplies r.2).map (fun c => c.1.grantOffset)) = some [base + d] ∧
    (self.IngressPipe H rxMsgInfo0 egressMeta0 iph homah cp protocol).map
        (fun r => r.1.m_credits info.rxMsgId) = some (base + d) := by
  have hg : base + d = if info.isNewMsg = true then (self.m_rttPkts + d) % 65536
      else (self.m_credits info.rxMsgId + d) % 65536 := by
    rw [hbase] at hno ⊢
    split
    · rename_i h; rw [if_pos h] at hno; exact (Nat.mod_eq_of_lt hno).symm
    · rename_i h; rw [if_neg h] at hno; exact (Nat.mod_eq_of_lt hno).symm
  rw [IngressPipe_data_or_resend H self rxMsgInfo0 egressMeta0 iph homah cp protocol info d
    (base + d) _ _ _ hproto hprot hflag hinfo hd hg rfl rfl rfl]
  simp only [Option.map_some', controlReplies_reply_cons, List.map_cons, List.map_nil,
    Function.update_same, and_self]

/-- Witness for C8: the first DATA packet of a new 6-packet message on the receiver of the
test scenario (initial credit 10) is answered with `grantOffset = 11`. -/
theorem IngressPipe_grantOffset_witness :
    (sampleReceiver.IngressPipe sampleHomaConstants ⟨0, 0, false, false, false⟩
        ⟨false, false, false, 0, 0, 0, 0, 0, 0⟩ sampleIpv4Header (sampleHomaHeader 1 0 0)
        Packet.Create 0x0800).map
      (fun r => (controlReplies r.2).map (fun c => c.1.grantOffset)) = some [11] ∧
    (sampleReceiver.IngressPipe sampleHomaConstants ⟨0, 0, false, false, false⟩
        ⟨false, false, false, 0, 0, 0, 0, 0, 0⟩ sampleIpv4Header (sampleHomaHeader 1 0 0)
        Packet.Create 0x0800).map
      (fun r => r.1.m_credits 0) = some 11 :=
  IngressPipe_grantOffset sampleHomaConstants sampleReceiver ⟨0, 0, false, false, false⟩
    ⟨false, false, false, 0, 0, 0, 0, 0, 0⟩ sampleIpv4Header (sampleHomaHeader 1 0 0)
    Packet.Create 0x0800
    ⟨0, 0, true, true, true⟩ 1 10 rfl rfl (by decide) (by decide) rfl (by decide) (by decide)
    (by decide)

/-- C9: for every DATA or RESEND packet exactly one control reply is generated.
With `q` the scheduled queue of the packet's priority before the packet: the reply
carries GRANT and not BUSY if `q` is empty or its head is the packet's `rxMsgId`,
and it carries BUSY and not GRANT otherwise. -/
theorem IngressPipe_grant_or_busy (H : HomaConstants) (self : HomaNanoPuArchtIngressPipe)
    (rxMsgInfo0 : rxMsgInfoMeta_t) (egressMeta0 : egressMeta_t)
    (iph : Ipv4Header) (homah : HomaHeader) (cp : Packet) (protocol : Nat)
    (info : rxMsgInfoMeta_t) (q : List Nat)
    (hH : H.FlagsAreBitmask)
    (hproto : protocol = 0x0800) (hprot : iph.protocol = H.PROT_NUMBER)
    (hflag : homah.flags &&& H.DATA ≠ 0 ∨ homah.flags &&& H.RESEND ≠ 0)
    (hinfo : info = (self.m_reassemble.GetRxMsgInfo rxMsgInfo0 iph.source homah.srcPort
      homah.txMsgId homah.msgLen homah.pktOffset).1)
    (hq : q = self.m_scheduledMsgs (self.GetPriority homah.msgLen)) :
    (self.IngressPipe H rxMsgInfo0 egressMeta0 iph homah cp protocol).map
        (fun r => (controlReplies r.2).map
          (fun c => (decide (c.1.flags &&& H.GRANT ≠ 0), decide (c.1.flags &&& H.BUSY ≠ 0)))) =
      some [(decide (q = [] ∨ q.head? = some info.rxMsgId),
             decide (¬(q = [] ∨ q.head? = some info.rxMsgId)))] := by
  obtain ⟨-, hG, hB, -, hR, hnd⟩ := hH
  simp only [List.nodup_cons, List.mem_cons, List.mem_singleton, not_or, List.not_mem_nil,
    not_false_eq_true, List.nodup_nil, and_true] at hnd
  have hGB : H.GRANT ≠ H.BUSY := hnd.2.1.1
  have hRG : H.RSNDRSPNS ≠ H.GRANT := fun h => hnd.2.1.2.2 h.symm
  have hRB : H.RSNDRSPNS ≠ H.BUSY := fun h => hnd.2.2.1.2 h.symm
  obtain ⟨x, hxv, hxc⟩ : ∃ x : Nat,
      x = (if homah.flags &&& H.RESEND ≠ 0 ∧ info.isNewPkt = true then (0 ||| H.RSNDRSPNS) % 256
        else 0) ∧ (x = 0 ∨ x = H.RSNDRSPNS) := by
    refine ⟨_, rfl, ?_⟩
    split
    · right; exact zero_or_flag _ hR
    · left; rfl
  rw [IngressPipe_data_or_resend H self rxMsgInfo0 egressMeta0 iph homah cp protocol info _ _ _ x q
    hproto hprot hflag hinfo rfl rfl rfl hq hxv]
  simp only [Option.map_some', controlReplies_reply_cons, List.map_cons, List.map_nil]
  -- the flags before GRANT or BUSY is set: none, or RSNDRSPNS alone
  have hx0 : x = 0 ∨ IsFlagBit x := by
    rcases hxc with h | h
    · exact Or.inl h
    · exact Or.inr (h ▸ hR)
  have hxG : x = 0 ∨ (IsFlagBit x ∧ x ≠ H.GRANT) := by
    rcases hxc with h | h
    · exact Or.inl h
    · exact Or.inr ⟨h ▸ hR, h ▸ hRG⟩
  have hxB : x = 0 ∨ (IsFlagBit x ∧ x ≠ H.BUSY) := by
    rcases hxc with h | h
    · exact Or.inl h
    · exact Or.inr ⟨h ▸ hR, h ▸ hRB⟩
  by_cases hact : q = [] ∨ q.head? = some info.rxMsgId
  · have h1 := or_flag_and_self x H.GRANT hx0 hG
    have h2 := or_flag_and_other x H.GRANT H.BUSY hxB hG hB hGB
    rw [if_pos hact]
    simp [h1, h2, hact]
  · have h1 := or_flag_and_self x H.BUSY hx0 hB
    have h2 := or_flag_and_other x H.BUSY H.GRANT hxG hB hG (fun h => hGB h.symm)
    rw [if_neg hact]
    simp [h1, h2, hact]

/-- Witness for C9: on the receiver of the test scenario the first DATA packet of a new message
finds the queue of its priority empty and is answered with GRANT and not BUSY. -/
theorem IngressPipe_grant_or_busy_witness :
    (sampleReceiver.IngressPipe sampleHomaConstants ⟨0, 0, false, false, false⟩
        ⟨false, false, false, 0, 0, 0, 0, 0, 0⟩ sampleIpv4Header (sampleHomaHeader 1 0 0)
        Packet.Create 0x0800).map
      (fun r => (controlReplies r.2).map
        (fun c => (decide (c.1.flags &&& sampleHomaConstants.GRANT ≠ 0),
          decide (c.1.flags &&& sampleHomaConstants.BUSY ≠ 0)))) = some [(true, false)] :=
  IngressPipe_grant_or_busy sampleHomaConstants sampleReceiver ⟨0, 0, false, false, false⟩
    ⟨false, false, false, 0, 0, 0, 0, 0, 0⟩ sampleIpv4Header (sampleHomaHeader 1 0 0)
    Packet.Create 0x0800
    ⟨0, 0, true, true, true⟩ [] (by decide) rfl rfl (by decide) (by decide) rfl

/-- C10: for a DATA or RESEND packet with `rxMsgId` `info.rxMsgId`, priority `p` and reply
`grantOffset` `g`, and with `q` the scheduled queue of priority `p` before the packet: the
queue after the packet is `q` without its head exactly when `q` is non-empty, its
head is the `rxMsgId` and `g ≥ msgLen`, followed by the `rxMsgId` exactly when (`q` is
empty or the message is new) and `g < msgLen`; the element removed is the `rxMsgId`;
removal and appending never happen together; the queues of the other
priorities are unchanged. -/
theorem IngressPipe_scheduledMsgs (H : HomaConstants) (self : HomaNanoPuArchtIngressPipe)
    (rxMsgInfo0 : rxMsgInfoMeta_t) (egressMeta0 : egressMeta_t)
    (iph : Ipv4Header) (homah : HomaHeader) (cp : Packet) (protocol : Nat)
    (info : rxMsgInfoMeta_t) (p g : Nat) (q : List Nat)
    (hproto : protocol = 0x0800) (hprot : iph.protocol = H.PROT_NUMBER)
    (hflag : homah.flags &&& H.DATA ≠ 0 ∨ homah.flags &&& H.RESEND ≠ 0)
    (hinfo : info = (self.m_reassemble.GetRxMsgInfo rxMsgInfo0 iph.source homah.srcPort
      homah.txMsgId homah.msgLen homah.pktOffset).1)
    (hp : p = self.GetPriority homah.msgLen)
    (hq : q = self.m_scheduledMsgs p)
    (hg : (self.IngressPipe H rxMsgInfo0 egressMeta0 iph homah cp protocol).map
      (fun r => (controlReplies r.2).map (fun c => c.1.grantOffset)) = some [g]) :
    (self.IngressPipe H rxMsgInfo0 egressMeta0 iph homah cp protocol).map
        (fun r => r.1.m_scheduledMsgs p) =
      some
        ((if q ≠ [] ∧ q.head? = some info.rxMsgId ∧ homah.msgLen ≤ g then q.tail else q) ++
          (if (q = [] ∨ info.isNewMsg = true) ∧ g < homah.msgLen then [info.rxMsgId] else [])) ∧
    (q ≠ [] ∧ q.head? = some info.rxMsgId ∧ homah.msgLen ≤ g → q = info.rxMsgId :: q.tail) ∧
    ¬((q ≠ [] ∧ q.head? = some info.rxMsgId ∧ homah.msgLen ≤ g) ∧
      ((q = [] ∨ info.isNewMsg = true) ∧ g < homah.msgLen)) ∧
    (∀ p' : Nat, p' ≠ p →
      (self.IngressPipe H rxMsgInfo0 egressMeta0 iph homah cp protocol).map
        (fun r => r.1.m_scheduledMsgs p') = some (self.m_scheduledMsgs p')) := by
  have hclosed := IngressPipe_data_or_resend H self rxMsgInfo0 egressMeta0 iph homah cp protocol
    info _ _ p _ q hproto hprot hflag hinfo rfl rfl hp hq rfl
  rw [hclosed] at hg ⊢
  simp only [Option.map_some', controlReplies_reply_cons, List.map_cons, List.map_nil,
    Option.some.injEq, List.cons.injEq, and_true] at hg
  rw [hg]
  refine ⟨?_, ?_, ?_, ?_⟩
  · simp only [Option.map_some', Function.update_same, Option.some.injEq]
    congr 1
    by_cases hne : q = []
    · simp [hne]
    · by_cases hh : q.head? = some info.rxMsgId <;> simp [hne, hh]
  · rintro ⟨hne, hhead, -⟩
    cases q with
    | nil => exact absurd rfl hne
    | cons a l =>
      simp only [List.head?_cons, Option.some.injEq] at hhead
      rw [hhead, List.tail_cons]
  · rintro ⟨⟨-, -, hle⟩, -, hlt⟩
    omega
  · intro p' hp'
    simp only [Option.map_some', Option.some.injEq]
    exact Function.update_noteq hp' _ _

/-- Witness for C10: on a receiver with an initial credit of 2 packets the first DATA packet of
a new 6-packet message is answered with `grantOffset = 3 < 6`; its `rxMsgId` 0 is appended
to the empty queue of priority 0, and the queue of priority 1 stays empty. -/
theorem IngressPipe_scheduledMsgs_witness :
    ((HomaNanoPuArchtIngressPipe.CreateObject (NanoPuArchtReassemble.CreateObject 100) 2).IngressPipe
        sampleHomaConstants ⟨0, 0, false, false, false⟩ ⟨false, false, false, 0, 0, 0, 0, 0, 0⟩
        sampleIpv4Header (sampleHomaHeader 1 0 0) Packet.Create 0x0800).map
      (fun r => r.1.m_scheduledMsgs 0) = some [0] ∧
    ((HomaNanoPuArchtIngressPipe.CreateObject (NanoPuArchtReassemble.CreateObject 100) 2).IngressPipe
        sampleHomaConstants ⟨0, 0, false, false, false⟩ ⟨false, false, false, 0, 0, 0, 0, 0, 0⟩
        sampleIpv4Header (sampleHomaHeader 1 0 0) Packet.Create 0x0800).map
      (fun r => r.1.m_scheduledMsgs 1) = some [] := by
  have h := IngressPipe_scheduledMsgs sampleHomaConstants
    (HomaNanoPuArchtIngressPipe.CreateObject (NanoPuArchtReassemble.CreateObject 100) 2)
    ⟨0, 0, false, false, false⟩ ⟨false, false, false, 0, 0, 0, 0, 0, 0⟩
    sampleIpv4Header (sampleHomaHeader 1 0 0) Packet.Create 0x0800
    ⟨0, 0, true, true, true⟩ 0 3 [] rfl rfl (by decide) (by decide) rfl rfl (by decide)
  exact ⟨h.1, h.2.2.2 1 (by decide)⟩

/-! ### Shared facts about one packet in the ingress pipeline -/

/-- The control branch of `IngressPipe` in closed form: the state is unchanged; a
packet with RSNDRSPNS causes two `CreditToBtxEvent` calls (one inside the branch
and the one after it), any other control packet a `DeliveredEvent` call followed by
one `CreditToBtxEvent` call. -/
theorem IngressPipe_control (H : HomaConstants) (self : HomaNanoPuArchtIngressPipe)
    (rxMsgInfo0 : rxMsgInfoMeta_t) (egressMeta0 : egressMeta_t)
    (iph : Ipv4Header) (homah : HomaHeader) (cp : Packet) (protocol : Nat)
    (hproto : protocol = 0x0800) (hprot : iph.protocol = H.PROT_NUMBER)
    (hdata : homah.flags &&& H.DATA = 0) (hresend : homah.flags &&& H.RESEND = 0) :
    self.IngressPipe H rxMsgInfo0 egressMeta0 iph homah cp protocol =
      some (self,
        if homah.flags &&& H.RSNDRSPNS ≠ 0 then
          [Effect.CreditToBtxEvent homah.txMsgId (homah.pktOffset : Int) (homah.grantOffset : Int)
              (homah.grantOffset : Int) CreditEventOpCode_t.WRITE RelOp.greater,
            Effect.CreditToBtxEvent homah.txMsgId (homah.pktOffset : Int) (homah.grantOffset : Int)
              (homah.grantOffset : Int) CreditEventOpCode_t.WRITE RelOp.greater]
        else
          [Effect.DeliveredEvent homah.txMsgId homah.msgLen (bitmapShiftLeftOne homah.pktOffset),
            Effect.CreditToBtxEvent homah.txMsgId (-1) (homah.grantOffset : Int)
              (homah.grantOffset : Int) CreditEventOpCode_t.WRITE RelOp.greater]) := by
  unfold HomaNanoPuArchtIngressPipe.IngressPipe
  simp only [hproto, hprot, hdata, hresend, ne_eq, not_true_eq_false, or_self, if_false]
  by_cases hr : homah.flags &&& H.RSNDRSPNS = 0 <;>
    simp only [hr, not_true_eq_false, not_false_eq_true, if_true, if_false, List.singleton_append]

/-- The hand-offs among the calls of the DATA/RESEND branch. -/
theorem processNewPacketCalls_reply_cons (egressMeta0 : egressMeta_t)
    (flag dstIp dstPort srcPort txMsgId msgLen pktOffset grantOffset priority : Nat)
    (c : Prop) [Decidable c] (delay : Nat) (cp : Packet) (metaData : reassembleMeta_t) :
    processNewPacketCalls
      (HomaNanoPuArchtPktGen.CtrlPktEvent egressMeta0 flag dstIp dstPort srcPort txMsgId msgLen
          pktOffset grantOffset priority ::
        (if c then [Effect.ScheduleProcessNewPacket delay cp metaData] else [])) =
      if c then [(delay, cp, metaData)] else [] := by
  by_cases hc : c <;>
    simp [hc, processNewPacketCalls, HomaNanoPuArchtPktGen.CtrlPktEvent]

/-- The one control reply to a DATA or RESEND packet, summarised: with `q` the scheduled
queue of the packet's priority before the packet and `g` the updated credit
counter, the reply carries GRANT and not BUSY when `q` is empty or headed by the
`rxMsgId`, BUSY and not GRANT otherwise, and its `grantOffset` is `g`. -/
theorem IngressPipe_replySummary (H : HomaConstants) (self : HomaNanoPuArchtIngressPipe)
    (rxMsgInfo0 : rxMsgInfoMeta_t) (egressMeta0 : egressMeta_t)
    (iph : Ipv4Header) (homah : HomaHeader) (cp : Packet) (protocol : Nat)
    (info : rxMsgInfoMeta_t) (d g : Nat) (q : List Nat)
    (hH : H.FlagsAreBitmask)
    (hproto : protocol = 0x0800) (hprot : iph.protocol = H.PROT_NUMBER)
    (hflag : homah.flags &&& H.DATA ≠ 0 ∨ homah.flags &&& H.RESEND ≠ 0)
    (hinfo : info = (self.m_reassemble.GetRxMsgInfo rxMsgInfo0 iph.source homah.srcPort
      homah.txMsgId homah.msgLen homah.pktOffset).1)
    (hd : d = if homah.flags &&& H.RESEND ≠ 0 then 0 else 1)
    (hg : g = if info.isNewMsg = true then (self.m_rttPkts + d) % 65536
      else (self.m_credits info.rxMsgId + d) % 65536)
    (hq : q = self.m_scheduledMsgs (self.GetPriority homah.msgLen)) :
    (self.IngressPipe H rxMsgInfo0 egressMeta0 iph homah cp protocol).map
        (fun r => replySummary H r.2) =
      some [(decide (q = [] ∨ q.head? = some info.rxMsgId),
             decide (¬(q = [] ∨ q.head? = some info.rxMsgId)), g)] := by
  obtain ⟨-, hG, hB, -, hR, hnd⟩ := hH
  simp only [List.nodup_cons, List.mem_cons, List.mem_singleton, not_or, List.not_mem_nil,
    not_false_eq_true, List.nodup_nil, and_true] at hnd
  have hGB : H.GRANT ≠ H.BUSY := hnd.2.1.1
  have hRG : H.RSNDRSPNS ≠ H.GRANT := fun h => hnd.2.1.2.2 h.symm
  have hRB : H.RSNDRSPNS ≠ H.BUSY := fun h => hnd.2.2.1.2 h.symm
  obtain ⟨x, hxv, hxc⟩ : ∃ x : Nat,
      x = (if homah.flags &&& H.RESEND ≠ 0 ∧ info.isNewPkt = true then (0 ||| H.RSNDRSPNS) % 256
        else 0) ∧ (x = 0 ∨ x = H.RSNDRSPNS) := by
    refine ⟨_, rfl, ?_⟩
    split
    · right; exact zero_or_flag _ hR
    · left; rfl
  rw [IngressPipe_data_or_resend H self rxMsgInfo0 egressMeta0 iph homah cp protocol info d g _ x q
    hproto hprot hflag hinfo hd hg rfl hq hxv]
  simp only [Option.map_some', replySummary, controlReplies_reply_cons, List.map_cons, List.map_nil]
  have hx0 : x = 0 ∨ IsFlagBit x := by
    rcases hxc with h | h
    · exact Or.inl h
    · exact Or.inr (h ▸ hR)
  have hxG : x = 0 ∨ (IsFlagBit x ∧ x ≠ H.GRANT) := by
    rcases hxc with h | h
    · exact Or.inl h
    · exact Or.inr ⟨h ▸ hR, h ▸ hRG⟩
  have hxB : x = 0 ∨ (IsFlagBit x ∧ x ≠ H.BUSY) := by
    rcases hxc with h | h
    · exact Or.inl h
    · exact Or.inr ⟨h ▸ hR, h ▸ hRB⟩
  by_cases hact : q = [] ∨ q.head? = some info.rxMsgId
  · have h1 := or_flag_and_self x H.GRANT hx0 hG
    have h2 := or_flag_and_other x H.GRANT H.BUSY hxB hG hB hGB
    rw [if_pos hact]
    simp [h1, h2, hact]
  · have h1 := or_flag_and_self x H.BUSY hx0 hB
    have h2 := or_flag_and_other x H.BUSY H.GRANT hxG hB hG (fun h => hGB h.symm)
    rw [if_neg hact]
    simp [h1, h2, hact]

/-! ### Claims about single packets and short scenarios -/

/-- C13: evaluation of `IngressPipe` where the claim fails.  The receiver has a buffer for
one message and an initial credit of 10.  The first DATA packet of message 0 takes the
only `rxMsgId`; for the first DATA packet of message 1 `GetRxMsgInfo` then returns
`success = false` and leaves `rxMsgId` at its indeterminate content (here 0).
`IngressPipe` goes on all the same: it answers with a GRANT reply of `grantOffset` 12,
schedules the hand-off of the payload under `rxMsgId` 0, and raises the credit
counter of `rxMsgId` 0 from 11 to 12. -/
theorem IngressPipe_unresolved_flow_not_dropped :
    ((HomaNanoPuArchtIngressPipe.CreateObject (NanoPuArchtReassemble.CreateObject 1) 10).receiveAll
        sampleHomaConstants [sampleDataPacket 0 6 0]).map
      (fun r =>
        (r.1.m_reassemble.GetRxMsgInfo ⟨0, 0, false, false, false⟩ 167772417 111 1 6 0).1.success) =
      some false ∧
    ((HomaNanoPuArchtIngressPipe.CreateObject (NanoPuArchtReassemble.CreateObject 1) 10).receiveAll
        sampleHomaConstants [sampleDataPacket 0 6 0, sampleDataPacket 1 6 0]).map
      (fun r => r.2.map (replySummary sampleHomaConstants)) =
      some [[(true, false, 11)], [(true, false, 12)]] ∧
    ((HomaNanoPuArchtIngressPipe.CreateObject (NanoPuArchtReassemble.CreateObject 1) 10).receiveAll
        sampleHomaConstants [sampleDataPacket 0 6 0, sampleDataPacket 1 6 0]).map
      (fun r => r.2.map processNewPacketCalls) =
      some [[(5, Packet.Create, ⟨0, 167772417, 111, 222, 0, 6, 0⟩)],
        [(5, Packet.Create, ⟨0, 167772417, 111, 222, 1, 6, 0⟩)]] ∧
    ((HomaNanoPuArchtIngressPipe.CreateObject (NanoPuArchtReassemble.CreateObject 1) 10).receiveAll
        sampleHomaConstants [sampleDataPacket 0 6 0]).map (fun r => r.1.m_credits 0) = some 11 ∧
    ((HomaNanoPuArchtIngressPipe.CreateObject (NanoPuArchtReassemble.CreateObject 1) 10).receiveAll
        sampleHomaConstants [sampleDataPacket 0 6 0, sampleDataPacket 1 6 0]).map
      (fun r => r.1.m_credits 0) = some 12 := by
  decide

/-- C14: evaluation of `IngressPipe` where the claim fails.  A control packet whose only flag is
RSNDRSPNS, for packet 3 of message 0 and with `grantOffset` 11, causes two identical
`CreditToBtxEvent` calls, not one: the call inside the RSNDRSPNS branch and the call
after the branch. -/
theorem IngressPipe_rsndrspns_two_calls :
    (sampleReceiver.IngressPipe sampleHomaConstants ⟨0, 0, false, false, false⟩
        ⟨false, false, false, 0, 0, 0, 0, 0, 0⟩ sampleIpv4Header
        { sampleHomaHeader 16 0 3 with grantOffset := 11 } Packet.Create 0x0800).map
      (fun r => r.2) =
      some
        [Effect.CreditToBtxEvent 0 3 11 11 CreditEventOpCode_t.WRITE RelOp.greater,
          Effect.CreditToBtxEvent 0 3 11 11 CreditEventOpCode_t.WRITE RelOp.greater] := by
  decide

/-- C15: a control packet (neither DATA nor RESEND) without RSNDRSPNS and with
`pktOffset < 64` leaves the state unchanged and causes exactly two calls, in this
order: `DeliveredEvent (txMsgId, msgLen, mask)` with `mask = 2 ^ pktOffset`, the 64-bit
bitmap with exactly bit `pktOffset` set, and then `CreditToBtxEvent` with no
retransmit offset (`-1`), the header's `grantOffset` as credit and as comparison
value, and the strictly-greater comparator. -/
theorem IngressPipe_control_delivered (H : HomaConstants) (self : HomaNanoPuArchtIngressPipe)
    (rxMsgInfo0 : rxMsgInfoMeta_t) (egressMeta0 : egressMeta_t)
    (iph : Ipv4Header) (homah : HomaHeader) (cp : Packet) (protocol : Nat)
    (hproto : protocol = 0x0800) (hprot : iph.protocol = H.PROT_NUMBER)
    (hdata : homah.flags &&& H.DATA = 0) (hresend : homah.flags &&& H.RESEND = 0)
    (hrsnd : homah.flags &&& H.RSNDRSPNS = 0) (hoff : homah.pktOffset < 64) :
    self.IngressPipe H rxMsgInfo0 egressMeta0 iph homah cp protocol =
      some (self,
        [Effect.DeliveredEvent homah.txMsgId homah.msgLen (2 ^ homah.pktOffset),
          Effect.CreditToBtxEvent homah.txMsgId (-1) (homah.grantOffset : Int)
            (homah.grantOffset : Int) CreditEventOpCode_t.WRITE RelOp.greater]) ∧
    2 ^ homah.pktOffset < 2 ^ BITMAP_SIZE ∧
    (∀ i : Nat, (2 ^ homah.pktOffset).testBit i = decide (homah.pktOffset = i)) ∧
    RelOp.greater.eval 2 1 = true ∧ RelOp.greater.eval 1 1 = false := by
  have hshift : bitmapShiftLeftOne homah.pktOffset = 2 ^ homah.pktOffset := by
    unfold bitmapShiftLeftOne BITMAP_SIZE
    rw [Nat.mod_eq_of_lt hoff]
  rw [IngressPipe_control H self rxMsgInfo0 egressMeta0 iph homah cp protocol hproto hprot hdata
    hresend]
  refine ⟨?_, ?_, ?_, by decide, by decide⟩
  · simp only [hrsnd, ne_eq, not_true_eq_false, if_false, hshift]
  · exact Nat.pow_lt_pow_right (by decide) hoff
  · intro i; exact Nat.testBit_two_pow

/-- Witness for C15: a GRANT packet for packet 3 of message 0 with `grantOffset` 11. -/
theorem IngressPipe_control_delivered_witness :
    sampleReceiver.IngressPipe sampleHomaConstants ⟨0, 0, false, false, false⟩
        ⟨false, false, false, 0, 0, 0, 0, 0, 0⟩ sampleIpv4Header
        { sampleHomaHeader 2 0 3 with grantOffset := 11 } Packet.Create 0x0800 =
      some (sampleReceiver,
        [Effect.DeliveredEvent 0 6 8,
          Effect.CreditToBtxEvent 0 (-1) 11 11 CreditEventOpCode_t.WRITE RelOp.greater]) :=
  (IngressPipe_control_delivered sampleHomaConstants sampleReceiver ⟨0, 0, false, false, false⟩
    ⟨false, false, false, 0, 0, 0, 0, 0, 0⟩ sampleIpv4Header
    { sampleHomaHeader 2 0 3 with grantOffset := 11 } Packet.Create 0x0800 rfl rfl
    (by decide) (by decide) (by decide) (by decide)).1

/-- C16: for a packet with the DATA or RESEND flag, a hand-off to the reassembly buffer
(`ProcessNewPacket`, scheduled `HOMA_INGRESS_PIPE_DELAY` later) is made exactly when the
DATA flag is set, and then exactly once, with the remaining packet and the
metadata made of the resolved `rxMsgId` and the packet's `srcIp`, `srcPort`, `dstPort`,
`txMsgId`, `msgLen` and `pktOffset`; without the DATA flag no hand-off is made. -/
theorem IngressPipe_handOff (H : HomaConstants) (self : HomaNanoPuArchtIngressPipe)
    (rxMsgInfo0 : rxMsgInfoMeta_t) (egressMeta0 : egressMeta_t)
    (iph : Ipv4Header) (homah : HomaHeader) (cp : Packet) (protocol : Nat)
    (info : rxMsgInfoMeta_t)
    (hproto : protocol = 0x0800) (hprot : iph.protocol = H.PROT_NUMBER)
    (hflag : homah.flags &&& H.DATA ≠ 0 ∨ homah.flags &&& H.RESEND ≠ 0)
    (hinfo : info = (self.m_reassemble.GetRxMsgInfo rxMsgInfo0 iph.source homah.srcPort
      homah.txMsgId homah.msgLen homah.pktOffset).1) :
    (self.IngressPipe H rxMsgInfo0 egressMeta0 iph homah cp protocol).map
        (fun r => processNewPacketCalls r.2) =
      some
        (if homah.flags &&& H.DATA ≠ 0 then
          [(H.HOMA_INGRESS_PIPE_DELAY, cp,
            { rxMsgId := info.rxMsgId
              srcIp := iph.source
              srcPort := homah.srcPort
              dstPort := homah.dstPort
              txMsgId := homah.txMsgId
              msgLen := homah.msgLen
              pktOffset := homah.pktOffset })]
        else []) := by
  rw [IngressPipe_data_or_resend H self rxMsgInfo0 egressMeta0 iph homah cp protocol info _ _ _ _ _
    hproto hprot hflag hinfo rfl rfl rfl rfl rfl]
  simp only [Option.map_some', processNewPacketCalls_reply_cons]

/-- Witness for C16: the first DATA packet of a new message on the receiver of the test
scenario is handed off once, under `rxMsgId` 0. -/
theorem IngressPipe_handOff_witness :
    (sampleReceiver.IngressPipe sampleHomaConstants ⟨0, 0, false, false, false⟩
        ⟨false, false, false, 0, 0, 0, 0, 0, 0⟩ sampleIpv4Header (sampleHomaHeader 1 0 0)
        Packet.Create 0x0800).map (fun r => processNewPacketCalls r.2) =
      some [(5, Packet.Create, ⟨0, 167772417, 111, 222, 0, 6, 0⟩)] :=
  IngressPipe_handOff sampleHomaConstants sampleReceiver ⟨0, 0, false, false, false⟩
    ⟨false, false, false, 0, 0, 0, 0, 0, 0⟩ sampleIpv4Header (sampleHomaHeader 1 0 0)
    Packet.Create 0x0800 ⟨0, 0, true, true, true⟩ rfl rfl (by decide) (by decide)

/-- C17 as stated fails: a GRANT packet for the 6-packet message 0 that carries `grantOffset` 11 (the
value the receiver of the test scenario sends) makes `IngressPipe` apply the credited
offset 11, which exceeds the message length 6. -/
theorem IngressPipe_credit_above_msgLen :
    (sampleReceiver.IngressPipe sampleHomaConstants ⟨0, 0, false, false, false⟩
        ⟨false, false, false, 0, 0, 0, 0, 0, 0⟩ sampleIpv4Header
        { sampleHomaHeader 2 0 0 with grantOffset := 11 } Packet.Create 0x0800).map
      (fun r => creditedOffsets r.2) = some [11] ∧
    ({ sampleHomaHeader 2 0 0 with grantOffset := 11 } : HomaHeader).msgLen = 6 ∧
    ((6 : Nat) : Int) < 11 := by
  decide

/-- C17 (amended): for every control packet (neither DATA nor RESEND) the credited
offset that `IngressPipe` applies through `CreditToBtxEvent` is the `grantOffset` of the
packet's header, unchanged and not compared with `msgLen`, in every call it makes
(two calls for a packet with RSNDRSPNS, one otherwise). -/
theorem IngressPipe_credit_is_grantOffset (H : HomaConstants) (self : HomaNanoPuArchtIngressPipe)
    (rxMsgInfo0 : rxMsgInfoMeta_t) (egressMeta0 : egressMeta_t)
    (iph : Ipv4Header) (homah : HomaHeader) (cp : Packet) (protocol : Nat)
    (hproto : protocol = 0x0800) (hprot : iph.protocol = H.PROT_NUMBER)
    (hdata : homah.flags &&& H.DATA = 0) (hresend : homah.flags &&& H.RESEND = 0) :
    (self.IngressPipe H rxMsgInfo0 egressMeta0 iph homah cp protocol).map
        (fun r => creditedOffsets r.2) =
      some
        (if homah.flags &&& H.RSNDRSPNS ≠ 0 then [(homah.grantOffset : Int), (homah.grantOffset : Int)]
        else [(homah.grantOffset : Int)]) := by
  rw [IngressPipe_control H self rxMsgInfo0 egressMeta0 iph homah cp protocol hproto hprot hdata
    hresend]
  by_cases hr : homah.flags &&& H.RSNDRSPNS = 0 <;>
    simp [hr, creditedOffsets]

/-- Witness for C17 (amended): a BUSY packet for the 6-packet message 0 carrying `grantOffset` 4. -/
theorem IngressPipe_credit_is_grantOffset_witness :
    (sampleReceiver.IngressPipe sampleHomaConstants ⟨0, 0, false, false, false⟩
        ⟨false, false, false, 0, 0, 0, 0, 0, 0⟩ sampleIpv4Header
        { sampleHomaHeader 4 0 0 with grantOffset := 4 } Packet.Create 0x0800).map
      (fun r => creditedOffsets r.2) = some [4] :=
  IngressPipe_credit_is_grantOffset sampleHomaConstants sampleReceiver ⟨0, 0, false, false, false⟩
    ⟨false, false, false, 0, 0, 0, 0, 0, 0⟩ sampleIpv4Header
    { sampleHomaHeader 4 0 0 with grantOffset := 4 } Packet.Create 0x0800 rfl rfl
    (by decide) (by decide)

/-- C18: `IngressPipe` fails on an assertion, before it resolves the flow, changes any
state or makes any call, exactly when the link-layer protocol id is not `0x0800` or
the protocol number of the IP header is not `HomaHeader::PROT_NUMBER`; otherwise it
runs to its end. -/
theorem IngressPipe_protocol_check (H : HomaConstants) (self : HomaNanoPuArchtIngressPipe)
    (rxMsgInfo0 : rxMsgInfoMeta_t) (egressMeta0 : egressMeta_t)
    (iph : Ipv4Header) (homah : HomaHeader) (cp : Packet) (protocol : Nat) :
    (self.IngressPipe H rxMsgInfo0 egressMeta0 iph homah cp protocol = none ↔
      (protocol ≠ 0x0800 ∨ iph.protocol ≠ H.PROT_NUMBER)) ∧
    ((self.IngressPipe H rxMsgInfo0 egressMeta0 iph homah cp protocol).isSome = true ↔
      (protocol = 0x0800 ∧ iph.protocol = H.PROT_NUMBER)) := by
  have hnone : (protocol ≠ 0x0800 ∨ iph.protocol ≠ H.PROT_NUMBER) →
      self.IngressPipe H rxMsgInfo0 egressMeta0 iph homah cp protocol = none := by
    intro h
    unfold HomaNanoPuArchtIngressPipe.IngressPipe
    by_cases h1 : protocol = 0x0800
    · have h2 : iph.protocol ≠ H.PROT_NUMBER := by
        rcases h with h | h
        · exact absurd h1 h
        · exact h
      rw [if_neg (not_not.mpr h1), if_pos h2]
    · rw [if_pos h1]
  have hsome : (protocol = 0x0800 ∧ iph.protocol = H.PROT_NUMBER) →
      (self.IngressPipe H rxMsgInfo0 egressMeta0 iph homah cp protocol).isSome = true := by
    rintro ⟨h1, h2⟩
    by_cases hflag : homah.flags &&& H.DATA ≠ 0 ∨ homah.flags &&& H.RESEND ≠ 0
    · rw [IngressPipe_data_or_resend H self rxMsgInfo0 egressMeta0 iph homah cp protocol _ _ _ _ _ _
        h1 h2 hflag rfl rfl rfl rfl rfl rfl]
      rfl
    · rw [not_or, not_not, not_not] at hflag
      rw [IngressPipe_control H self rxMsgInfo0 egressMeta0 iph homah cp protocol h1 h2 hflag.1
        hflag.2]
      rfl
  refine ⟨⟨?_, hnone⟩, ⟨?_, hsome⟩⟩
  · intro h
    by_contra hnot
    rw [not_or, not_not, not_not] at hnot
    have := hsome hnot
    rw [h] at this
    exact Bool.noConfusion this
  · intro h
    by_contra hnot
    have hor : protocol ≠ 0x0800 ∨ iph.protocol ≠ H.PROT_NUMBER := by
      by_cases h1 : protocol = 0x0800
      · exact Or.inr (fun h2 => hnot ⟨h1, h2⟩)
      · exact Or.inl h1
    rw [hnone hor] at h
    exact Bool.noConfusion h

/-- Processing a sequence of packets: the first packet, then the rest. -/
theorem receiveAll_cons_of_some (H : HomaConstants) (self s1 : HomaNanoPuArchtIngressPipe)
    (a : IngressPipeArgs) (rest : List IngressPipeArgs) (calls : List Effect)
    (h : self.IngressPipe H a.rxMsgInfo0 a.egressMeta0 a.iph a.homah a.cp a.protocol =
      some (s1, calls)) :
    self.receiveAll H (a :: rest) =
      (s1.receiveAll H rest).map (fun rs => (rs.1, calls :: rs.2)) := by
  have h' : self.receive H a = some (s1, calls) := h
  simp only [HomaNanoPuArchtIngressPipe.receiveAll, h']
  cases s1.receiveAll H rest <;> rfl

/-- The first DATA packet of a message on a fresh receiver with an initial credit of 10: the
message gets `rxMsgId` 0, the reply carries GRANT, not BUSY, and `grantOffset` 11, and the
message is entered in the queue of priority 0 exactly when it is longer than 11
packets. -/
theorem IngressPipe_first_packet (H : HomaConstants) (maxMessages : Nat) (a : IngressPipeArgs)
    (hH : H.FlagsAreBitmask) (hmax : 1 ≤ maxMessages)
    (hpa : a.protocol = 0x0800) (hia : a.iph.protocol = H.PROT_NUMBER)
    (hda : a.homah.flags &&& H.DATA ≠ 0) (hra : a.homah.flags &&& H.RESEND = 0) :
    ∃ (s1 : HomaNanoPuArchtIngressPipe) (calls : List Effect),
      (HomaNanoPuArchtIngressPipe.CreateObject (NanoPuArchtReassemble.CreateObject maxMessages)
        10).IngressPipe H a.rxMsgInfo0 a.egressMeta0 a.iph a.homah a.cp a.protocol = some (s1, calls) ∧
      s1.m_reassemble =
        ⟨(List.range (maxMessages - 1)).map (fun i => i + 1),
         [(⟨a.iph.source, a.homah.srcPort, a.homah.txMsgId⟩, 0)], [(0, 0)]⟩ ∧
      s1.m_rttPkts = 10 ∧ s1.m_priorities = [] ∧
      s1.m_credits = Function.update (fun _ => 0) 0 11 ∧
      s1.m_scheduledMsgs = Function.update (fun _ => [])  0 (if 11 < a.homah.msgLen then [0] else []) ∧
      replySummary H calls = [(true, false, 11)] := by
  obtain ⟨n, rfl⟩ : ∃ n, maxMessages = n + 1 := ⟨maxMessages - 1, by omega⟩
  have hrange : List.range (n + 1) = 0 :: (List.range n).map (fun i => i + 1) := by
    rw [List.range_succ_eq_map]
  have hget := GetRxMsgInfo_of_new (NanoPuArchtReassemble.CreateObject (n + 1)) a.rxMsgInfo0
    a.iph.source a.homah.srcPort a.homah.txMsgId a.homah.msgLen a.homah.pktOffset 0
    ((List.range n).map (fun i => i + 1)) rfl hrange
  have hinfo : (⟨0, 0, true, true, true⟩ : rxMsgInfoMeta_t) =
      ((HomaNanoPuArchtIngressPipe.CreateObject (NanoPuArchtReassemble.CreateObject (n + 1))
        10).m_reassemble.GetRxMsgInfo a.rxMsgInfo0 a.iph.source a.homah.srcPort a.homah.txMsgId
        a.homah.msgLen a.homah.pktOffset).1 := by
    show _ = ((NanoPuArchtReassemble.CreateObject (n + 1)).GetRxMsgInfo _ _ _ _ _ _).1
    rw [hget]
  have hd : (1 : Nat) = if a.homah.flags &&& H.RESEND ≠ 0 then 0 else 1 := by simp [hra]
  have hg : (11 : Nat) = if (⟨0, 0, true, true, true⟩ : rxMsgInfoMeta_t).isNewMsg = true then
      ((HomaNanoPuArchtIngressPipe.CreateObject (NanoPuArchtReassemble.CreateObject (n + 1))
        10).m_rttPkts + 1) % 65536
      else ((HomaNanoPuArchtIngressPipe.CreateObject (NanoPuArchtReassemble.CreateObject (n + 1))
        10).m_credits (⟨0, 0, true, true, true⟩ : rxMsgInfoMeta_t).rxMsgId + 1) % 65536 := by
    simp [HomaNanoPuArchtIngressPipe.CreateObject]
  have h1 := IngressPipe_data_or_resend H
    (HomaNanoPuArchtIngressPipe.CreateObject (NanoPuArchtReassemble.CreateObject (n + 1)) 10)
    a.rxMsgInfo0 a.egressMeta0 a.iph a.homah a.cp a.protocol
    ⟨0, 0, true, true, true⟩ 1 11 0 0 [] hpa hia (Or.inl hda) hinfo hd hg rfl rfl (by simp [hra])
  have hsum := IngressPipe_replySummary H
    (HomaNanoPuArchtIngressPipe.CreateObject (NanoPuArchtReassemble.CreateObject (n + 1)) 10)
    a.rxMsgInfo0 a.egressMeta0 a.iph a.homah a.cp a.protocol
    ⟨0, 0, true, true, true⟩ 1 11 [] hH hpa hia (Or.inl hda) hinfo hd hg rfl
  rw [h1] at hsum
  refine ⟨_, _, h1, ?_, rfl, rfl, rfl, ?_, ?_⟩
  · show ((NanoPuArchtReassemble.CreateObject (n + 1)).GetRxMsgInfo _ _ _ _ _ _).2 = _
    rw [hget]
    simp [NanoPuArchtReassemble.CreateObject, unorderedMapInsert]
  · simp [HomaNanoPuArchtIngressPipe.CreateObject]
  · simpa using hsum

/-- C11 (amended): on a fresh Homa receiver with an initial credit window of 10 (and room for
two messages), the first DATA packet of a message A is answered with GRANT, not BUSY,
and `grantOffset` 11, and the first DATA packet of a second, distinct message B that
follows is answered with `grantOffset` 11 too: with GRANT and not BUSY when A has at
most 11 packets (so for the 6-packet messages of the scenario), with BUSY and not
GRANT when A has more than 11 packets. -/
theorem receiveAll_second_message (H : HomaConstants) (maxMessages : Nat) (a b : IngressPipeArgs)
    (hH : H.FlagsAreBitmask) (hmax : 2 ≤ maxMessages)
    (hpa : a.protocol = 0x0800) (hia : a.iph.protocol = H.PROT_NUMBER)
    (hda : a.homah.flags &&& H.DATA ≠ 0) (hra : a.homah.flags &&& H.RESEND = 0)
    (hpb : b.protocol = 0x0800) (hib : b.iph.protocol = H.PROT_NUMBER)
    (hdb : b.homah.flags &&& H.DATA ≠ 0) (hrb : b.homah.flags &&& H.RESEND = 0)
    (hkey : (⟨a.iph.source, a.homah.srcPort, a.homah.txMsgId⟩ : rxMsgIdTableKey_t) ≠
      ⟨b.iph.source, b.homah.srcPort, b.homah.txMsgId⟩) :
    ((HomaNanoPuArchtIngressPipe.CreateObject (NanoPuArchtReassemble.CreateObject maxMessages)
        10).receiveAll H [a, b]).map (fun r => r.2.map (replySummary H)) =
      some [[(true, false, 11)],
        [(decide (a.homah.msgLen ≤ 11), decide (11 < a.homah.msgLen), 11)]] := by
  obtain ⟨s1, callsA, hrecv, hre, hrtt, hprio, -, hsched, hsumA⟩ :=
    IngressPipe_first_packet H maxMessages a hH (by omega) hpa hia hda hra
  obtain ⟨n, rfl⟩ : ∃ n, maxMessages = n + 2 := ⟨maxMessages - 2, by omega⟩
  have hfree : s1.m_reassemble.m_rxMsgIdFreeList = 1 :: (List.range n).map (fun i => i + 2) := by
    rw [hre]
    show List.map (fun i => i + 1) (List.range (n + 1)) = _
    rw [List.range_succ_eq_map]
    simp [List.map_map, Function.comp]
  have hlook : s1.m_reassemble.m_rxMsgIdTable.lookup
      ⟨b.iph.source, b.homah.srcPort, b.homah.txMsgId⟩ = none := by
    rw [hre]
    have hb : ((⟨b.iph.source, b.homah.srcPort, b.homah.txMsgId⟩ : rxMsgIdTableKey_t) ==
        ⟨a.iph.source, a.homah.srcPort, a.homah.txMsgId⟩) = false := by
      have hne : (⟨b.iph.source, b.homah.srcPort, b.homah.txMsgId⟩ : rxMsgIdTableKey_t) ≠
          ⟨a.iph.source, a.homah.srcPort, a.homah.txMsgId⟩ := fun h => hkey h.symm
      simpa using hne
    simp only [List.lookup_cons, hb, List.lookup_nil]
  have hget := GetRxMsgInfo_of_new s1.m_reassemble b.rxMsgInfo0
    b.iph.source b.homah.srcPort b.homah.txMsgId b.homah.msgLen b.homah.pktOffset 1
    ((List.range n).map (fun i => i + 2)) hlook hfree
  have hinfo : (⟨1, 0, true, true, true⟩ : rxMsgInfoMeta_t) =
      (s1.m_reassemble.GetRxMsgInfo b.rxMsgInfo0 b.iph.source b.homah.srcPort b.homah.txMsgId
        b.homah.msgLen b.homah.pktOffset).1 := by
    rw [hget]
  have hq : (if 11 < a.homah.msgLen then [0] else []) =
      s1.m_scheduledMsgs (s1.GetPriority b.homah.msgLen) := by
    rw [hsched]
    unfold HomaNanoPuArchtIngressPipe.GetPriority
    rw [hprio]
    simp [GetPriorityLoop]
  have hsumB := IngressPipe_replySummary H s1 b.rxMsgInfo0 b.egressMeta0 b.iph b.homah b.cp
    b.protocol ⟨1, 0, true, true, true⟩ 1 11 _ hH hpb hib (Or.inl hdb) hinfo (by simp [hrb])
    (by simp [hrtt]) hq
  obtain ⟨r2, hr2, hX⟩ := Option.map_eq_some'.mp hsumB
  rw [receiveAll_cons_of_some H _ s1 a [b] callsA hrecv,
    receiveAll_cons_of_some H s1 r2.1 b [] r2.2 hr2]
  simp only [HomaNanoPuArchtIngressPipe.receiveAll, Option.map_some', List.map_cons, List.map_nil,
    hsumA, hX, Option.some.injEq, List.cons.injEq, and_true, true_and]
  by_cases hlen : 11 < a.homah.msgLen
  · have hle : ¬a.homah.msgLen ≤ 11 := by omega
    simp [hlen, hle]
  · have hle : a.homah.msgLen ≤ 11 := by omega
    simp [hlen, hle]


/-- C11 as stated fails: on the receiver of the test scenario (initial credit 10) the first DATA
packet of the 6-packet message 0 is answered with GRANT and `grantOffset` 11, and the first
DATA packet of the 6-packet message 1 that follows is answered with GRANT and not BUSY. -/
theorem receiveAll_second_message_granted :
    (sampleReceiver.receiveAll sampleHomaConstants
        [sampleDataPacket 0 6 0, sampleDataPacket 1 6 0]).map
      (fun r => r.2.map (replySummary sampleHomaConstants)) =
      some [[(true, false, 11)], [(true, false, 11)]] := by
  decide

/-- Witness for C11 (amended): with two 12-packet messages the second one is answered with BUSY. -/
theorem receiveAll_second_message_witness :
    (sampleReceiver.receiveAll sampleHomaConstants
        [sampleDataPacket 0 12 0, sampleDataPacket 1 12 0]).map
      (fun r => r.2.map (replySummary sampleHomaConstants)) =
      some [[(true, false, 11)], [(false, true, 11)]] :=
  receiveAll_second_message sampleHomaConstants 100 (sampleDataPacket 0 12 0)
    (sampleDataPacket 1 12 0) (by decide) (by decide) rfl rfl (by decide) (by decide) rfl rfl
    (by decide) (by decide) (by decide)

/-- C12 as stated fails: after the first DATA packets of the 6-packet messages 0 and 1 on the
receiver of the test scenario, both messages are registered (under the `rxMsgId`s 0
and 1), both have priority 0, and the next DATA packet of either of them would be
answered with GRANT, because the scheduled queue of priority 0 is empty. -/
theorem receiveAll_two_messages_granted :
    (sampleReceiver.receiveAll sampleHomaConstants
        [sampleDataPacket 0 6 0, sampleDataPacket 1 6 0]).map
      (fun r =>
        (r.1.m_reassemble.m_rxMsgIdTable.lookup ⟨167772417, 111, 0⟩,
          r.1.m_reassemble.m_rxMsgIdTable.lookup ⟨167772417, 111, 1⟩,
          r.1.GetPriority 6, r.1.m_scheduledMsgs 0)) =
      some (some 0, some 1, 0, []) ∧
    (sampleReceiver.receiveAll sampleHomaConstants
        [sampleDataPacket 0 6 0, sampleDataPacket 1 6 0, sampleDataPacket 0 6 1]).map
      (fun r => r.2.map (replySummary sampleHomaConstants)) =
      some [[(true, false, 11)], [(true, false, 11)], [(true, false, 12)]] ∧
    (sampleReceiver.receiveAll sampleHomaConstants
        [sampleDataPacket 0 6 0, sampleDataPacket 1 6 0, sampleDataPacket 1 6 1]).map
      (fun r => r.2.map (replySummary sampleHomaConstants)) =
      some [[(true, false, 11)], [(true, false, 11)], [(true, false, 12)]] := by
  decide!

/-- C12 (amended): in every state of the Homa receiver and for two DATA or RESEND packets
of one priority `p`: while the scheduled queue of `p` is non-empty, at most one
`rxMsgId` is active, that is, if both packets would be answered with GRANT then they
have the same `rxMsgId`; while the queue of `p` is empty, each of them is answered
with GRANT and not BUSY. -/
theorem IngressPipe_single_active (H : HomaConstants) (self : HomaNanoPuArchtIngressPipe)
    (a b : IngressPipeArgs) (p : Nat)
    (hH : H.FlagsAreBitmask)
    (hpa : a.protocol = 0x0800) (hia : a.iph.protocol = H.PROT_NUMBER)
    (hfa : a.homah.flags &&& H.DATA ≠ 0 ∨ a.homah.flags &&& H.RESEND ≠ 0)
    (hpb : b.protocol = 0x0800) (hib : b.iph.protocol = H.PROT_NUMBER)
    (hfb : b.homah.flags &&& H.DATA ≠ 0 ∨ b.homah.flags &&& H.RESEND ≠ 0)
    (hprioa : self.GetPriority a.homah.msgLen = p)
    (hpriob : self.GetPriority b.homah.msgLen = p) :
    (self.m_scheduledMsgs p ≠ [] →
      (self.receive H a).map (fun r => (replySummary H r.2).map (fun t => t.1)) = some [true] →
      (self.receive H b).map (fun r => (replySummary H r.2).map (fun t => t.1)) = some [true] →
      (self.m_reassemble.GetRxMsgInfo a.rxMsgInfo0 a.iph.source a.homah.srcPort a.homah.txMsgId
          a.homah.msgLen a.homah.pktOffset).1.rxMsgId =
        (self.m_reassemble.GetRxMsgInfo b.rxMsgInfo0 b.iph.source b.homah.srcPort b.homah.txMsgId
          b.homah.msgLen b.homah.pktOffset).1.rxMsgId) ∧
    (self.m_scheduledMsgs p = [] →
      (self.receive H a).map (fun r => (replySummary H r.2).map (fun t => (t.1, t.2.1))) =
          some [(true, false)] ∧
        (self.receive H b).map (fun r => (replySummary H r.2).map (fun t => (t.1, t.2.1))) =
          some [(true, false)]) := by
  have hsa := IngressPipe_replySummary H self a.rxMsgInfo0 a.egressMeta0 a.iph a.homah a.cp
    a.protocol _ _ _ _ hH hpa hia hfa rfl rfl rfl rfl
  have hsb := IngressPipe_replySummary H self b.rxMsgInfo0 b.egressMeta0 b.iph b.homah b.cp
    b.protocol _ _ _ _ hH hpb hib hfb rfl rfl rfl rfl
  rw [hprioa] at hsa
  rw [hpriob] at hsb
  obtain ⟨ra, hra, hXa⟩ := Option.map_eq_some'.mp hsa
  obtain ⟨rb, hrb, hXb⟩ := Option.map_eq_some'.mp hsb
  have hra' : self.receive H a = some ra := hra
  have hrb' : self.receive H b = some rb := hrb
  rw [hra', hrb']
  simp only [Option.map_some', hXa, hXb, List.map_cons, List.map_nil, Option.some.injEq,
    List.cons.injEq, and_true, decide_eq_true_eq, Prod.mk.injEq, decide_eq_false_iff_not, not_not]
  constructor
  · intro hne hga hgb
    have ha : (self.m_scheduledMsgs p).head? = some _ := hga.resolve_left hne
    have hb : (self.m_scheduledMsgs p).head? = some _ := hgb.resolve_left hne
    rw [ha] at hb
    exact Option.some.inj hb
  · intro hempty
    exact ⟨⟨Or.inl hempty, Or.inl hempty⟩, ⟨Or.inl hempty, Or.inl hempty⟩⟩

/-- Witness for C12 (amended): with the 12-packet message 0 at the head of the queue of priority
0, its packets 1 and 2 are both answered with GRANT, and they have the same `rxMsgId`. -/
theorem IngressPipe_single_active_witness :
    (sampleReceiverScheduled.m_reassemble.GetRxMsgInfo (sampleDataPacket 0 12 1).rxMsgInfo0
        (sampleDataPacket 0 12 1).iph.source (sampleDataPacket 0 12 1).homah.srcPort
        (sampleDataPacket 0 12 1).homah.txMsgId (sampleDataPacket 0 12 1).homah.msgLen
        (sampleDataPacket 0 12 1).homah.pktOffset).1.rxMsgId =
      (sampleReceiverScheduled.m_reassemble.GetRxMsgInfo (sampleDataPacket 0 12 2).rxMsgInfo0
        (sampleDataPacket 0 12 2).iph.source (sampleDataPacket 0 12 2).homah.srcPort
        (sampleDataPacket 0 12 2).homah.txMsgId (sampleDataPacket 0 12 2).homah.msgLen
        (sampleDataPacket 0 12 2).homah.pktOffset).1.rxMsgId :=
  (IngressPipe_single_active sampleHomaConstants sampleReceiverScheduled (sampleDataPacket 0 12 1)
    (sampleDataPacket 0 12 2) 0 (by decide) rfl rfl (by decide) rfl rfl (by decide) rfl rfl).1
    (by decide) (by decide!) (by decide!)

/-! ## Properties of the Homa egress pipeline -/

/-- The state after `EgressPipe`: a data packet flagged as belonging to a new message
caches the priority of its message length under its `txMsgId`; nothing else
changes. -/
theorem EgressPipe_state (H : HomaConstants) (self : HomaNanoPuArchtEgressPipe)
    (homah0 : HomaHeader) (SourceAddressSelection : Nat → Nat) (p : Packet)
    (egressMeta : egressMeta_t) :
    (self.EgressPipe H homah0 SourceAddressSelection p egressMeta).1 =
      if egressMeta.isData = true ∧ egressMeta.isNewMsg = true then
        { self with
          m_priorities :=
            Function.update self.m_priorities egressMeta.txMsgId (self.GetPriority egressMeta.msgLen) }
      else self := by
  unfold HomaNanoPuArchtEgressPipe.EgressPipe
  cases hd : egressMeta.isData <;> cases hn : egressMeta.isNewMsg <;>
    cases hr : egressMeta.isRtx <;> simp

/-- The priority that `EgressPipe` writes to the IPv4 header and to the packet tag: the
cached priority of the `txMsgId` for a data packet that is not a retransmission, 0
for every other packet. -/
theorem EgressPipe_tos (H : HomaConstants) (self : HomaNanoPuArchtEgressPipe)
    (homah0 : HomaHeader) (SourceAddressSelection : Nat → Nat) (p : Packet)
    (egressMeta : egressMeta_t) :
    (self.EgressPipe H homah0 SourceAddressSelection p egressMeta).2.2.ipTos =
      some (if egressMeta.isData = true ∧ egressMeta.isRtx = false then
        (self.EgressPipe H homah0 SourceAddressSelection p egressMeta).1.m_priorities
          egressMeta.txMsgId
        else 0) ∧
    (self.EgressPipe H homah0 SourceAddressSelection p egressMeta).2.2.tosTags =
      (if egressMeta.isData = true ∧ egressMeta.isRtx = false then
        (self.EgressPipe H homah0 SourceAddressSelection p egressMeta).1.m_priorities
          egressMeta.txMsgId
        else 0) :: p.tosTags := by
  unfold HomaNanoPuArchtEgressPipe.EgressPipe
  cases hd : egressMeta.isData <;> cases hn : egressMeta.isNewMsg <;>
    cases hr : egressMeta.isRtx <;>
    simp [Packet.ipTos, Packet.AddHeader, Packet.AddPacketTag, Packet.RemoveAtEnd]

/-- C19: for every packet sent through `EgressPipe`, the priority written to the
type-of-service field of the IPv4 header and to the priority tag is 0 for a control
packet and for a data packet flagged as a retransmission, and the cached priority
of the packet's `txMsgId` for every other data packet; that cached priority is the
priority of the packet's own message length when it is flagged as belonging to a
new message, and the one cached before otherwise. -/
theorem EgressPipe_priority (H : HomaConstants) (self : HomaNanoPuArchtEgressPipe)
    (homah0 : HomaHeader) (SourceAddressSelection : Nat → Nat) (p : Packet)
    (egressMeta : egressMeta_t) :
    (self.EgressPipe H homah0 SourceAddressSelection p egressMeta).2.2.ipTos =
      some (if egressMeta.isData = false ∨ egressMeta.isRtx = true then 0
        else (self.EgressPipe H homah0 SourceAddressSelection p egressMeta).1.m_priorities
          egressMeta.txMsgId) ∧
    (self.EgressPipe H homah0 SourceAddressSelection p egressMeta).2.2.tosTags =
      (if egressMeta.isData = false ∨ egressMeta.isRtx = true then 0
        else (self.EgressPipe H homah0 SourceAddressSelection p egressMeta).1.m_priorities
          egressMeta.txMsgId) :: p.tosTags ∧
    (self.EgressPipe H homah0 SourceAddressSelection p egressMeta).1.m_priorities
        egressMeta.txMsgId =
      (if egressMeta.isData = true ∧ egressMeta.isNewMsg = true then
        self.GetPriority egressMeta.msgLen
      else self.m_priorities egressMeta.txMsgId) := by
  obtain ⟨h1, h2⟩ := EgressPipe_tos H self homah0 SourceAddressSelection p egressMeta
  rw [h1, h2, EgressPipe_state]
  cases hd : egressMeta.isData <;> cases hn : egressMeta.isNewMsg <;>
    cases hr : egressMeta.isRtx <;> simp

/-- One packet of another message leaves the cached priority of a message alone. -/
theorem send_priorities_of_ne (H : HomaConstants) (SourceAddressSelection : Nat → Nat)
    (self : HomaNanoPuArchtEgressPipe) (a : EgressPipeArgs) (t : Nat)
    (h : ¬(a.egressMeta.isData = true ∧ a.egressMeta.isNewMsg = true ∧ a.egressMeta.txMsgId = t)) :
    (self.send H SourceAddressSelection a).1.m_priorities t = self.m_priorities t ∧
    (self.send H SourceAddressSelection a).1.m_priorityCutoffs = self.m_priorityCutoffs := by
  unfold HomaNanoPuArchtEgressPipe.send
  rw [EgressPipe_state]
  by_cases hc : a.egressMeta.isData = true ∧ a.egressMeta.isNewMsg = true
  · have hne : t ≠ a.egressMeta.txMsgId := fun ht => h ⟨hc.1, hc.2, ht.symm⟩
    rw [if_pos hc]
    exact ⟨Function.update_noteq hne _ _, rfl⟩
  · rw [if_neg hc]
    exact ⟨rfl, rfl⟩

/-- A sequence of packets none of which is a data packet of message `t` flagged as new
leaves the cached priority of `t` alone. -/
theorem sendAll_priorities_of_ne (H : HomaConstants) (SourceAddressSelection : Nat → Nat)
    (t : Nat) (between : List EgressPipeArgs) :
    ∀ self : HomaNanoPuArchtEgressPipe,
      (∀ a ∈ between,
        ¬(a.egressMeta.isData = true ∧ a.egressMeta.isNewMsg = true ∧ a.egressMeta.txMsgId = t)) →
      (self.sendAll H SourceAddressSelection between).1.m_priorities t = self.m_priorities t ∧
      (self.sendAll H SourceAddressSelection between).1.m_priorityCutoffs =
        self.m_priorityCutoffs := by
  induction between with
  | nil => intro self _; exact ⟨rfl, rfl⟩
  | cons a rest ih =>
    intro self h
    have h1 := send_priorities_of_ne H SourceAddressSelection self a t (h a (List.mem_cons_self _ _))
    have h2 := ih (self.send H SourceAddressSelection a).1
      (fun b hb => h b (List.mem_cons_of_mem _ hb))
    show ((self.send H SourceAddressSelection a).1.sendAll H SourceAddressSelection rest).1.m_priorities t
        = _ ∧
      ((self.send H SourceAddressSelection a).1.sendAll H SourceAddressSelection
        rest).1.m_priorityCutoffs = _
    exact ⟨h2.1.trans h1.1, h2.2.trans h1.2⟩

/-- C20: once a data packet of message `t` flagged as new, with message length `L`, has been
sent, and whatever packets follow as long as none of them is a packet of `t` flagged
as new, a further data packet of `t` that is not a retransmission is sent with the
priority `GetPriority (L)`, whatever message length its own metadata carries; and a
packet of another `txMsgId` does not alter the cached priority of `t`. -/
theorem sendAll_cached_priority (H : HomaConstants) (SourceAddressSelection : Nat → Nat)
    (self : HomaNanoPuArchtEgressPipe) (first : EgressPipeArgs) (between : List EgressPipeArgs)
    (last other : EgressPipeArgs) (t L : Nat)
    (hdata : first.egressMeta.isData = true) (hnew : first.egressMeta.isNewMsg = true)
    (ht : first.egressMeta.txMsgId = t) (hL : first.egressMeta.msgLen = L)
    (hbetween : ∀ a ∈ between, ¬(a.egressMeta.txMsgId = t ∧ a.egressMeta.isNewMsg = true))
    (hldata : last.egressMeta.isData = true) (hlrtx : last.egressMeta.isRtx = false)
    (hlnew : last.egressMeta.isNewMsg = false) (hlt : last.egressMeta.txMsgId = t)
    (hother : other.egressMeta.txMsgId ≠ t) :
    (((self.sendAll H SourceAddressSelection (first :: between)).1.send H SourceAddressSelection
        last).2.2.ipTos = some (self.GetPriority L)) ∧
    (((self.sendAll H SourceAddressSelection (first :: between)).1.send H SourceAddressSelection
        last).2.2.tosTags = self.GetPriority L :: last.p.tosTags) ∧
    ((self.sendAll H SourceAddressSelection (first :: between)).1.send H SourceAddressSelection
        other).1.m_priorities t = self.GetPriority L := by
  have hfirst : (self.send H SourceAddressSelection first).1.m_priorities t = self.GetPriority L := by
    unfold HomaNanoPuArchtEgressPipe.send
    rw [EgressPipe_state, if_pos ⟨hdata, hnew⟩, ht, hL]
    exact Function.update_same _ _ _
  have hrest := sendAll_priorities_of_ne H SourceAddressSelection t between
    (self.send H SourceAddressSelection first).1
    (fun a ha hc => hbetween a ha ⟨hc.2.2, hc.2.1⟩)
  have hstate : (self.sendAll H SourceAddressSelection (first :: between)).1.m_priorities t =
      self.GetPriority L := hrest.1.trans hfirst
  have hlast := EgressPipe_tos H (self.sendAll H SourceAddressSelection (first :: between)).1
    last.homah0 SourceAddressSelection last.p last.egressMeta
  refine ⟨?_, ?_, ?_⟩
  · unfold HomaNanoPuArchtEgressPipe.send
    rw [hlast.1, EgressPipe_state]
    simp [hldata, hlrtx, hlnew, hlt, hstate]
  · unfold HomaNanoPuArchtEgressPipe.send
    rw [hlast.2, EgressPipe_state]
    simp [hldata, hlrtx, hlnew, hlt, hstate]
  · rw [(send_priorities_of_ne H SourceAddressSelection _ other t
      (fun hc => hother hc.2.2)).1]
    exact hstate

/-- Witness for C20: message 7 is announced with 30 packets (priority 2); a new message 8
of 3 packets and a retransmission of message 7 follow; the next packet of message 7,
whose metadata carries the length 2, is sent with priority 2, and a packet of message
8 leaves the cached priority of message 7 at 2. -/
theorem sendAll_cached_priority_witness :
    (((sampleSender.sendAll sampleHomaConstants (fun _ => 167772417)
        (sampleEgressData 7 30 0 4 true false ::
          [sampleEgressData 8 3 0 4 true false, sampleEgressData 7 30 1 4 false true])).1.send
        sampleHomaConstants (fun _ => 167772417)
        (sampleEgressData 7 2 2 4 false false)).2.2.ipTos = some 2) ∧
    (((sampleSender.sendAll sampleHomaConstants (fun _ => 167772417)
        (sampleEgressData 7 30 0 4 true false ::
          [sampleEgressData 8 3 0 4 true false, sampleEgressData 7 30 1 4 false true])).1.send
        sampleHomaConstants (fun _ => 167772417)
        (sampleEgressData 7 2 2 4 false false)).2.2.tosTags = [2]) ∧
    ((sampleSender.sendAll sampleHomaConstants (fun _ => 167772417)
        (sampleEgressData 7 30 0 4 true false ::
          [sampleEgressData 8 3 0 4 true false, sampleEgressData 7 30 1 4 false true])).1.send
        sampleHomaConstants (fun _ => 167772417)
        (sampleEgressData 8 3 1 4 false false)).1.m_priorities 7 = 2 :=
  sendAll_cached_priority sampleHomaConstants (fun _ => 167772417) sampleSender
    (sampleEgressData 7 30 0 4 true false)
    [sampleEgressData 8 3 0 4 true false, sampleEgressData 7 30 1 4 false true]
    (sampleEgressData 7 2 2 4 false false) (sampleEgressData 8 3 1 4 false false) 7 30
    rfl rfl rfl rfl (by decide) rfl rfl rfl rfl (by decide)

/-- C21: for every data packet sent through `EgressPipe` whose size fits the 16-bit
variable `payloadSize`: a packet flagged as a retransmission leaves with a Homa
header of flag RESEND and payload size 0 and with its whole payload removed; any
other data packet leaves with a Homa header of flag DATA and the packet's size
as payload size, and with its payload kept; in both cases the source port,
destination port, `txMsgId`, `msgLen` and `pktOffset` of the header are those of the
egress metadata. -/
theorem EgressPipe_data_header (H : HomaConstants) (self : HomaNanoPuArchtEgressPipe)
    (homah0 : HomaHeader) (SourceAddressSelection : Nat → Nat) (p : Packet)
    (egressMeta : egressMeta_t)
    (hdata : egressMeta.isData = true) (hsize : p.GetSize H < 65536) :
    (self.EgressPipe H homah0 SourceAddressSelection p egressMeta).2.2.homaHeader =
      some
        { homah0 with
          srcPort := egressMeta.srcPort
          dstPort := egressMeta.dstPort
          txMsgId := egressMeta.txMsgId
          msgLen := egressMeta.msgLen
          pktOffset := egressMeta.pktOffset
          flags := if egressMeta.isRtx = true then H.RESEND else H.DATA
          payloadSize := if egressMeta.isRtx = true then 0 else p.GetSize H } ∧
    (self.EgressPipe H homah0 SourceAddressSelection p egressMeta).2.2.payload =
      (if egressMeta.isRtx = true then [] else p.payload) := by
  have hmod : p.GetSize H % 65536 = p.GetSize H := Nat.mod_eq_of_lt hsize
  have hle : p.payload.length ≤ p.GetSize H := by
    unfold Packet.GetSize; omega
  unfold HomaNanoPuArchtEgressPipe.EgressPipe
  cases hn : egressMeta.isNewMsg <;> cases hr : egressMeta.isRtx <;>
    simp [hdata, hmod, Packet.homaHeader, Packet.AddHeader, Packet.AddPacketTag,
      Packet.RemoveAtEnd, Nat.sub_eq_zero_of_le hle]

/-- Witness for C21: a retransmission of packet 1 of the 30-packet message 7 with 4 payload bytes
leaves with flag RESEND (8), payload size 0 and no payload. -/
theorem EgressPipe_data_header_witness :
    (sampleSender.EgressPipe sampleHomaConstants (sampleEgressData 7 30 1 4 false true).homah0
        (fun _ => 167772417) (sampleEgressData 7 30 1 4 false true).p
        (sampleEgressData 7 30 1 4 false true).egressMeta).2.2.homaHeader =
      some ⟨111, 222, 7, 8, 30, 1, 0, 0, 0⟩ ∧
    (sampleSender.EgressPipe sampleHomaConstants (sampleEgressData 7 30 1 4 false true).homah0
        (fun _ => 167772417) (sampleEgressData 7 30 1 4 false true).p
        (sampleEgressData 7 30 1 4 false true).egressMeta).2.2.payload = [] :=
  EgressPipe_data_header sampleHomaConstants sampleSender
    (sampleEgressData 7 30 1 4 false true).homah0 (fun _ => 167772417)
    (sampleEgressData 7 30 1 4 false true).p (sampleEgressData 7 30 1 4 false true).egressMeta
    rfl (by decide)

/-! ## Properties of the priority classifier -/

/-- The loop of `GetPriority` started at `k`, on a list short enough for the 8-bit counter
not to wrap: `k` plus the index of the first threshold not below `msgLen`. -/
theorem GetPriorityLoop_eq_findIdx (msgLen : Nat) :
    ∀ (l : List Nat) (k : Nat), k + l.length ≤ 255 →
      GetPriorityLoop msgLen l k = k + l.findIdx (fun t => decide (msgLen ≤ t)) := by
  intro l
  induction l with
  | nil => intro k _; simp [GetPriorityLoop]
  | cons t rest ih =>
    intro k hk
    simp only [List.length_cons] at hk
    by_cases h : msgLen ≤ t
    · simp [GetPriorityLoop, List.findIdx_cons, h]
    · have hmod : (k + 1) % 256 = k + 1 := Nat.mod_eq_of_lt (by omega)
      simp only [GetPriorityLoop, h, if_false, hmod, List.findIdx_cons, decide_False, cond_false]
      rw [ih (k + 1) (by omega)]
      omega

/-- The index of the first threshold not below the message length does not decrease
when the message length grows. -/
theorem findIdx_le_findIdx (a b : Nat) (hab : a ≤ b) :
    ∀ l : List Nat,
      l.findIdx (fun t => decide (a ≤ t)) ≤ l.findIdx (fun t => decide (b ≤ t)) := by
  intro l
  induction l with
  | nil => simp
  | cons t rest ih =>
    by_cases hb : b ≤ t
    · have ha : a ≤ t := by omega
      simp [List.findIdx_cons, ha, hb]
    · by_cases ha : a ≤ t
      · simp [List.findIdx_cons, ha, hb]
      · simp only [List.findIdx_cons, ha, hb, decide_False, cond_false]
        omega

/-- C22: for a list of at most 255 priority thresholds and every message length,
`GetPriority (msgLen)` is the index of the first threshold `t` with `msgLen ≤ t`, or the
number of thresholds when there is none: every threshold before that index is
below `msgLen`, the threshold at that index, if there is one, is not below `msgLen`,
and the result is at most the number of thresholds; with no thresholds
configured the result is 0. -/
theorem GetPriority_eq_firstThresholdIndex (self : HomaNanoPuArchtIngressPipe) (msgLen : Nat)
    (hlen : self.m_priorities.length ≤ 255) :
    self.GetPriority msgLen = firstThresholdIndex self.m_priorities msgLen ∧
    self.GetPriority msgLen ≤ self.m_priorities.length ∧
    (∀ j t, self.m_priorities[j]? = some t → j < self.GetPriority msgLen → t < msgLen) ∧
    (∀ t, self.m_priorities[self.GetPriority msgLen]? = some t → msgLen ≤ t) ∧
    ({ self with m_priorities := [] } : HomaNanoPuArchtIngressPipe).GetPriority msgLen = 0 := by
  have hidx : self.GetPriority msgLen =
      self.m_priorities.findIdx (fun t => decide (msgLen ≤ t)) := by
    unfold HomaNanoPuArchtIngressPipe.GetPriority
    rw [GetPriorityLoop_eq_findIdx msgLen self.m_priorities 0 (by omega)]
    omega
  refine ⟨hidx, ?_, ?_, ?_, rfl⟩
  · rw [hidx]; exact List.findIdx_le_length _
  · intro j t hj hlt
    rw [hidx] at hlt
    obtain ⟨hjlen, hget⟩ := List.getElem?_eq_some.mp hj
    have := List.not_of_lt_findIdx hlt
    rw [hget] at this
    simpa using this
  · intro t ht
    rw [hidx] at ht
    obtain ⟨hjlen, hget⟩ := List.getElem?_eq_some.mp ht
    have := @List.findIdx_getElem _ (fun t => decide (msgLen ≤ t)) self.m_priorities hjlen
    rw [hget] at this
    simpa using this

/-- Witness for C22: with the thresholds 5, 25 and 100 a message of 30 packets has priority 2. -/
theorem GetPriority_eq_firstThresholdIndex_witness :
    ({ sampleReceiver with m_priorities := [5, 25, 100] } : HomaNanoPuArchtIngressPipe).GetPriority 30 =
      2 :=
  (GetPriority_eq_firstThresholdIndex
    ({ sampleReceiver with m_priorities := [5, 25, 100] } : HomaNanoPuArchtIngressPipe) 30
    (by decide)).1

/-- C23: for a list of at most 255 priority thresholds, sorted or not, `GetPriority` is
monotonically non-decreasing in the message length. -/
theorem GetPriority_mono (self : HomaNanoPuArchtIngressPipe) (a b : Nat)
    (hlen : self.m_priorities.length ≤ 255) (hab : a ≤ b) :
    self.GetPriority a ≤ self.GetPriority b := by
  unfold HomaNanoPuArchtIngressPipe.GetPriority
  rw [GetPriorityLoop_eq_findIdx a self.m_priorities 0 (by omega),
    GetPriorityLoop_eq_findIdx b self.m_priorities 0 (by omega)]
  have := findIdx_le_findIdx a b hab self.m_priorities
  omega

/-- Witness for C23: with the unsorted thresholds 25, 5 and 100, the priority of a message of 6
packets (0) is at most that of a message of 30 packets (2). -/
theorem GetPriority_mono_witness :
    ({ sampleReceiver with m_priorities := [25, 5, 100] } : HomaNanoPuArchtIngressPipe).GetPriority 6 ≤
      ({ sampleReceiver with m_priorities := [25, 5, 100] } : HomaNanoPuArchtIngressPipe).GetPriority
        30 :=
  GetPriority_mono ({ sampleReceiver with m_priorities := [25, 5, 100] } : HomaNanoPuArchtIngressPipe)
    6 30 (by decide) (by decide)

/-- C29: the priority classifier of the sender and that of the receiver agree: an egress
pipeline whose cutoffs are the list that an ingress pipeline has as its thresholds
returns, for every message length, the same priority as the ingress pipeline
(whatever the length of the list). -/
theorem GetPriority_egress_eq_ingress (sender : HomaNanoPuArchtEgressPipe)
    (receiver : HomaNanoPuArchtIngressPipe) (msgLen : Nat)
    (hlist : sender.m_priorityCutoffs = receiver.m_priorities) :
    sender.GetPriority msgLen = receiver.GetPriority msgLen := by
  unfold HomaNanoPuArchtEgressPipe.GetPriority HomaNanoPuArchtIngressPipe.GetPriority
  rw [hlist]

/-- Witness for C29: with the list 5, 25, 100 both classifiers give a message of 30 packets the
priority 2. -/
theorem GetPriority_egress_eq_ingress_witness :
    sampleSender.GetPriority 30 =
      ({ sampleReceiver with m_priorities := [5, 25, 100] } : HomaNanoPuArchtIngressPipe).GetPriority
        30 :=
  GetPriority_egress_eq_ingress sampleSender
    ({ sampleReceiver with m_priorities := [5, 25, 100] } : HomaNanoPuArchtIngressPipe) 30 rfl

/-! ## Further properties of the reassembly buffer -/

/-- C25: `GetRxMsgInfo` leaves every stored receive bitmap as it is: for every call (known
flow, new flow or exhausted pool) and every `rxMsgId` that has a stored bitmap before
the call, the bitmap stored for it after the call is the same, so every bit that
was set is still set. -/
theorem GetRxMsgInfo_receivedBitmap_preserved (self : NanoPuArchtReassemble)
    (rxMsgInfo : rxMsgInfoMeta_t) (srcIp srcPort txMsgId msgLen pktOffset id : Nat) (bm : bitmap_t)
    (hbm : self.m_receivedBitmap.lookup id = some bm) :
    (self.GetRxMsgInfo rxMsgInfo srcIp srcPort txMsgId msgLen pktOffset).2.m_receivedBitmap.lookup id =
      some bm ∧
    (∀ i : Nat, bm.testBit i = true →
      ((self.GetRxMsgInfo rxMsgInfo srcIp srcPort txMsgId msgLen pktOffset).2.receivedBitmapAt
        id).testBit i = true) := by
  have hkeep : (self.GetRxMsgInfo rxMsgInfo srcIp srcPort txMsgId msgLen
      pktOffset).2.m_receivedBitmap.lookup id = some bm := by
    cases hreg : self.m_rxMsgIdTable.lookup ⟨srcIp, srcPort, txMsgId⟩ with
    | some entry =>
      rw [GetRxMsgInfo_of_known self _ _ _ _ _ _ entry hreg]
      exact hbm
    | none =>
      cases hfree : self.m_rxMsgIdFreeList with
      | nil =>
        rw [GetRxMsgInfo_of_exhausted self _ _ _ _ _ _ hreg hfree]
        exact hbm
      | cons front rest =>
        rw [GetRxMsgInfo_of_new self _ _ _ _ _ _ front rest hreg hfree]
        show (unorderedMapInsert self.m_receivedBitmap front 0).lookup id = some bm
        unfold unorderedMapInsert
        cases hfront : self.m_receivedBitmap.lookup front with
        | some _ => exact hbm
        | none =>
          have hne : id ≠ front := by
            intro h
            rw [h, hfront] at hbm
            exact Option.noConfusion hbm
          have hb : (id == front) = false := by simpa using hne
          show List.lookup id ((front, 0) :: self.m_receivedBitmap) = some bm
          rw [List.lookup_cons, hb]
          exact hbm
  refine ⟨hkeep, ?_⟩
  intro i hi
  unfold NanoPuArchtReassemble.receivedBitmapAt
  rw [hkeep]
  exact hi

/-- Witness for C25: while message 0 is registered with the packets 0 and 2 received (bitmap 5),
the first packet of the new message 1 leaves that bitmap at 5. -/
theorem GetRxMsgInfo_receivedBitmap_preserved_witness :
    (({ m_rxMsgIdFreeList := [1, 2]
        m_rxMsgIdTable := [(⟨10, 111, 0⟩, 0)]
        m_receivedBitmap := [(0, 5)] } : NanoPuArchtReassemble).GetRxMsgInfo
      ⟨0, 0, false, false, false⟩ 10 111 1 6 0).2.m_receivedBitmap.lookup 0 = some 5 :=
  (GetRxMsgInfo_receivedBitmap_preserved
    { m_rxMsgIdFreeList := [1, 2]
      m_rxMsgIdTable := [(⟨10, 111, 0⟩, 0)]
      m_receivedBitmap := [(0, 5)] }
    ⟨0, 0, false, false, false⟩ 10 111 1 6 0 0 5 rfl).1

/-- C26: in every state reached from a freshly constructed buffer for `maxMessages` messages by
`GetRxMsgInfo` calls, the free list has no duplicates, the `rxMsgId`s registered in the
flow-key table are disjoint from the free list, an id is registered or free
exactly when it is below `maxMessages`, and the number of registered flows plus the
number of free ids is `maxMessages`. -/
theorem reachable_ids_partition (maxMessages : Nat) (cs : List GetRxMsgInfoArgs) :
    ((NanoPuArchtReassemble.CreateObject maxMessages).calls cs).2.m_rxMsgIdFreeList.Nodup ∧
    List.Disjoint
      (((NanoPuArchtReassemble.CreateObject maxMessages).calls cs).2.m_rxMsgIdTable.map Prod.snd)
      ((NanoPuArchtReassemble.CreateObject maxMessages).calls cs).2.m_rxMsgIdFreeList ∧
    (∀ id : Nat,
      (id ∈ ((NanoPuArchtReassemble.CreateObject maxMessages).calls cs).2.m_rxMsgIdTable.map Prod.snd ∨
        id ∈ ((NanoPuArchtReassemble.CreateObject maxMessages).calls cs).2.m_rxMsgIdFreeList) ↔
      id < maxMessages) ∧
    ((NanoPuArchtReassemble.CreateObject maxMessages).calls cs).2.m_rxMsgIdTable.length +
        ((NanoPuArchtReassemble.CreateObject maxMessages).calls cs).2.m_rxMsgIdFreeList.length =
      maxMessages := by
  obtain ⟨hids, -, -⟩ := Invariant_reachable maxMessages cs
  have hall : (List.range maxMessages).Nodup := List.nodup_range _
  rw [← hids, List.nodup_append] at hall
  refine ⟨hall.2.1, ?_, ?_, ?_⟩
  · intro id hmem hfree
    exact hall.2.2 (List.mem_reverse.mpr hmem) hfree
  · intro id
    rw [← List.mem_range, ← hids, List.mem_append, List.mem_reverse]
  · have hlen := congrArg List.length hids
    simpa using hlen

/-! ### Further claims about the reply to a DATA or RESEND packet -/

/-- C27: the one control reply to a DATA or RESEND packet is addressed back to the sender: the
destination IP of its egress metadata is the packet's source IP, its destination
port is the packet's source port, its source port is the packet's destination
port, it echoes the packet's `txMsgId`, `msgLen` and `pktOffset`, its payload size is
0 and its priority field is `GetPriority (msgLen)`; it is marked as a control
packet. -/
theorem IngressPipe_reply_addressing (H : HomaConstants) (self : HomaNanoPuArchtIngressPipe)
    (rxMsgInfo0 : rxMsgInfoMeta_t) (egressMeta0 : egressMeta_t)
    (iph : Ipv4Header) (homah : HomaHeader) (cp : Packet) (protocol : Nat)
    (hproto : protocol = 0x0800) (hprot : iph.protocol = H.PROT_NUMBER)
    (hflag : homah.flags &&& H.DATA ≠ 0 ∨ homah.flags &&& H.RESEND ≠ 0) :
    (self.IngressPipe H rxMsgInfo0 egressMeta0 iph homah cp protocol).map
        (fun r => (controlReplies r.2).map
          (fun c => (c.2.dstIP, c.2.isData, c.1.dstPort, c.1.srcPort, c.1.txMsgId, c.1.msgLen,
            c.1.pktOffset, c.1.payloadSize, c.1.prio))) =
      some [(iph.source, false, homah.srcPort, homah.dstPort, homah.txMsgId, homah.msgLen,
        homah.pktOffset, 0, self.GetPriority homah.msgLen)] := by
  rw [IngressPipe_data_or_resend H self rxMsgInfo0 egressMeta0 iph homah cp protocol _ _ _ _ _ _
    hproto hprot hflag rfl rfl rfl rfl rfl rfl]
  simp only [Option.map_some', controlReplies_reply_cons, List.map_cons, List.map_nil]

/-- Witness for C27: the reply to the first DATA packet of message 0 from `10.0.1.1`, port 111, to
port 222 goes to `10.0.1.1`, port 222 to port 111. -/
theorem IngressPipe_reply_addressing_witness :
    (sampleReceiver.IngressPipe sampleHomaConstants ⟨0, 0, false, false, false⟩
        ⟨false, false, false, 0, 0, 0, 0, 0, 0⟩ sampleIpv4Header (sampleHomaHeader 1 0 0)
        Packet.Create 0x0800).map
      (fun r => (controlReplies r.2).map
        (fun c => (c.2.dstIP, c.2.isData, c.1.dstPort, c.1.srcPort, c.1.txMsgId, c.1.msgLen,
          c.1.pktOffset, c.1.payloadSize, c.1.prio))) =
      some [(167772417, false, 111, 222, 0, 6, 0, 0, 0)] :=
  IngressPipe_reply_addressing sampleHomaConstants sampleReceiver ⟨0, 0, false, false, false⟩
    ⟨false, false, false, 0, 0, 0, 0, 0, 0⟩ sampleIpv4Header (sampleHomaHeader 1 0 0)
    Packet.Create 0x0800 rfl rfl (by decide)

/-- C28: the one control reply to a DATA or RESEND packet carries the RSNDRSPNS flag exactly when
the packet has the RESEND flag and `GetRxMsgInfo` reported `isNewPkt = true`; so a reply
to a packet without the RESEND flag never carries it. -/
theorem IngressPipe_reply_rsndrspns (H : HomaConstants) (self : HomaNanoPuArchtIngressPipe)
    (rxMsgInfo0 : rxMsgInfoMeta_t) (egressMeta0 : egressMeta_t)
    (iph : Ipv4Header) (homah : HomaHeader) (cp : Packet) (protocol : Nat)
    (hH : H.FlagsAreBitmask)
    (hproto : protocol = 0x0800) (hprot : iph.protocol = H.PROT_NUMBER)
    (hflag : homah.flags &&& H.DATA ≠ 0 ∨ homah.flags &&& H.RESEND ≠ 0) :
    (self.IngressPipe H rxMsgInfo0 egressMeta0 iph homah cp protocol).map
        (fun r => (controlReplies r.2).map (fun c => decide (c.1.flags &&& H.RSNDRSPNS ≠ 0))) =
      some [decide (homah.flags &&& H.RESEND ≠ 0 ∧
        (self.m_reassemble.GetRxMsgInfo rxMsgInfo0 iph.source homah.srcPort homah.txMsgId
          homah.msgLen homah.pktOffset).1.isNewPkt = true)] := by
  obtain ⟨-, hG, hB, -, hR, hnd⟩ := hH
  simp only [List.nodup_cons, List.mem_cons, List.mem_singleton, not_or, List.not_mem_nil,
    not_false_eq_true, List.nodup_nil, and_true] at hnd
  have hGR : H.GRANT ≠ H.RSNDRSPNS := hnd.2.1.2.2
  have hBR : H.BUSY ≠ H.RSNDRSPNS := hnd.2.2.1.2
  rw [IngressPipe_data_or_resend H self rxMsgInfo0 egressMeta0 iph homah cp protocol _ _ _ _ _ _
    hproto hprot hflag rfl rfl rfl rfl rfl rfl]
  simp only [Option.map_some', controlReplies_reply_cons, List.map_cons, List.map_nil,
    Option.some.injEq, List.cons.injEq, and_true]
  by_cases hc : homah.flags &&& H.RESEND ≠ 0 ∧
      (self.m_reassemble.GetRxMsgInfo rxMsgInfo0 iph.source homah.srcPort homah.txMsgId
        homah.msgLen homah.pktOffset).1.isNewPkt = true
  · rw [if_pos hc, zero_or_flag H.RSNDRSPNS hR]
    have h1 : ((H.RSNDRSPNS ||| H.GRANT) % 256) &&& H.RSNDRSPNS ≠ 0 := by
      rw [Nat.lor_comm]; exact or_flag_and_self H.GRANT H.RSNDRSPNS (Or.inr hG) hR
    have h2 : ((H.RSNDRSPNS ||| H.BUSY) % 256) &&& H.RSNDRSPNS ≠ 0 := by
      rw [Nat.lor_comm]; exact or_flag_and_self H.BUSY H.RSNDRSPNS (Or.inr hB) hR
    split <;> simp [h1, h2, hc]
  · rw [if_neg hc]
    have h1 : (H.GRANT % 256) &&& H.RSNDRSPNS = 0 := by
      simpa using or_flag_and_other 0 H.GRANT H.RSNDRSPNS (Or.inl rfl) hG hR hGR
    have h2 : (H.BUSY % 256) &&& H.RSNDRSPNS = 0 := by
      simpa using or_flag_and_other 0 H.BUSY H.RSNDRSPNS (Or.inl rfl) hB hR hBR
    split <;> simp [h1, h2, hc]

/-- Witness for C28: a RESEND packet for packet 0 of a message not seen before (so `isNewPkt` is
true) is answered with a reply that carries RSNDRSPNS. -/
theorem IngressPipe_reply_rsndrspns_witness :
    (sampleReceiver.IngressPipe sampleHomaConstants ⟨0, 0, false, false, false⟩
        ⟨false, false, false, 0, 0, 0, 0, 0, 0⟩ sampleIpv4Header (sampleHomaHeader 8 0 0)
        Packet.Create 0x0800).map
      (fun r => (controlReplies r.2).map
        (fun c => decide (c.1.flags &&& sampleHomaConstants.RSNDRSPNS ≠ 0))) =
      some [true] :=
  IngressPipe_reply_rsndrspns sampleHomaConstants sampleReceiver ⟨0, 0, false, false, false⟩
    ⟨false, false, false, 0, 0, 0, 0, 0, 0⟩ sampleIpv4Header (sampleHomaHeader 8 0 0)
    Packet.Create 0x0800 (by decide) rfl rfl (by decide)

/-- C24: the scheduling state does not depend on whether a DATA packet is a duplicate.  For every
receiver state, every DATA packet of a registered flow, and any two contents of
the receive bitmaps (so in particular one with bit `pktOffset` of the flow's bitmap
set, where `isNewPkt` is false, and one with it unset, where `isNewPkt` is true):
`IngressPipe` returns, and the credit counters, the scheduled queues and the
reply's GRANT flag, BUSY flag and `grantOffset` are the same in both. -/
theorem IngressPipe_duplicate_same_scheduling (H : HomaConstants) (self : HomaNanoPuArchtIngressPipe)
    (bitmap1 bitmap2 : List (Nat × bitmap_t))
    (rxMsgInfo0 : rxMsgInfoMeta_t) (egressMeta0 : egressMeta_t)
    (iph : Ipv4Header) (homah : HomaHeader) (cp : Packet) (protocol id : Nat)
    (hH : H.FlagsAreBitmask)
    (hproto : protocol = 0x0800) (hprot : iph.protocol = H.PROT_NUMBER)
    (hdata : homah.flags &&& H.DATA ≠ 0)
    (hreg : self.m_reassemble.m_rxMsgIdTable.lookup ⟨iph.source, homah.srcPort, homah.txMsgId⟩ =
      some id) :
    ((self.withReceivedBitmap bitmap1).IngressPipe H rxMsgInfo0 egressMeta0 iph homah cp
        protocol).isSome = true ∧
    ((self.withReceivedBitmap bitmap1).IngressPipe H rxMsgInfo0 egressMeta0 iph homah cp
        protocol).map (fun r => (r.1.m_credits, r.1.m_scheduledMsgs, replySummary H r.2)) =
      ((self.withReceivedBitmap bitmap2).IngressPipe H rxMsgInfo0 egressMeta0 iph homah cp
        protocol).map (fun r => (r.1.m_credits, r.1.m_scheduledMsgs, replySummary H r.2)) := by
  obtain ⟨d, hd⟩ : ∃ d : Nat, d = if homah.flags &&& H.RESEND ≠ 0 then 0 else 1 := ⟨_, rfl⟩
  obtain ⟨g, hg⟩ : ∃ g : Nat, g = (self.m_credits id + d) % 65536 := ⟨_, rfl⟩
  obtain ⟨q, hq⟩ : ∃ q : List Nat, q = self.m_scheduledMsgs (self.GetPriority homah.msgLen) :=
    ⟨_, rfl⟩
  have key : ∀ bm : List (Nat × bitmap_t),
      ((self.withReceivedBitmap bm).IngressPipe H rxMsgInfo0 egressMeta0 iph homah cp
        protocol).map (fun r => (r.1.m_credits, r.1.m_scheduledMsgs, replySummary H r.2)) =
      some (Function.update self.m_credits id g,
        Function.update self.m_scheduledMsgs (self.GetPriority homah.msgLen)
          ((if (q = [] ∨ q.head? = some id) ∧ q ≠ [] ∧ homah.msgLen ≤ g then q.tail else q) ++
            (if (q = [] ∨ false = true) ∧ g < homah.msgLen then [id] else [])),
        [(decide (q = [] ∨ q.head? = some id), decide (¬(q = [] ∨ q.head? = some id)), g)]) := by
    intro bm
    have hk := GetRxMsgInfo_of_known (self.withReceivedBitmap bm).m_reassemble rxMsgInfo0
      iph.source homah.srcPort homah.txMsgId homah.msgLen homah.pktOffset id hreg
    obtain ⟨info, hinfo⟩ : ∃ info : rxMsgInfoMeta_t,
        info = ((self.withReceivedBitmap bm).m_reassemble.GetRxMsgInfo rxMsgInfo0 iph.source
          homah.srcPort homah.txMsgId homah.msgLen homah.pktOffset).1 := ⟨_, rfl⟩
    have hid : info.rxMsgId = id := by rw [hinfo, hk]
    have hnew : info.isNewMsg = false := by rw [hinfo, hk]
    have hg2 : g = if info.isNewMsg = true then ((self.withReceivedBitmap bm).m_rttPkts + d) % 65536
        else ((self.withReceivedBitmap bm).m_credits info.rxMsgId + d) % 65536 := by
      rw [hnew, hid, hg]; rfl
    have h1 := IngressPipe_data_or_resend H (self.withReceivedBitmap bm) rxMsgInfo0 egressMeta0
      iph homah cp protocol info d g _ _ q hproto hprot (Or.inl hdata) hinfo hd hg2 rfl hq rfl
    have h2 := IngressPipe_replySummary H (self.withReceivedBitmap bm) rxMsgInfo0 egressMeta0
      iph homah cp protocol info d g q hH hproto hprot (Or.inl hdata) hinfo hd hg2 hq
    rw [h1] at h2
    rw [h1]
    simp only [Option.map_some', Option.some.injEq] at h2 ⊢
    rw [h2, hid, hnew]
    rfl
  refine ⟨?_, (key bitmap1).trans (key bitmap2).symm⟩
  have h := key bitmap1
  cases hres : (self.withReceivedBitmap bitmap1).IngressPipe H rxMsgInfo0 egressMeta0 iph homah
      cp protocol with
  | none => rw [hres] at h; exact Option.noConfusion h
  | some r => rfl

/-- Witness for C24: packet 1 of the registered 12-packet message 0, once with the packets 0 and 1
already received (bitmap 3, a duplicate) and once with only packet 0 received
(bitmap 1): `isNewPkt` differs, the credit counters, queues and reply do not. -/
theorem IngressPipe_duplicate_same_scheduling_witness :
    (((sampleReceiverScheduled.withReceivedBitmap [(0, 3)]).m_reassemble.GetRxMsgInfo
          (sampleDataPacket 0 12 1).rxMsgInfo0 167772417 111 0 12 1).1.isNewPkt = false ∧
      ((sampleReceiverScheduled.withReceivedBitmap [(0, 1)]).m_reassemble.GetRxMsgInfo
          (sampleDataPacket 0 12 1).rxMsgInfo0 167772417 111 0 12 1).1.isNewPkt = true) ∧
    ((sampleReceiverScheduled.withReceivedBitmap [(0, 3)]).IngressPipe sampleHomaConstants
        (sampleDataPacket 0 12 1).rxMsgInfo0 (sampleDataPacket 0 12 1).egressMeta0
        (sampleDataPacket 0 12 1).iph (sampleDataPacket 0 12 1).homah (sampleDataPacket 0 12 1).cp
        (sampleDataPacket 0 12 1).protocol).map
      (fun r => (r.1.m_credits, r.1.m_scheduledMsgs, replySummary sampleHomaConstants r.2)) =
    ((sampleReceiverScheduled.withReceivedBitmap [(0, 1)]).IngressPipe sampleHomaConstants
        (sampleDataPacket 0 12 1).rxMsgInfo0 (sampleDataPacket 0 12 1).egressMeta0
        (sampleDataPacket 0 12 1).iph (sampleDataPacket 0 12 1).homah (sampleDataPacket 0 12 1).cp
        (sampleDataPacket 0 12 1).protocol).map
      (fun r => (r.1.m_credits, r.1.m_scheduledMsgs, replySummary sampleHomaConstants r.2)) :=
  ⟨⟨by decide!, by decide!⟩,
    (IngressPipe_duplicate_same_scheduling sampleHomaConstants sampleReceiverScheduled
      [(0, 3)] [(0, 1)] (sampleDataPacket 0 12 1).rxMsgInfo0 (sampleDataPacket 0 12 1).egressMeta0
      (sampleDataPacket 0 12 1).iph (sampleDataPacket 0 12 1).homah (sampleDataPacket 0 12 1).cp
      (sampleDataPacket 0 12 1).protocol 0 (by decide) rfl rfl (by decide) (by decide)).2⟩

end ns3
